import Mathlib

/-!
# Generic signatures: substitution checking and parameter-list checking

A shallow embedding of `lib/Sema/TypeCheckGeneric.cpp`.  Types, declarations and
the collaborators that live in other files (the archetype builder, type
resolution, conformance lookup) are represented by plain data and by function
parameters; the functions of `TypeCheckGeneric.cpp` itself are transcribed
statement by statement.
-/

namespace Swift

/-! ## Types -/

/-- A source location; only its identity matters here. -/
abbrev SourceLoc := Nat

/-- A `GenericTypeParamType`: a (possibly sugared) name plus the canonical
depth and index. -/
structure GenericTypeParamType where
  name : String
  depth : Nat
  index : Nat
  deriving DecidableEq, Repr

/-- The canonical identity of a generic parameter: depth and index. -/
abbrev GenericParamKey := Nat × Nat

/-- Key of `gp->getCanonicalType()->castTo<GenericTypeParamType>()`. -/
def GenericTypeParamType.getCanonicalType (gp : GenericTypeParamType) : GenericParamKey :=
  (gp.depth, gp.index)

/-- The shapes of `Type` that the checker distinguishes.  Children are kept
binary so that every node has finitely many direct components.  The signature
of a `GenericFunctionType` is the one of the declaration that owns the type
and is not repeated inside it. -/
inductive Ty where
  | error : Ty
  | genericTypeParam (gp : GenericTypeParamType) : Ty
  | dependentMember (base : Ty) (name : String) : Ty
  | structTy (name : String) : Ty
  | classTy (name : String) : Ty
  | boundGenericStruct (name : String) (arg : Ty) : Ty
  | boundGenericClass (name : String) (arg : Ty) : Ty
  | protocol (name : String) : Ty
  | protocolComposition (lhs rhs : Ty) : Ty
  | emptyTuple : Ty
  | tuple (fst snd : Ty) : Ty
  | function (input result : Ty) (throws : Bool) : Ty
  | genericFunction (input result : Ty) (throws : Bool) : Ty
  | optional (implicitlyUnwrapped : Bool) (object : Ty) : Ty
  | dynamicSelf (selfTy : Ty) : Ty
  deriving DecidableEq, Repr

/-- The nodes reached by `Type::visit`, the type itself first, then the types
it contains. -/
def Ty.visit : Ty → List Ty
  | .error => [.error]
  | .genericTypeParam gp => [.genericTypeParam gp]
  | .dependentMember base name => .dependentMember base name :: base.visit
  | .structTy name => [.structTy name]
  | .classTy name => [.classTy name]
  | .boundGenericStruct name arg => .boundGenericStruct name arg :: arg.visit
  | .boundGenericClass name arg => .boundGenericClass name arg :: arg.visit
  | .protocol name => [.protocol name]
  | .protocolComposition lhs rhs => .protocolComposition lhs rhs :: (lhs.visit ++ rhs.visit)
  | .emptyTuple => [.emptyTuple]
  | .tuple a b => .tuple a b :: (a.visit ++ b.visit)
  | .function input result throws =>
    .function input result throws :: (input.visit ++ result.visit)
  | .genericFunction input result throws =>
    .genericFunction input result throws :: (input.visit ++ result.visit)
  | .optional k object => .optional k object :: object.visit
  | .dynamicSelf selfTy => .dynamicSelf selfTy :: selfTy.visit

/-- Result of `type->getAs<GenericTypeParamType>()`. -/
def Ty.getAsGenericTypeParamType : Ty → Option GenericTypeParamType
  | .genericTypeParam gp => some gp
  | _ => none

/-- The `TypeSubstitutionMap`: canonical generic parameter to replacement. -/
abbrev TypeSubstitutionMap := List (GenericParamKey × Ty)

/-- Entry found by `substitutions.find(canonGP)`, if any. -/
def TypeSubstitutionMap.find (substitutions : TypeSubstitutionMap) (key : GenericParamKey) :
    Option Ty :=
  substitutions.lookup key

/-! ## Requirements and signatures -/

inductive RequirementKind where
  | Conformance
  | Superclass
  | SameType
  deriving DecidableEq, Repr

/-- A `Requirement` of a generic signature. -/
structure Requirement where
  kind : RequirementKind
  first : Ty
  second : Ty
  deriving DecidableEq, Repr

/-- A `GenericSignature`: generic parameters and requirements. -/
structure GenericSignature where
  genericParams : List GenericTypeParamType
  requirements : List Requirement
  deriving DecidableEq, Repr

/-! ## Diagnostics -/

inductive DiagID where
  | type_does_not_inherit
  | type_does_not_inherit_requirement
  | types_not_equal
  | types_not_equal_requirement
  | type_does_not_conform
  | requires_conformance_nonprotocol
  | requirement_restricts_self
  | requirement_restricts_self_swift3
  | unreferenced_generic_parameter
  | invalid_member_type_suggest
  | invalid_member_type
  deriving DecidableEq, Repr

/-- A location for a type: the written syntax (`TypeRepr`), the computed type,
and whether it has been validated. -/
structure TypeLoc where
  typeRepr : Option String
  type : Option Ty
  validated : Bool
  deriving DecidableEq, Repr

inductive DiagArg where
  | type (t : Ty)
  | typeLoc (tl : TypeLoc)
  | text (s : String)
  | number (n : Nat)
  deriving DecidableEq, Repr

/-- One emitted diagnostic: where, which message, with which arguments. -/
structure Diagnostic where
  loc : SourceLoc
  id : DiagID
  args : List DiagArg
  deriving DecidableEq, Repr

/-- Something reported while `checkGenericArguments` runs: either by a
`diagnose` call of the function itself, or inside `conformsToProtocol`. -/
inductive Emitted where
  | diagnose (d : Diagnostic)
  | inConformsToProtocol (d : Diagnostic)
  deriving DecidableEq, Repr

/-! ## `gatherGenericParamBindingsText` -/

/-- The set `knownGenericParams` filled by the visitor: the canonical generic
parameters occurring anywhere in `types`. -/
def knownGenericParams (types : List Ty) : List GenericParamKey :=
  types.flatMap fun type =>
    type.visit.filterMap fun t => t.getAsGenericTypeParamType.map (·.getCanonicalType)

/-- The loop over `genericSig->getGenericParams()`; `result` is the
`SmallString` built so far.  An occurring parameter without a substitution
makes the whole function return the empty string. -/
def gatherGenericParamBindingsText.loop (getString : Ty → String)
    (known : List GenericParamKey) (substitutions : TypeSubstitutionMap) :
    List GenericTypeParamType → String → String
  | [], result => result ++ "]"
  | gp :: rest, result =>
    let canonGP := gp.getCanonicalType
    if canonGP ∉ known then
      gatherGenericParamBindingsText.loop getString known substitutions rest result
    else
      let result := if result = "" then result ++ " [with " else result ++ ", "
      let result := result ++ gp.name
      let result := result ++ " = "
      match substitutions.find canonGP with
      | none => ""
      | some found =>
        gatherGenericParamBindingsText.loop getString known substitutions rest
          (result ++ getString found)

/-- The function `gatherGenericParamBindingsText(types, genericSig, substitutions)`;
`getString` is `Type::getString`. -/
def gatherGenericParamBindingsText (getString : Ty → String) (types : List Ty)
    (genericSig : GenericSignature) (substitutions : TypeSubstitutionMap) : String :=
  let known := knownGenericParams types
  if known = [] then ""
  else gatherGenericParamBindingsText.loop getString known substitutions
    genericSig.genericParams ""

/-! ## `checkGenericArguments` -/

/-- The operations `checkGenericArguments` calls that are defined elsewhere. -/
structure TypeChecker where
  /-- `Type::subst(module, substitutions)`; `none` is the null type. -/
  subst : TypeSubstitutionMap → Ty → Option Ty
  /-- `conformsToProtocol(T, proto, dc, Used, loc)`: whether `T` conforms, and
  what the call itself reported at `loc`.  The second argument is the
  substituted second type, which the caller casts to `ProtocolType`. -/
  conformsToProtocol : Ty → Ty → SourceLoc → Bool × List Diagnostic
  /-- `isSubtypeOf(T1, T2, dc)`. -/
  isSubtypeOf : Ty → Ty → Bool
  /-- `T1->isEqual(T2)`. -/
  isEqual : Ty → Ty → Bool
  /-- `Type::getString()`. -/
  getString : Ty → String

/-- The loop of `checkGenericArguments` over the requirements of
`genericSig`.  Returns the boolean result (`true` is failure) and everything
reported, in order. -/
def checkGenericArguments.loop (tc : TypeChecker) (loc noteLoc : SourceLoc) (owner : Ty)
    (genericSig : GenericSignature) (substitutions : TypeSubstitutionMap) :
    List Requirement → Bool × List Emitted
  | [] => (false, [])
  | req :: rest =>
    match tc.subst substitutions req.first with
    | none => checkGenericArguments.loop tc loc noteLoc owner genericSig substitutions rest
    | some firstType =>
      match tc.subst substitutions req.second with
      | none => checkGenericArguments.loop tc loc noteLoc owner genericSig substitutions rest
      | some secondType =>
        match req.kind with
        | .Conformance =>
          let r := tc.conformsToProtocol firstType secondType loc
          if !r.1 then
            (true, r.2.map Emitted.inConformsToProtocol)
          else
            let k := checkGenericArguments.loop tc loc noteLoc owner genericSig substitutions rest
            (k.1, r.2.map Emitted.inConformsToProtocol ++ k.2)
        | .Superclass =>
          if !tc.isSubtypeOf firstType secondType then
            (true,
              [ .diagnose ⟨loc, .type_does_not_inherit,
                  [.type owner, .type firstType, .type secondType]⟩,
                .diagnose ⟨noteLoc, .type_does_not_inherit_requirement,
                  [.type req.first, .type req.second,
                   .text (gatherGenericParamBindingsText tc.getString
                     [req.first, req.second] genericSig substitutions)]⟩ ])
          else
            checkGenericArguments.loop tc loc noteLoc owner genericSig substitutions rest
        | .SameType =>
          if !tc.isEqual firstType secondType then
            (true,
              [ .diagnose ⟨loc, .types_not_equal,
                  [.type owner, .type firstType, .type secondType]⟩,
                .diagnose ⟨noteLoc, .types_not_equal_requirement,
                  [.type req.first, .type req.second,
                   .text (gatherGenericParamBindingsText tc.getString
                     [req.first, req.second] genericSig substitutions)]⟩ ])
          else
            checkGenericArguments.loop tc loc noteLoc owner genericSig substitutions rest

/-- The function `TypeChecker::checkGenericArguments(dc, loc, noteLoc, owner,
genericSig, substitutions)`; the declaration context and module are part of
`tc`. -/
def checkGenericArguments (tc : TypeChecker) (loc noteLoc : SourceLoc) (owner : Ty)
    (genericSig : GenericSignature) (substitutions : TypeSubstitutionMap) :
    Bool × List Emitted :=
  checkGenericArguments.loop tc loc noteLoc owner genericSig substitutions
    genericSig.requirements

/-- Whether a requirement of the given kind fails its test on the substituted
types: no conformance, no subtyping, or unequal types. -/
def requirementFails (tc : TypeChecker) (loc : SourceLoc) (kind : RequirementKind)
    (firstType secondType : Ty) : Bool :=
  match kind with
  | .Conformance => !(tc.conformsToProtocol firstType secondType loc).1
  | .Superclass => !tc.isSubtypeOf firstType secondType
  | .SameType => !tc.isEqual firstType secondType

/-- Modelled from the spec: `Type::subst` is defined outside this file.  The
spec says a substitution "yields no result (a parameter absent from the map)":
every generic parameter is replaced by its entry in the map, a dependent member
is looked up (`typeWitness`) on the substituted base, and the result is `none`
as soon as one occurring parameter has no entry. -/
def Ty.subst (typeWitness : Ty → String → Option Ty) (substitutions : TypeSubstitutionMap) :
    Ty → Option Ty
  | .error => some .error
  | .genericTypeParam gp => substitutions.find gp.getCanonicalType
  | .dependentMember base name =>
    (Ty.subst typeWitness substitutions base).bind fun b => typeWitness b name
  | .structTy name => some (.structTy name)
  | .classTy name => some (.classTy name)
  | .boundGenericStruct name arg =>
    (Ty.subst typeWitness substitutions arg).map (.boundGenericStruct name)
  | .boundGenericClass name arg =>
    (Ty.subst typeWitness substitutions arg).map (.boundGenericClass name)
  | .protocol name => some (.protocol name)
  | .protocolComposition lhs rhs =>
    (Ty.subst typeWitness substitutions lhs).bind fun l =>
      (Ty.subst typeWitness substitutions rhs).map fun r => .protocolComposition l r
  | .emptyTuple => some .emptyTuple
  | .tuple a b =>
    (Ty.subst typeWitness substitutions a).bind fun x =>
      (Ty.subst typeWitness substitutions b).map fun y => .tuple x y
  | .function input result throws =>
    (Ty.subst typeWitness substitutions input).bind fun i =>
      (Ty.subst typeWitness substitutions result).map fun r => .function i r throws
  | .genericFunction input result throws =>
    (Ty.subst typeWitness substitutions input).bind fun i =>
      (Ty.subst typeWitness substitutions result).map fun r => .genericFunction i r throws
  | .optional k object => (Ty.subst typeWitness substitutions object).map (.optional k)
  | .dynamicSelf selfTy => (Ty.subst typeWitness substitutions selfTy).map .dynamicSelf

/-- The type mentions a generic parameter that has no entry in the map. -/
def Ty.mentionsMissingParam (substitutions : TypeSubstitutionMap) (t : Ty) : Prop :=
  ∃ gp : GenericTypeParamType,
    Ty.genericTypeParam gp ∈ t.visit ∧ substitutions.find gp.getCanonicalType = none

/-- The same collaborators, with `Type::subst` as modelled from the spec. -/
def TypeChecker.withSubstFromMap (tc : TypeChecker) (typeWitness : Ty → String → Option Ty) :
    TypeChecker :=
  ⟨Ty.subst typeWitness, tc.conformsToProtocol, tc.isSubtypeOf, tc.isEqual, tc.getString⟩

/-! ## Declarations -/

/-- A `GenericEnvironment`; only its identity matters here. -/
structure GenericEnvironment where
  id : Nat
  deriving DecidableEq, Repr

/-- What the checker asks of a `DeclContext`. -/
structure DeclContext where
  isModuleScopeContext : Bool
  isTypeContext : Bool
  isGenericContext : Bool
  /-- The protocol, when the context is a `ProtocolDecl`. -/
  protocolDecl : Option String
  selfInterfaceType : Ty
  genericSignatureOfContext : Option GenericSignature
  genericEnvironmentOfContext : Option GenericEnvironment
  deriving DecidableEq, Repr

/-- A value of `Accessibility`, as the number the enumeration gives it. -/
abbrev Accessibility := Nat

/-- A `GenericTypeParamDecl`.  `accessibility` is `none` until
`setAccessibility` is called. -/
structure GenericTypeParamDecl where
  name : String
  depth : Nat
  index : Nat
  inherited : List TypeLoc
  checkedInheritanceClause : Bool
  declContext : DeclContext
  accessibility : Option Accessibility
  deriving DecidableEq, Repr

inductive RequirementReprKind where
  | TypeConstraint
  | SameType
  deriving DecidableEq, Repr

/-- A `RequirementRepr` of a where clause.  `firstLoc` is the subject (or the
first type), `secondLoc` the constraint (or the second type). -/
structure RequirementRepr where
  kind : RequirementReprKind
  firstLoc : TypeLoc
  secondLoc : TypeLoc
  invalid : Bool
  deriving DecidableEq, Repr

/-- A `GenericParamList`; `depth` is `getDepth()`, the number of outer lists.
The parser never builds a list without parameters (asserted by the checker). -/
structure GenericParamList where
  params : List GenericTypeParamDecl
  requirements : List RequirementRepr
  depth : Nat
  whereLoc : SourceLoc
  /-- The location `getSourceRange().Start`. -/
  sourceRangeStart : SourceLoc
  deriving DecidableEq, Repr

/-- The flags of `TypeResolutionOptions` set in this file. -/
structure TypeResolutionOptions where
  TR_GenericSignature : Bool
  TR_DynamicSelfResult : Bool
  deriving DecidableEq, Repr

/-- The four `GenericTypeResolver` classes. -/
inductive GenericTypeResolver where
  | Dependent
  | GenericTypeToArchetype
  | PartialGenericTypeToArchetype
  | Complete
  deriving DecidableEq, Repr

/-- The method `TypeLoc::setType(type, validated)`. -/
def TypeLoc.setType (tl : TypeLoc) (type : Option Ty) (validated : Bool) : TypeLoc :=
  { tl with type := type, validated := validated }

/-- The method `TypeLoc::setInvalidType(Context)`. -/
def TypeLoc.setInvalidType (tl : TypeLoc) : TypeLoc :=
  { tl with type := some .error, validated := true }

/-- The method `TypeBase::isExistentialType()`. -/
def Ty.isExistentialType : Ty → Bool
  | .protocol _ => true
  | .protocolComposition _ _ => true
  | _ => false

/-- The method `TypeBase::getClassOrBoundGenericClass()`, as the class name. -/
def Ty.getClassOrBoundGenericClass : Ty → Option String
  | .classTy name => some name
  | .boundGenericClass name _ => some name
  | _ => none

/-- A parameter declaration of a function. -/
structure ParamDecl where
  name : String
  type : Option Ty
  invalid : Bool
  typeLoc : TypeLoc
  deriving DecidableEq, Repr

/-- A `ParameterList`. -/
structure ParameterList where
  params : List ParamDecl
  deriving DecidableEq, Repr

/-! ## Calls to the rest of the compiler -/

/-- A call made to a collaborator (the archetype builder, type validation,
the diagnostic engine), in the order the calls happen. -/
inductive Event where
  | addGenericSignature (parentSig : Option GenericSignature)
      (parentEnv : Option GenericEnvironment)
  | addGenericParameter (param : GenericTypeParamDecl)
  | checkInheritanceClause (param : GenericTypeParamDecl)
      (resolver : Option GenericTypeResolver)
  | addGenericParameterRequirements (param : GenericTypeParamDecl)
  | inferRequirements (inherited : TypeLoc)
  | validateType (loc : TypeLoc) (options : TypeResolutionOptions)
      (resolver : Option GenericTypeResolver)
  | diagnose (d : Diagnostic)
  | addRequirement (req : RequirementRepr)
  | typeCheckParameterList (params : ParameterList) (resolver : Option GenericTypeResolver)
  | inferRequirementsFromParams (params : ParameterList)
  | finalize (loc : SourceLoc)
  | diagnoseRemainingRenames (loc : SourceLoc)
  | getGenericSignature
  | dump
  | createArchetypeBuilder
  | finalizeWith (loc : SourceLoc) (allowConcreteGenericParams : Bool)
  | getGenericEnvironment (sig : GenericSignature)
  | recordArchetypeContexts (sig : GenericSignature) (genericEnv : GenericEnvironment)
  deriving DecidableEq, Repr

/-- The collaborators of the parameter-list checker.  Each answer may depend
on everything that was called before (`hist`), which stands for the state of
the archetype builder and of the declarations. -/
structure Sema where
  /-- `checkInheritanceClause(param, resolver)`: the declaration afterwards. -/
  checkInheritanceClause :
    List Event → GenericTypeParamDecl → Option GenericTypeResolver → GenericTypeParamDecl
  /-- `validateType(loc, dc, options, resolver)`: whether it failed, and the
  type it stores in the location (marked validated). -/
  validateType :
    List Event → TypeLoc → TypeResolutionOptions → Option GenericTypeResolver → Bool × Ty
  /-- `builder->addRequirement(req)`: `true` when the requirement is rejected. -/
  addRequirement : List Event → RequirementRepr → Bool

/-! ## `checkGenericParamList` -/

/-- First loop: set the depth of each parameter and add it to the builder. -/
def checkGenericParamList.addParams (builder : Bool) (depth : Nat) :
    List GenericTypeParamDecl → List Event → List GenericTypeParamDecl × List Event
  | [], hist => ([], hist)
  | param :: rest, hist =>
    let param := { param with depth := depth }
    let hist := if builder then hist ++ [Event.addGenericParameter param] else hist
    let r := checkGenericParamList.addParams builder depth rest hist
    (param :: r.1, r.2)

/-- Second loop: check the inheritance clause of each parameter, add its
requirements and infer requirements from each inherited type. -/
def checkGenericParamList.checkInheritance (env : Sema) (builder : Bool)
    (resolver : Option GenericTypeResolver) :
    List GenericTypeParamDecl → List Event → List GenericTypeParamDecl × List Event
  | [], hist => ([], hist)
  | param :: rest, hist =>
    let checked := env.checkInheritanceClause hist param resolver
    let hist := hist ++ [Event.checkInheritanceClause param resolver]
    let hist :=
      if builder then
        hist ++ [Event.addGenericParameterRequirements checked] ++
          checked.inherited.map Event.inferRequirements
      else hist
    let r := checkGenericParamList.checkInheritance env builder resolver rest hist
    (checked :: r.1, r.2)

/-- The `switch` on the kind of a requirement that is not invalid: validates
the two types.  The boolean is `true` when the `switch` is left by `break`
and `false` when the iteration ends by `continue`. -/
def checkGenericParamList.validateRequirement (env : Sema) (whereLoc : SourceLoc)
    (options : TypeResolutionOptions) (resolver : Option GenericTypeResolver)
    (hist : List Event) (req : RequirementRepr) : Bool × RequirementRepr × List Event :=
  match req.kind with
  | .TypeConstraint =>
    let r1 := env.validateType hist req.firstLoc options resolver
    let hist1 := hist ++ [Event.validateType req.firstLoc options resolver]
    let req1 := { req with firstLoc := req.firstLoc.setType (some r1.2) true }
    if r1.1 then (false, { req1 with invalid := true }, hist1)
    else
      let r2 := env.validateType hist1 req1.secondLoc options resolver
      let hist2 := hist1 ++ [Event.validateType req1.secondLoc options resolver]
      let req2 := { req1 with secondLoc := req1.secondLoc.setType (some r2.2) true }
      if r2.1 then (false, { req2 with invalid := true }, hist2)
      else if !r2.2.isExistentialType && r2.2.getClassOrBoundGenericClass.isNone then
        (false,
          { req2 with secondLoc := req2.secondLoc.setInvalidType, invalid := true },
          hist2 ++ [Event.diagnose ⟨whereLoc, .requires_conformance_nonprotocol,
            [.typeLoc req2.firstLoc, .typeLoc req2.secondLoc]⟩])
      else (true, req2, hist2)
  | .SameType =>
    let r1 := env.validateType hist req.firstLoc options resolver
    let hist1 := hist ++ [Event.validateType req.firstLoc options resolver]
    let req1 := { req with firstLoc := req.firstLoc.setType (some r1.2) true }
    if r1.1 then (false, { req1 with invalid := true }, hist1)
    else
      let r2 := env.validateType hist1 req1.secondLoc options resolver
      let hist2 := hist1 ++ [Event.validateType req1.secondLoc options resolver]
      let req2 := { req1 with secondLoc := req1.secondLoc.setType (some r2.2) true }
      if r2.1 then (false, { req2 with invalid := true }, hist2)
      else (true, req2, hist2)

/-- One iteration of the loop over the requirements of the where clause. -/
def checkGenericParamList.checkRequirement (env : Sema) (builder : Bool)
    (whereLoc : SourceLoc) (options : TypeResolutionOptions)
    (resolver : Option GenericTypeResolver) (hist : List Event) (req : RequirementRepr) :
    RequirementRepr × List Event :=
  if req.invalid then (req, hist)
  else
    let v := checkGenericParamList.validateRequirement env whereLoc options resolver hist req
    if v.1 then
      if builder then
        if env.addRequirement v.2.2 v.2.1 then
          ({ v.2.1 with invalid := true }, v.2.2 ++ [Event.addRequirement v.2.1])
        else (v.2.1, v.2.2 ++ [Event.addRequirement v.2.1])
      else (v.2.1, v.2.2)
    else (v.2.1, v.2.2)

/-- Third loop: visit each requirement of the where clause. -/
def checkGenericParamList.checkRequirements (env : Sema) (builder : Bool)
    (whereLoc : SourceLoc) (options : TypeResolutionOptions)
    (resolver : Option GenericTypeResolver) :
    List RequirementRepr → List Event → List RequirementRepr × List Event
  | [], hist => ([], hist)
  | req :: rest, hist =>
    let r := checkGenericParamList.checkRequirement env builder whereLoc options resolver
      hist req
    let k := checkGenericParamList.checkRequirements env builder whereLoc options resolver
      rest r.2
    (r.1 :: k.1, k.2)

/-- The options used for the where clause: `TR_GenericSignature` unless the
context of the first parameter is at module scope. -/
def checkGenericParamList.options (genericParams : GenericParamList) :
    TypeResolutionOptions :=
  match genericParams.params.head? with
  | some param =>
    if !param.declContext.isModuleScopeContext then ⟨true, false⟩ else ⟨false, false⟩
  | none => ⟨false, false⟩

/-- The function `TypeChecker::checkGenericParamList(builder, genericParams,
parentSig, parentEnv, resolver)`.  `builder` says whether a builder was
passed; the result is the parameter list as the call leaves it and the
calls made, appended to `hist`. -/
def checkGenericParamList (env : Sema) (builder : Bool)
    (genericParams : Option GenericParamList) (parentSig : Option GenericSignature)
    (parentEnv : Option GenericEnvironment) (resolver : Option GenericTypeResolver)
    (hist : List Event) : Option GenericParamList × List Event :=
  let hist := if builder then hist ++ [Event.addGenericSignature parentSig parentEnv] else hist
  match genericParams with
  | none => (none, hist)
  | some genericParams =>
    let options := checkGenericParamList.options genericParams
    let depth := genericParams.depth
    let added := checkGenericParamList.addParams builder depth genericParams.params hist
    let checked := checkGenericParamList.checkInheritance env builder resolver added.1 added.2
    let reqs := checkGenericParamList.checkRequirements env builder genericParams.whereLoc
      options resolver genericParams.requirements checked.2
    (some { genericParams with params := checked.1, requirements := reqs.1 }, reqs.2)

/-- The requirements of the where clause as a call of `checkGenericParamList`
leaves them. -/
def requirementsAfter (r : Option GenericParamList × List Event) : List RequirementRepr :=
  match r.1 with
  | some genericParams => genericParams.requirements
  | none => []

/-- The parameters as a call of `checkGenericParamList` leaves them. -/
def paramsAfter (r : Option GenericParamList × List Event) : List GenericTypeParamDecl :=
  match r.1 with
  | some genericParams => genericParams.params
  | none => []

/-- The parameter list with its where clause cut down to `reqs`. -/
def GenericParamList.withRequirements (genericParams : GenericParamList)
    (reqs : List RequirementRepr) : GenericParamList :=
  { genericParams with requirements := reqs }

/-- The requirement once both of its types were validated, with the types
the two `validateType` calls stored. -/
def RequirementRepr.validatedWith (req : RequirementRepr) (firstTy secondTy : Ty) :
    RequirementRepr :=
  { req with
    firstLoc := req.firstLoc.setType (some firstTy) true,
    secondLoc := req.secondLoc.setType (some secondTy) true }

/-- The two `validateType` calls made for one requirement. -/
def validateEvents (req : RequirementRepr) (options : TypeResolutionOptions)
    (resolver : Option GenericTypeResolver) : List Event :=
  [Event.validateType req.firstLoc options resolver,
   Event.validateType req.secondLoc options resolver]

/-- The `requires_conformance_nonprotocol` diagnostic for a validated
requirement, at the location of the where clause. -/
def nonprotocolDiagnostic (whereLoc : SourceLoc) (req : RequirementRepr) : Event :=
  Event.diagnose ⟨whereLoc, .requires_conformance_nonprotocol,
    [.typeLoc req.firstLoc, .typeLoc req.secondLoc]⟩

/-- Both types of the requirement validate and, for a type constraint, the
constraint type is an existential or class type. -/
def passesValidation (env : Sema) (options : TypeResolutionOptions)
    (resolver : Option GenericTypeResolver) (hist : List Event) (req : RequirementRepr) :
    Bool :=
  !(env.validateType hist req.firstLoc options resolver).1 &&
  !(env.validateType (hist ++ [Event.validateType req.firstLoc options resolver])
      req.secondLoc options resolver).1 &&
  (decide (req.kind = .SameType) ||
    (env.validateType (hist ++ [Event.validateType req.firstLoc options resolver])
      req.secondLoc options resolver).2.isExistentialType ||
    (env.validateType (hist ++ [Event.validateType req.firstLoc options resolver])
      req.secondLoc options resolver).2.getClassOrBoundGenericClass.isSome)

/-- The requirement with the types the two `validateType` calls store. -/
def validatedRequirement (env : Sema) (options : TypeResolutionOptions)
    (resolver : Option GenericTypeResolver) (hist : List Event) (req : RequirementRepr) :
    RequirementRepr :=
  req.validatedWith (env.validateType hist req.firstLoc options resolver).2
    (env.validateType (hist ++ [Event.validateType req.firstLoc options resolver])
      req.secondLoc options resolver).2

/-- The step of `checkGenericParamList` in which a call is made: 0 for the
parent signature, 1 for adding a parameter, 2 for an inheritance clause, 3
for a requirement of the where clause. -/
def Event.step : Event → Nat
  | .addGenericSignature _ _ => 0
  | .addGenericParameter _ => 1
  | .checkInheritanceClause _ _ => 2
  | .addGenericParameterRequirements _ => 2
  | .inferRequirements _ => 2
  | .validateType _ _ _ => 3
  | .diagnose _ => 3
  | .addRequirement _ => 3
  | _ => 4

/-- The parameter of a `checkInheritanceClause` call. -/
def Event.checkedParam : Event → Option GenericTypeParamDecl
  | .checkInheritanceClause param _ => some param
  | _ => none

/-- The method `GenericTypeParamDecl::setDepth`. -/
def GenericTypeParamDecl.setDepth (param : GenericTypeParamDecl) (depth : Nat) :
    GenericTypeParamDecl :=
  { param with depth := depth }

/-! ## Function declarations -/

inductive OptionalTypeKind where
  | OTK_None
  | OTK_Optional
  | OTK_ImplicitlyUnwrappedOptional
  deriving DecidableEq, Repr

inductive FuncDeclKind where
  | FuncDecl
  | ConstructorDecl
  | DestructorDecl
  deriving DecidableEq, Repr

/-- What the checker reads and writes of an `AbstractFunctionDecl`.  The
fields for the result type belong to a `FuncDecl`, `failability` to a
`ConstructorDecl`. -/
structure AbstractFunctionDecl where
  kind : FuncDeclKind
  descriptiveKind : Nat
  fullName : String
  loc : SourceLoc
  declContext : DeclContext
  isGenericContext : Bool
  genericParams : Option GenericParamList
  parameterLists : List ParameterList
  bodyResultTypeLoc : TypeLoc
  hasDynamicSelf : Bool
  dynamicSelfInterface : Ty
  failability : OptionalTypeKind
  hasThrows : Bool
  type : Option Ty
  interfaceType : Option Ty
  initializerInterfaceType : Option Ty
  isBeingTypeChecked : Bool
  invalid : Bool
  deriving DecidableEq, Repr

/-- The collaborators of the function-signature checker. -/
structure FunctionSema extends Sema where
  /-- `typeCheckParameterList(params, func, options, resolver)`: whether a
  type was bad, and the list afterwards. -/
  typeCheckParameterList :
    List Event → ParameterList → Option GenericTypeResolver → Bool × ParameterList
  /-- The type a recursive validation, triggered while the signature was
  checked, has given the function (none if there was no such validation). -/
  typeSetByRecursiveValidation : List Event → Option Ty
  /-- `builder.diagnoseRemainingRenames(loc)`. -/
  diagnoseRemainingRenames : List Event → Bool
  /-- `builder.getGenericSignature()`. -/
  getGenericSignature : List Event → GenericSignature
  /-- `paramList->getInterfaceType(dc)`. -/
  getInterfaceType : ParameterList → Ty
  /-- `func->computeInterfaceSelfType(isInitializingCtor)`. -/
  computeInterfaceSelfType : AbstractFunctionDecl → Bool → Ty
  /-- `ArchetypeBuilder::mapTypeOutOfContext(dc, type)`. -/
  mapTypeOutOfContext : Ty → Ty
  /-- `Type::getString()`. -/
  getString : Ty → String
  /-- `paramDecl->getLoc()` of the declaration of a generic parameter. -/
  genericParamLoc : GenericTypeParamType → SourceLoc
  /-- `Context.LangOpts.EffectiveLanguageVersion[0]`. -/
  effectiveLanguageVersion : Nat
  /-- `Context.LangOpts.DebugGenericSignatures`. -/
  debugGenericSignatures : Bool

/-- The method `TypeLoc::isNull()`: neither a type nor a representation. -/
def TypeLoc.isNull (tl : TypeLoc) : Bool :=
  tl.type.isNone && tl.typeRepr.isNone

/-- The method `TypeLoc::hasLocation()`. -/
def TypeLoc.hasLocation (tl : TypeLoc) : Bool :=
  tl.typeRepr.isSome

/-- The method `TypeBase::hasError()`: an error type occurs in the type. -/
def Ty.hasError (t : Ty) : Bool :=
  t.visit.any fun u => decide (u = .error)

/-- The method `TypeLoc::isError()`. -/
def TypeLoc.isError (tl : TypeLoc) : Bool :=
  match tl.type with
  | some t => t.hasError
  | none => false

/-! ## `checkGenericFuncSignature` -/

/-- The loop over the parameter lists of the function. -/
def checkGenericFuncSignature.checkParameterLists (env : FunctionSema) (builder : Bool)
    (resolver : GenericTypeResolver) :
    List ParameterList → Bool → List Event → Bool × List ParameterList × List Event
  | [], badType, hist => (badType, [], hist)
  | params :: rest, badType, hist =>
    let r := env.typeCheckParameterList hist params (some resolver)
    let hist := hist ++ [Event.typeCheckParameterList params (some resolver)]
    let badType := if r.1 then true else badType
    let hist := if builder then hist ++ [Event.inferRequirementsFromParams r.2] else hist
    let k := checkGenericFuncSignature.checkParameterLists env builder resolver rest badType hist
    (k.1, r.2 :: k.2.1, k.2.2)

/-- The static function `checkGenericFuncSignature(tc, builder, func, resolver)`:
the returned `badType`, the function afterwards and the calls made. -/
def checkGenericFuncSignature (env : FunctionSema) (builder : Bool)
    (func : AbstractFunctionDecl) (resolver : GenericTypeResolver) (hist : List Event) :
    Bool × AbstractFunctionDecl × List Event :=
  let badType := false
  let func := { func with isBeingTypeChecked := true }
  let checked := checkGenericParamList env.toSema builder func.genericParams
    func.declContext.genericSignatureOfContext none (some resolver) hist
  let func := { func with genericParams := checked.1 }
  let lists := checkGenericFuncSignature.checkParameterLists env builder resolver
    func.parameterLists badType checked.2
  let badType := lists.1
  let func := { func with parameterLists := lists.2.1 }
  let hist := lists.2.2
  let r :=
    if func.kind = .FuncDecl ∧ !func.bodyResultTypeLoc.isNull then
      let options : TypeResolutionOptions := ⟨false, func.hasDynamicSelf⟩
      let v := env.validateType hist func.bodyResultTypeLoc options (some resolver)
      let hist1 := hist ++ [Event.validateType func.bodyResultTypeLoc options (some resolver)]
      let loc := func.bodyResultTypeLoc.setType (some v.2) true
      let hist2 :=
        if builder && loc.typeRepr.isSome then hist1 ++ [Event.inferRequirements loc]
        else hist1
      ((if v.1 then true else badType), { func with bodyResultTypeLoc := loc }, hist2)
    else (badType, func, hist)
  (r.1, { r.2.1 with isBeingTypeChecked := false }, r.2.2)

/-! ## `getResultType` and `isSelfDerivedOrConcrete` -/

/-- The static function `getResultType(TC, fn, resultType)`. -/
def getResultType (env : FunctionSema) (fn : AbstractFunctionDecl) : Ty → Ty
  | .optional implicitlyUnwrapped origValueType =>
    let ifaceValueType := getResultType env fn origValueType
    if origValueType = ifaceValueType then .optional implicitlyUnwrapped origValueType
    else if implicitlyUnwrapped then .optional true ifaceValueType
    else .optional false ifaceValueType
  | .dynamicSelf _ => fn.dynamicSelfInterface
  | resultType =>
    if !fn.bodyResultTypeLoc.hasLocation && fn.isGenericContext then
      env.mapTypeOutOfContext resultType
    else resultType

/-- The method `TypeBase::hasTypeParameter()`: a generic parameter occurs. -/
def Ty.hasTypeParameter (t : Ty) : Bool :=
  t.visit.any fun u => u.getAsGenericTypeParamType.isSome

/-- The loop `while (auto depMem = type->getAs<DependentMemberType>())
type = depMem->getBase();`. -/
def stripDependentMembers : Ty → Ty
  | .dependentMember base _ => stripDependentMembers base
  | t => t

/-- The static function `isSelfDerivedOrConcrete(type)`. -/
def isSelfDerivedOrConcrete (type : Ty) : Bool :=
  if !type.hasTypeParameter then true
  else
    match (stripDependentMembers type).getAsGenericTypeParamType with
    | some gp => gp.depth == 0 && gp.index == 0
    | none => false

/-! ## Reverting -/

/-- The static function `revertDependentTypeLoc(tl)`. -/
def revertDependentTypeLoc (tl : TypeLoc) : TypeLoc :=
  if tl.typeRepr.isNone then tl
  else if tl.validated && tl.isError then tl
  else tl.setType none false

/-- The function `TypeChecker::revertGenericParamList(genericParams)`. -/
def revertGenericParamList (genericParams : GenericParamList) : GenericParamList :=
  { genericParams with
    params := genericParams.params.map fun param =>
      { param with
        checkedInheritanceClause := false,
        inherited := param.inherited.map revertDependentTypeLoc },
    requirements := genericParams.requirements.map fun req =>
      if req.invalid then req
      else
        match req.kind with
        | .TypeConstraint =>
          { req with
            firstLoc := revertDependentTypeLoc req.firstLoc,
            secondLoc := revertDependentTypeLoc req.secondLoc }
        | .SameType =>
          { req with
            firstLoc := revertDependentTypeLoc req.firstLoc,
            secondLoc := revertDependentTypeLoc req.secondLoc } }

/-- The method `overwriteType(Type())`, also what `FuncDecl::revertType()`
does to the type of the function. -/
def AbstractFunctionDecl.clearType (func : AbstractFunctionDecl) : AbstractFunctionDecl :=
  { func with type := none }

/-- The body of the loop over the parameters of a parameter list: clear the
type of the declaration and revert its type location. -/
def revertGenericFuncSignature.revertParam (param : ParamDecl) : ParamDecl :=
  let param :=
    if param.type.isSome && !param.invalid then { param with type := none } else param
  { param with typeLoc := revertDependentTypeLoc param.typeLoc }

/-- The function `TypeChecker::revertGenericFuncSignature(func)`. -/
def revertGenericFuncSignature (func : AbstractFunctionDecl) : AbstractFunctionDecl :=
  let func :=
    if func.kind = .FuncDecl ∧ !func.bodyResultTypeLoc.isNull then
      { func with bodyResultTypeLoc := revertDependentTypeLoc func.bodyResultTypeLoc }
    else func
  let func :=
    { func with
      parameterLists := func.parameterLists.map fun (paramList : ParameterList) =>
        ParameterList.mk (paramList.params.map revertGenericFuncSignature.revertParam) }
  let func :=
    match func.genericParams with
    | some genericParams =>
      { func with genericParams := some (revertGenericParamList genericParams) }
    | none => func
  if func.kind = .FuncDecl then func.clearType else func.clearType

/-! ## `configureInterfaceType` -/

/-- Input of an `AnyFunctionType`. -/
def Ty.getInput : Ty → Option Ty
  | .function input _ _ => some input
  | .genericFunction input _ _ => some input
  | _ => none

/-- Result of an `AnyFunctionType`. -/
def Ty.getResult : Ty → Option Ty
  | .function _ result _ => some result
  | .genericFunction _ result _ => some result
  | _ => none

/-- What `visitorFn` inserts when a type is visited: the declarations of the
generic parameters occurring in it. -/
def referencedGenericParams (t : Ty) : List GenericTypeParamType :=
  t.visit.filterMap Ty.getAsGenericTypeParamType

/-- The loop over the parameter lists, innermost first: `lists` is
`paramLists` in reverse, so that its element at position `i` is
`paramLists[e - i - 1]`. -/
def configureInterfaceType.fold (env : FunctionSema) (func : AbstractFunctionDecl)
    (hasSig hasSelf : Bool) (e : Nat) :
    List ParameterList → Nat → Ty → Option Ty → Ty × Option Ty
  | [], _, funcTy, initFuncTy => (funcTy, initFuncTy)
  | paramList :: rest, i, funcTy, initFuncTy =>
    let argTy :=
      if i = e - 1 ∧ hasSelf then env.computeInterfaceSelfType func false
      else env.getInterfaceType paramList
    let initArgTy :=
      if i = e - 1 ∧ hasSelf then env.computeInterfaceSelfType func true
      else argTy
    let throws := decide (i = 0) && func.hasThrows
    if hasSig ∧ i = e - 1 then
      configureInterfaceType.fold env func hasSig hasSelf e rest (i + 1)
        (.genericFunction argTy funcTy throws)
        (initFuncTy.map fun t => .genericFunction initArgTy t throws)
    else
      configureInterfaceType.fold env func hasSig hasSelf e rest (i + 1)
        (.function argTy funcTy throws)
        (initFuncTy.map fun t => .function initArgTy t throws)

/-- The loop over the generic parameters of the signature that reports the
unreferenced ones. -/
def configureInterfaceType.checkReferenced (env : FunctionSema)
    (referenced : List GenericTypeParamType) (fnGenericParamsDepth : Nat) :
    List GenericTypeParamType → AbstractFunctionDecl → List Event →
      AbstractFunctionDecl × List Event
  | [], func, hist => (func, hist)
  | genParam :: rest, func, hist =>
    if genParam.depth ≠ fnGenericParamsDepth then
      configureInterfaceType.checkReferenced env referenced fnGenericParamsDepth rest func hist
    else if genParam ∉ referenced then
      configureInterfaceType.checkReferenced env referenced fnGenericParamsDepth rest
        { func with invalid := true }
        (hist ++ [Event.diagnose ⟨env.genericParamLoc genParam,
          .unreferenced_generic_parameter, [.text genParam.name]⟩])
    else
      configureInterfaceType.checkReferenced env referenced fnGenericParamsDepth rest func hist

/-- The result type the folding starts from (`funcTy`), and `initFuncTy` for
a constructor. -/
def configureInterfaceType.resultType (env : FunctionSema) (func : AbstractFunctionDecl) :
    Ty × Option Ty :=
  match func.kind with
  | .FuncDecl =>
    match func.bodyResultTypeLoc.type with
    | none => (.emptyTuple, none)
    | some funcTy => (getResultType env func funcTy, none)
  | .ConstructorDecl =>
    let funcTy := func.declContext.selfInterfaceType
    let funcTy :=
      match func.failability with
      | .OTK_None => funcTy
      | .OTK_Optional => .optional false funcTy
      | .OTK_ImplicitlyUnwrappedOptional => .optional true funcTy
    (funcTy, some funcTy)
  | .DestructorDecl => (.emptyTuple, none)

/-- The parameter lists that are folded: for a destructor the `self` list and
an empty list pasted after it. -/
def configureInterfaceType.paramLists (func : AbstractFunctionDecl) : List ParameterList :=
  if func.kind = .DestructorDecl then func.parameterLists.take 1 ++ [⟨[]⟩]
  else func.parameterLists

/-- The folded `funcTy` and `initFuncTy`. -/
def configureInterfaceType.foldedTypes (env : FunctionSema) (func : AbstractFunctionDecl)
    (sig : Option GenericSignature) : Ty × Option Ty :=
  let start := configureInterfaceType.resultType env func
  let paramLists := configureInterfaceType.paramLists func
  let hasSelf := func.declContext.isTypeContext
  configureInterfaceType.fold env func sig.isSome hasSelf paramLists.length
    paramLists.reverse 0 start.1 start.2

/-- Record the interface type, and the initializer interface type if any. -/
def configureInterfaceType.record (func : AbstractFunctionDecl) (folded : Ty × Option Ty) :
    AbstractFunctionDecl :=
  let func := { func with interfaceType := some folded.1 }
  match folded.2 with
  | some initFuncTy => { func with initializerInterfaceType := some initFuncTy }
  | none => func

/-- The function `TypeChecker::configureInterfaceType(func, sig)`. -/
def configureInterfaceType (env : FunctionSema) (func : AbstractFunctionDecl)
    (sig : Option GenericSignature) (hist : List Event) :
    AbstractFunctionDecl × List Event :=
  let folded := configureInterfaceType.foldedTypes env func sig
  let func := configureInterfaceType.record func folded
  match func.genericParams, sig with
  | some genericParams, some sig =>
    let fromInput := (folded.1.getInput.map referencedGenericParams).getD []
    let fromResult := (folded.1.getResult.map referencedGenericParams).getD []
    let fromRequirements := sig.requirements.flatMap fun req =>
      if req.kind = .SameType then
        referencedGenericParams req.first ++ referencedGenericParams req.second
      else []
    configureInterfaceType.checkReferenced env (fromInput ++ fromResult ++ fromRequirements)
      genericParams.depth sig.genericParams func hist
  | _, _ => (func, hist)

/-! ## `validateGenericFuncSignature` -/

/-- The value `static_cast<unsigned>(req.getKind())`. -/
def RequirementKind.toNat : RequirementKind → Nat
  | .Conformance => 0
  | .Superclass => 1
  | .SameType => 2

/-- The declaration of a `ProtocolType`. -/
def Ty.getProtocolDecl : Ty → Option String
  | .protocol name => some name
  | _ => none

/-- The test that lets a requirement through: one of its types depends on a
generic parameter other than `Self`, or it is the conformance of `Self` to
the protocol itself. -/
def restrictsSelf (proto : String) (req : Requirement) : Bool :=
  if !isSelfDerivedOrConcrete req.first || !isSelfDerivedOrConcrete req.second then false
  else if req.kind = .Conformance ∧ req.second.getProtocolDecl = some proto ∧
      req.first.getAsGenericTypeParamType.isSome then false
  else true

/-- The loop over the requirements of the signature of a function declared
in the protocol `proto`. -/
def validateGenericFuncSignature.checkSelfRequirements (env : FunctionSema)
    (func : AbstractFunctionDecl) (proto : String) :
    List Requirement → Bool → List Event → Bool × List Event
  | [], invalid, hist => (invalid, hist)
  | req :: rest, invalid, hist =>
    if !isSelfDerivedOrConcrete req.first || !isSelfDerivedOrConcrete req.second then
      validateGenericFuncSignature.checkSelfRequirements env func proto rest invalid hist
    else if req.kind = .Conformance ∧ req.second.getProtocolDecl = some proto ∧
        req.first.getAsGenericTypeParamType.isSome then
      validateGenericFuncSignature.checkSelfRequirements env func proto rest invalid hist
    else
      let hist := hist ++ [Event.diagnose ⟨func.loc,
        (if env.effectiveLanguageVersion ≥ 4 then .requirement_restricts_self
         else .requirement_restricts_self_swift3),
        [.number func.descriptiveKind, .text func.fullName,
         .text (env.getString req.first), .number req.kind.toNat,
         .text (env.getString req.second)]⟩]
      let invalid := if env.effectiveLanguageVersion ≥ 4 then true else invalid
      validateGenericFuncSignature.checkSelfRequirements env func proto rest invalid hist

/-- First part of `validateGenericFuncSignature`: the dependent pass with a
fresh builder.  A recursive validation started meanwhile may have given the
function a type. -/
def validateGenericFuncSignature.dependentPass (env : FunctionSema)
    (func : AbstractFunctionDecl) (hist : List Event) :
    Bool × AbstractFunctionDecl × List Event :=
  let r := checkGenericFuncSignature env true func .Dependent hist
  let func := r.2.1
  let func :=
    match func.type with
    | some _ => func
    | none => { func with type := env.typeSetByRecursiveValidation r.2.2 }
  (r.1, func, r.2.2)

/-- Second part: finalize the builder, revert the signature and check it
again with the complete resolver and without a builder. -/
def validateGenericFuncSignature.secondPass (env : FunctionSema)
    (func : AbstractFunctionDecl) (hist : List Event) :
    Bool × AbstractFunctionDecl × List Event :=
  let hist := hist ++ [Event.finalize func.loc]
  let func := revertGenericFuncSignature func
  checkGenericFuncSignature env false func .Complete hist

/-- Second part, continued: the remaining renames and the signature of the
builder.  Returns `invalid`, the signature, the function and the calls. -/
def validateGenericFuncSignature.completePass (env : FunctionSema) (invalid : Bool)
    (func : AbstractFunctionDecl) (hist : List Event) :
    Bool × GenericSignature × AbstractFunctionDecl × List Event :=
  let r := validateGenericFuncSignature.secondPass env func hist
  let invalid := if r.1 then true else invalid
  let func := r.2.1
  let hist := r.2.2
  let renames := env.diagnoseRemainingRenames hist
  let hist := hist ++ [Event.diagnoseRemainingRenames func.loc]
  let invalid := if renames then true else invalid
  let sig := env.getGenericSignature hist
  let hist := hist ++ [Event.getGenericSignature]
  (invalid, sig, func, hist)

/-- The check made for a generic requirement in a protocol: skipped when
`invalid` is already set, when the function has no generic parameters of its
own, or when its context is not a protocol. -/
def validateGenericFuncSignature.protocolCheck (env : FunctionSema) (invalid : Bool)
    (sig : GenericSignature) (func : AbstractFunctionDecl) (hist : List Event) :
    Bool × List Event :=
  match func.genericParams, func.declContext.protocolDecl with
  | some _, some proto =>
    if !invalid then
      validateGenericFuncSignature.checkSelfRequirements env func proto sig.requirements
        invalid hist
    else (invalid, hist)
  | _, _ => (invalid, hist)

/-- The function `TypeChecker::validateGenericFuncSignature(func)`: the
returned signature (`none` is `nullptr`), the function afterwards and the
calls made. -/
def validateGenericFuncSignature (env : FunctionSema) (func : AbstractFunctionDecl)
    (hist : List Event) : Option GenericSignature × AbstractFunctionDecl × List Event :=
  let invalid := false
  let first := validateGenericFuncSignature.dependentPass env func hist
  let invalid := if first.1 then true else invalid
  if first.2.1.type.isSome then (none, first.2.1, first.2.2)
  else
    let second := validateGenericFuncSignature.completePass env invalid first.2.1 first.2.2
    let sig := second.2.1
    let func := second.2.2.1
    let checked := validateGenericFuncSignature.protocolCheck env second.1 sig func
      second.2.2.2
    let invalid := checked.1
    let hist := if env.debugGenericSignatures then checked.2 ++ [Event.dump] else checked.2
    if invalid then
      (some sig, { func with type := some .error, interfaceType := some .error }, hist)
    else
      let configured := configureInterfaceType env func (some sig) hist
      (some sig, configured.1, configured.2)

/-! ## Vocabulary of the statements about `checkGenericArguments` -/

/-- The diagnostic carried by an emitted item. -/
def Emitted.diagnostic : Emitted → Diagnostic
  | .diagnose d => d
  | .inConformsToProtocol d => d

/-- The diagnostic has the two given types and the given text among its
arguments. -/
def Diagnostic.namesRequirement (d : Diagnostic) (first second : Ty) (bindings : String) :
    Bool :=
  d.args.contains (.type first) && d.args.contains (.type second) &&
    d.args.contains (.text bindings)

/-- The text `N = R` of one binding; `R` is the printed replacement of the
parameter (nothing when it has none). -/
def bindingText (getString : Ty → String) (substitutions : TypeSubstitutionMap)
    (gp : GenericTypeParamType) : String :=
  gp.name ++ " = " ++
    (match substitutions.find gp.getCanonicalType with
     | some found => getString found
     | none => "")

/-- The text ` [with N1 = R1, N2 = R2]` listing the given parameters. -/
def bindingsListText (getString : Ty → String) (substitutions : TypeSubstitutionMap)
    (params : List GenericTypeParamType) : String :=
  " [with " ++ ", ".intercalate (params.map (bindingText getString substitutions)) ++ "]"

/-- The parameters of the signature that occur in `types`, in signature order. -/
def occurringParams (types : List Ty) (genericSig : GenericSignature) :
    List GenericTypeParamType :=
  genericSig.genericParams.filter fun gp => decide (gp.getCanonicalType ∈ knownGenericParams types)

/-- The parameters of the signature that occur in `types` and have an entry in
the substitution map, in signature order. -/
def substitutedOccurringParams (types : List Ty) (genericSig : GenericSignature)
    (substitutions : TypeSubstitutionMap) : List GenericTypeParamType :=
  (occurringParams types genericSig).filter fun gp =>
    (substitutions.find gp.getCanonicalType).isSome

/-! ## Vocabulary of the statements about types and substitution checking -/

/-- The dependent member path `root.n1.n2...`: the projections of `path`
applied to `root`, innermost first. -/
def dependentPath (root : Ty) : List String → Ty
  | [] => root
  | name :: rest => dependentPath (.dependentMember root name) rest

/-- The type `T` inside optional wrappers, outermost first; `true` is an
`ImplicitlyUnwrappedOptional`, `false` an `Optional`. -/
def wrapOptionals : List Bool → Ty → Ty
  | [], t => t
  | implicitlyUnwrapped :: rest, t => .optional implicitlyUnwrapped (wrapOptionals rest t)

/-- The requirement is not skipped and fails the test of its kind. -/
def requirementFailsUnder (tc : TypeChecker) (loc : SourceLoc)
    (substitutions : TypeSubstitutionMap) (req : Requirement) : Bool :=
  match tc.subst substitutions req.first, tc.subst substitutions req.second with
  | some firstType, some secondType => requirementFails tc loc req.kind firstType secondType
  | _, _ => false

/-- The diagnostics emitted by `diagnose` calls of `checkGenericArguments`
itself. -/
def ownDiagnostics (emitted : List Emitted) : List Diagnostic :=
  emitted.filterMap fun e =>
    match e with
    | .diagnose d => some d
    | .inConformsToProtocol _ => none

/-! ## Vocabulary of the statements about function signatures -/

/-- The requirement is the conformance of `Self`, the generic parameter of
depth 0 and index 0, to the protocol `proto`. -/
def isSelfConformance (proto : String) (req : Requirement) : Prop :=
  req.kind = .Conformance ∧ req.second = .protocol proto ∧
    ∃ name, req.first = .genericTypeParam ⟨name, 0, 0⟩

/-- The type mentions a generic parameter other than `Self`. -/
def Ty.mentionsNonSelfParam (t : Ty) : Prop :=
  ∃ gp : GenericTypeParamType,
    Ty.genericTypeParam gp ∈ t.visit ∧ (gp.depth ≠ 0 ∨ gp.index ≠ 0)

/-- The diagnostic for a requirement that restricts `Self`. -/
def restrictsSelfDiagnostic (env : FunctionSema) (func : AbstractFunctionDecl)
    (req : Requirement) : Event :=
  Event.diagnose ⟨func.loc,
    (if env.effectiveLanguageVersion ≥ 4 then .requirement_restricts_self
     else .requirement_restricts_self_swift3),
    [.number func.descriptiveKind, .text func.fullName,
     .text (env.getString req.first), .number req.kind.toNat,
     .text (env.getString req.second)]⟩

/-- The generic parameter occurs in the type. -/
def Ty.mentions (t : Ty) (gp : GenericTypeParamType) : Bool :=
  decide (Ty.genericTypeParam gp ∈ t.visit)

/-- The parameter has the depth of the function's own parameters and is
mentioned neither in the input of the folded type, nor in its result, nor on
either side of a same-type requirement of the signature. -/
def isUnreferenced (folded : Ty) (sig : GenericSignature) (depth : Nat)
    (gp : GenericTypeParamType) : Bool :=
  decide (gp.depth = depth) &&
  !((folded.getInput.map fun input => input.mentions gp).getD false) &&
  !((folded.getResult.map fun result => result.mentions gp).getD false) &&
  !(sig.requirements.any fun req =>
      decide (req.kind = .SameType) && (req.first.mentions gp || req.second.mentions gp))

/-- The `unreferenced_generic_parameter` diagnostic for a parameter. -/
def unreferencedDiagnostic (env : FunctionSema) (gp : GenericTypeParamType) : Event :=
  Event.diagnose ⟨env.genericParamLoc gp, .unreferenced_generic_parameter, [.text gp.name]⟩

/-- The type left when `n` function arrows are taken off, outermost first. -/
def Ty.resultAfter : Nat → Ty → Option Ty
  | 0, t => some t
  | n + 1, t =>
    match t.getResult with
    | some result => Ty.resultAfter n result
    | none => none

/-- The type location is one that `revertDependentTypeLoc` reverts: it has a
type representation and does not hold a validated error type. -/
def TypeLoc.isReverted (tl : TypeLoc) : Bool :=
  tl.typeRepr.isSome && !(tl.validated && tl.isError)

/-- The calls that hand requirements to the builder: the signature of the
parent context with its requirements, the requirements of a parameter, the
requirements inferred from a type or from a parameter list, and a
requirement of a where clause. -/
def Event.producesRequirements : Event → Bool
  | .addGenericSignature _ _ => true
  | .addGenericParameterRequirements _ => true
  | .inferRequirements _ => true
  | .addRequirement _ => true
  | .inferRequirementsFromParams _ => true
  | _ => false

/-! ## `CompleteGenericTypeResolver::resolveDependentMemberType` -/

/-- A source range: start and end. -/
abbrev SourceRange := SourceLoc × SourceLoc

/-- A `ComponentIdentTypeRepr`: the identifier and where it is written. -/
structure ComponentIdentTypeRepr where
  identifier : String
  idLoc : SourceLoc
  deriving DecidableEq, Repr

/-- What the resolver reads of a nested `PotentialArchetype`.  The associated
type and the type alias are identified by their names. -/
structure PotentialArchetype where
  name : String
  wasRenamed : Bool
  resolvedAssociatedType : Option String
  typeAliasDecl : Option String
  deriving DecidableEq, Repr

/-- What the resolver asks of a `LookupTypeResult`: its conversion to `bool`,
`isAmbiguous()` and `front().second`. -/
structure LookupTypeResult where
  found : Bool
  isAmbiguous : Bool
  frontType : Ty
  deriving DecidableEq, Repr

/-- A call made while a dependent member type is resolved, in the order the
calls happen. -/
inductive ResolverEvent where
  | getNestedType (name : String)
  | diagnose (d : Diagnostic)
  | fixItReplace (loc : SourceLoc) (text : String)
  | highlight (range : SourceRange)
  | overwriteIdentifier (newName : String)
  | setAlreadyDiagnosedRename (nested : PotentialArchetype)
  | substMemberTypeWithBase (aliasDecl : String) (baseTy : Ty)
  | lookupMemberType (superclassTy : Ty) (name : String)
  | diagnoseAmbiguousMemberType (baseTy : Ty) (baseRange : SourceRange) (name : String)
      (nameLoc : SourceLoc) (lookup : LookupTypeResult)
  deriving DecidableEq, Repr

/-- The collaborators of the complete resolver: the archetype builder and the
type checker.  Each answer may depend on the calls made before.  A potential
archetype of the builder is named by a number. -/
structure ResolverSema where
  /-- `Builder.resolveArchetype(baseTy)->getRepresentative()`. -/
  resolveRepresentative : Ty → Nat
  /-- `basePA->getNestedType(name, Builder)`. -/
  getNestedType : List ResolverEvent → Nat → String → PotentialArchetype
  /-- `basePA->getSuperclass()`. -/
  getSuperclass : List ResolverEvent → Nat → Option Ty
  /-- `TC.substMemberTypeWithBase(DC->getParentModule(), alias, baseTy)`. -/
  substMemberTypeWithBase : List ResolverEvent → DeclContext → String → Ty → Ty
  /-- `TC.lookupMemberType(DC, superclassTy, name)`. -/
  lookupMemberType : List ResolverEvent → DeclContext → Ty → String → LookupTypeResult

/-- First part of `resolveDependentMemberType`: the nested potential
archetype, looked up again under the new name when typo correction renamed
it.  Returns the nested archetype, the `ref` afterwards and the calls.  The
source asserts that the archetype found under the new name was not renamed. -/
def resolveDependentMemberType.nestedType (env : ResolverSema) (baseTy : Ty)
    (ref : ComponentIdentTypeRepr) (hist : List ResolverEvent) :
    PotentialArchetype × ComponentIdentTypeRepr × List ResolverEvent :=
  let basePA := env.resolveRepresentative baseTy
  let nestedPA := env.getNestedType hist basePA ref.identifier
  let hist := hist ++ [ResolverEvent.getNestedType ref.identifier]
  if nestedPA.wasRenamed then
    let newName := nestedPA.name
    let hist := hist ++
      [ResolverEvent.diagnose ⟨ref.idLoc, .invalid_member_type_suggest,
        [.type baseTy, .text ref.identifier, .text newName]⟩,
       ResolverEvent.fixItReplace ref.idLoc newName]
    let ref := { ref with identifier := newName }
    let hist := hist ++ [ResolverEvent.overwriteIdentifier newName,
      ResolverEvent.setAlreadyDiagnosedRename nestedPA]
    let nestedPA := env.getNestedType hist basePA newName
    (nestedPA, ref, hist ++ [ResolverEvent.getNestedType newName])
  else (nestedPA, ref, hist)

/-- The method `CompleteGenericTypeResolver::resolveDependentMemberType(baseTy,
DC, baseRange, ref)`: the returned type, the `ref` afterwards and the calls
made, appended to `hist`. -/
def resolveDependentMemberType (env : ResolverSema) (baseTy : Ty) (DC : DeclContext)
    (baseRange : SourceRange) (ref : ComponentIdentTypeRepr) (hist : List ResolverEvent) :
    Ty × ComponentIdentTypeRepr × List ResolverEvent :=
  let basePA := env.resolveRepresentative baseTy
  let nested := resolveDependentMemberType.nestedType env baseTy ref hist
  let nestedPA := nested.1
  let ref := nested.2.1
  let hist := nested.2.2
  match nestedPA.resolvedAssociatedType with
  | some assocType => (.dependentMember baseTy assocType, ref, hist)
  | none =>
    match nestedPA.typeAliasDecl with
    | some aliasDecl =>
      (env.substMemberTypeWithBase hist DC aliasDecl baseTy, ref,
        hist ++ [ResolverEvent.substMemberTypeWithBase aliasDecl baseTy])
    | none =>
      let name := ref.identifier
      let nameLoc := ref.idLoc
      let complain := fun (hist : List ResolverEvent) =>
        (Ty.error, ref,
          hist ++ [ResolverEvent.diagnose ⟨nameLoc, .invalid_member_type,
            [.text name, .type baseTy]⟩, ResolverEvent.highlight baseRange])
      match env.getSuperclass hist basePA with
      | some superclassTy =>
        let lookup := env.lookupMemberType hist DC superclassTy name
        let hist := hist ++ [ResolverEvent.lookupMemberType superclassTy name]
        if lookup.found then
          if lookup.isAmbiguous then
            (Ty.error, ref,
              hist ++ [ResolverEvent.diagnoseAmbiguousMemberType baseTy baseRange name
                nameLoc lookup])
          else (lookup.frontType, ref, hist)
        else complain hist
      | none => complain hist

/-! ## Vocabulary of the statements about member-type resolution -/

/-- The typo-correction diagnostic `invalid_member_type_suggest`. -/
def ResolverEvent.isRenameDiagnostic : ResolverEvent → Bool
  | .diagnose d => decide (d.id = .invalid_member_type_suggest)
  | _ => false

/-- The diagnostic `invalid_member_type`: there is no such member. -/
def ResolverEvent.isNoSuchMember : ResolverEvent → Bool
  | .diagnose d => decide (d.id = .invalid_member_type)
  | _ => false

/-- The report of an ambiguous member-type lookup. -/
def ResolverEvent.isAmbiguity : ResolverEvent → Bool
  | .diagnoseAmbiguousMemberType _ _ _ _ _ => true
  | _ => false

/-- A look-up of a nested potential archetype. -/
def ResolverEvent.nestedName : ResolverEvent → Option String
  | .getNestedType name => some name
  | _ => none

/-- First fallback of the specification: the nested archetype has a resolved
associated type; the result is the dependent member type of the base on it,
and nothing is called. -/
def associatedTypeFallback (baseTy : Ty) (nestedPA : PotentialArchetype) :
    Option (Ty × List ResolverEvent) :=
  nestedPA.resolvedAssociatedType.map fun assocType =>
    (Ty.dependentMember baseTy assocType, [])

/-- Second fallback: the nested archetype has a type alias; the result is the
alias substituted with the base. -/
def typeAliasFallback (env : ResolverSema) (DC : DeclContext) (baseTy : Ty)
    (nestedPA : PotentialArchetype) (hist : List ResolverEvent) :
    Option (Ty × List ResolverEvent) :=
  nestedPA.typeAliasDecl.map fun aliasDecl =>
    (env.substMemberTypeWithBase hist DC aliasDecl baseTy,
      [ResolverEvent.substMemberTypeWithBase aliasDecl baseTy])

/-- Third fallback: the base has a superclass bound and member-type lookup in
it finds something; the result is the first lookup result, or the error type
with the ambiguity report when the lookup is ambiguous. -/
def superclassFallback (env : ResolverSema) (DC : DeclContext) (baseTy : Ty)
    (baseRange : SourceRange) (ref : ComponentIdentTypeRepr) (hist : List ResolverEvent) :
    Option (Ty × List ResolverEvent) :=
  (env.getSuperclass hist (env.resolveRepresentative baseTy)).bind fun superclassTy =>
    if (env.lookupMemberType hist DC superclassTy ref.identifier).found then
      if (env.lookupMemberType hist DC superclassTy ref.identifier).isAmbiguous then
        some (Ty.error,
          [ResolverEvent.lookupMemberType superclassTy ref.identifier,
           ResolverEvent.diagnoseAmbiguousMemberType baseTy baseRange ref.identifier
             ref.idLoc (env.lookupMemberType hist DC superclassTy ref.identifier)])
      else
        some ((env.lookupMemberType hist DC superclassTy ref.identifier).frontType,
          [ResolverEvent.lookupMemberType superclassTy ref.identifier])
    else none

/-- Last resort: the no-such-member diagnostic and the error type.  A lookup
in the superclass bound that found nothing has been made before. -/
def noSuchMember (env : ResolverSema) (baseTy : Ty) (baseRange : SourceRange)
    (ref : ComponentIdentTypeRepr) (hist : List ResolverEvent) : Ty × List ResolverEvent :=
  (Ty.error,
    (match env.getSuperclass hist (env.resolveRepresentative baseTy) with
     | some superclassTy => [ResolverEvent.lookupMemberType superclassTy ref.identifier]
     | none => []) ++
    [ResolverEvent.diagnose ⟨ref.idLoc, .invalid_member_type,
      [.text ref.identifier, .type baseTy]⟩, ResolverEvent.highlight baseRange])

/-- The first fallback of the list that yields something. -/
def firstYield : List (Option (Ty × List ResolverEvent)) → Option (Ty × List ResolverEvent)
  | [] => none
  | some r :: _ => some r
  | none :: rest => firstYield rest

/-- The resolution as the specification words it: after the nested archetype
is found, the fallbacks are tried in order and the first that yields
something decides; when none does, there is no such member. -/
def resolveDependentMemberTypeSpec (env : ResolverSema) (baseTy : Ty) (DC : DeclContext)
    (baseRange : SourceRange) (ref : ComponentIdentTypeRepr) (hist : List ResolverEvent) :
    Ty × ComponentIdentTypeRepr × List ResolverEvent :=
  let nested := resolveDependentMemberType.nestedType env baseTy ref hist
  let outcome :=
    (firstYield
      [associatedTypeFallback baseTy nested.1,
       typeAliasFallback env DC baseTy nested.1 nested.2.2,
       superclassFallback env DC baseTy baseRange nested.2.1 nested.2.2]).getD
      (noSuchMember env baseTy baseRange nested.2.1 nested.2.2)
  (outcome.1, nested.2.1, nested.2.2 ++ outcome.2)

/-! ## `validateGenericSignature`, `finalizeGenericParamList` and `validateGenericTypeSignature` -/

/-- The collaborators of the validation of a generic type declaration. -/
structure TypeDeclSema extends FunctionSema where
  /-- `builder.getGenericEnvironment(sig)`. -/
  getGenericEnvironment : List Event → GenericSignature → GenericEnvironment
  /-- The value `Accessibility::Internal`. -/
  accessibilityInternal : Accessibility
  /-- Whether `NDEBUG` is defined. -/
  NDEBUG : Bool

/-- What the checker reads and writes of a `GenericTypeDecl`. -/
structure GenericTypeDecl where
  isValidatingGenericSignature : Bool
  genericParams : Option GenericParamList
  declContext : DeclContext
  genericEnvironment : Option GenericEnvironment
  /-- The formal access, when the declaration is a `NominalTypeDecl`. -/
  nominalFormalAccess : Option Accessibility
  deriving DecidableEq, Repr

/-- The function `TypeChecker::validateGenericSignature(genericParams, dc,
parentSig, allowConcreteGenericParams, inferRequirements)`: the signature,
the parameter list afterwards and the calls made.  `inferRequirements` gives
the calls the callback makes on the builder; `dc` only names the module of
the builder and the context printed with the debugging output. -/
def validateGenericSignature (env : TypeDeclSema) (genericParams : GenericParamList)
    (parentSig : Option GenericSignature) (allowConcreteGenericParams : Bool)
    (inferRequirements : Option (List Event → List Event)) (hist : List Event) :
    GenericSignature × GenericParamList × List Event :=
  let hist := hist ++ [Event.createArchetypeBuilder]
  let first := checkGenericParamList env.toSema true (some genericParams) parentSig none
    (some .Dependent) hist
  let genericParams :=
    match first.1 with
    | some checked => checked
    | none => genericParams
  let hist := first.2
  let hist :=
    match inferRequirements with
    | some callback => hist ++ callback hist
    | none => hist
  let hist := hist ++
    [Event.finalizeWith genericParams.sourceRangeStart allowConcreteGenericParams]
  let genericParams := revertGenericParamList genericParams
  let second := checkGenericParamList env.toSema false (some genericParams) none none
    (some .Complete) hist
  let genericParams :=
    match second.1 with
    | some checked => checked
    | none => genericParams
  let hist := second.2 ++ [Event.diagnoseRemainingRenames genericParams.sourceRangeStart]
  let sig := env.getGenericSignature hist
  let hist := hist ++ [Event.getGenericSignature]
  let hist := if env.debugGenericSignatures then hist ++ [Event.dump] else hist
  (sig, genericParams, hist)

/-- The loop of `finalizeGenericParamList` over the parameters. -/
def finalizeGenericParamList.finalizeParams (env : TypeDeclSema) (access : Accessibility) :
    List GenericTypeParamDecl → List Event → List GenericTypeParamDecl × List Event
  | [], hist => ([], hist)
  | GP :: rest, hist =>
    let checked := env.checkInheritanceClause hist GP none
    let hist := hist ++ [Event.checkInheritanceClause GP none]
    let checked :=
      if checked.accessibility.isNone then { checked with accessibility := some access }
      else checked
    let r := finalizeGenericParamList.finalizeParams env access rest hist
    (checked :: r.1, r.2)

/-- One iteration of the loop of `finalizeGenericParamList` over the
requirements; both kinds of requirement are treated alike. -/
def finalizeGenericParamList.finalizeRequirement (env : TypeDeclSema) (hist : List Event)
    (req : RequirementRepr) : RequirementRepr × List Event :=
  if req.invalid then (req, hist)
  else
    let options : TypeResolutionOptions := ⟨false, false⟩
    let loc1 := revertDependentTypeLoc req.firstLoc
    let r1 := env.validateType hist loc1 options none
    let hist1 := hist ++ [Event.validateType loc1 options none]
    let req1 := { req with firstLoc := loc1.setType (some r1.2) true }
    if r1.1 then ({ req1 with invalid := true }, hist1)
    else
      let loc2 := revertDependentTypeLoc req1.secondLoc
      let r2 := env.validateType hist1 loc2 options none
      let hist2 := hist1 ++ [Event.validateType loc2 options none]
      let req2 := { req1 with secondLoc := loc2.setType (some r2.2) true }
      if r2.1 then ({ req2 with invalid := true }, hist2)
      else (req2, hist2)

/-- The loop of `finalizeGenericParamList` over the requirements. -/
def finalizeGenericParamList.finalizeRequirements (env : TypeDeclSema) :
    List RequirementRepr → List Event → List RequirementRepr × List Event
  | [], hist => ([], hist)
  | req :: rest, hist =>
    let r := finalizeGenericParamList.finalizeRequirement env hist req
    let k := finalizeGenericParamList.finalizeRequirements env rest r.2
    (r.1 :: k.1, k.2)

/-- The function `TypeChecker::finalizeGenericParamList(genericParams,
genericSig, genericEnv, dc)`.  `dcAccess` is the formal access of `dc` when
it is a `FuncDecl` or a `NominalTypeDecl`. -/
def finalizeGenericParamList (env : TypeDeclSema) (genericParams : GenericParamList)
    (genericSig : GenericSignature) (genericEnv : GenericEnvironment)
    (dcAccess : Option Accessibility) (hist : List Event) :
    GenericParamList × List Event :=
  let access :=
    match dcAccess with
    | some formal => formal
    | none => env.accessibilityInternal
  let access := max access env.accessibilityInternal
  let params := finalizeGenericParamList.finalizeParams env access genericParams.params hist
  let hist :=
    if !env.NDEBUG then params.2 ++ [Event.recordArchetypeContexts genericSig genericEnv]
    else params.2
  let reqs := finalizeGenericParamList.finalizeRequirements env genericParams.requirements
    hist
  ({ genericParams with params := params.1, requirements := reqs.1 }, reqs.2)

/-- The part of `validateGenericTypeSignature` that runs while the flag is
set, up to the point where the deferred reset runs. -/
def validateGenericTypeSignature.validate (env : TypeDeclSema) (typeDecl : GenericTypeDecl)
    (hist : List Event) : GenericTypeDecl × List Event :=
  let dc := typeDecl.declContext
  match typeDecl.genericParams with
  | none =>
    let parentEnv := dc.genericEnvironmentOfContext
    ({ typeDecl with genericEnvironment := parentEnv }, hist)
  | some gp =>
    let validated := validateGenericSignature env gp dc.genericSignatureOfContext false none
      hist
    let sig := validated.1
    let gp := revertGenericParamList validated.2.1
    let hist := validated.2.2 ++ [Event.createArchetypeBuilder]
    let parentSig := dc.genericSignatureOfContext
    let parentEnv := dc.genericEnvironmentOfContext
    let checked := checkGenericParamList env.toSema true (some gp) parentSig parentEnv none
      hist
    let gp :=
      match checked.1 with
      | some list => list
      | none => gp
    let genericEnv := env.getGenericEnvironment checked.2 sig
    let hist := checked.2 ++ [Event.getGenericEnvironment sig]
    let typeDecl := { typeDecl with genericEnvironment := some genericEnv }
    let finalized := finalizeGenericParamList env gp sig genericEnv
      typeDecl.nominalFormalAccess hist
    ({ typeDecl with genericParams := some finalized.1 }, finalized.2)

/-- The function `TypeChecker::validateGenericTypeSignature(typeDecl)`: the
declaration afterwards and the calls made.  A validation of the same
declaration requested while this one runs finds the flag set. -/
def validateGenericTypeSignature (env : TypeDeclSema) (typeDecl : GenericTypeDecl)
    (hist : List Event) : GenericTypeDecl × List Event :=
  if typeDecl.isValidatingGenericSignature then (typeDecl, hist)
  else
    let typeDecl := { typeDecl with isValidatingGenericSignature := true }
    let r := validateGenericTypeSignature.validate env typeDecl hist
    ({ r.1 with isValidatingGenericSignature := false }, r.2)

/-- A `requirement_restricts_self` diagnostic, in either language mode. -/
def Event.isRestrictsSelf : Event → Bool
  | .diagnose d =>
    decide (d.id = .requirement_restricts_self) ||
      decide (d.id = .requirement_restricts_self_swift3)
  | _ => false

/-- The calls of `after` are those of `before` followed by calls none of which
is a `requirement_restricts_self` diagnostic. -/
def addsNoSelfDiagnostic (before after : List Event) : Prop :=
  ∃ calls, after = before ++ calls ∧ ∀ e ∈ calls, e.isRestrictsSelf = false

/-! ## Sample data -/

/-- A printer for sample runs: nominal types and parameters by name. -/
def sampleGetString : Ty → String
  | .genericTypeParam gp => gp.name
  | .structTy name => name
  | .classTy name => name
  | .protocol name => name
  | _ => "_"

/-- Sample collaborators: `Int` conforms to `Comparable`, `Derived` is a
subclass of `Base`, equality is structural, a failed conformance is reported
as `type_does_not_conform`. -/
def sampleTypeChecker : TypeChecker where
  subst := Ty.subst fun _ _ => none
  conformsToProtocol := fun t proto loc =>
    if t = .structTy "Int" ∧ proto = .protocol "Comparable" then (true, [])
    else (false, [⟨loc, .type_does_not_conform, [.type t, .type proto]⟩])
  isSubtypeOf := fun a b => decide (a = b) || (decide (a = .classTy "Derived") && decide (b = .classTy "Base"))
  isEqual := fun a b => decide (a = b)
  getString := sampleGetString

/-- The parameter `T` at depth 0, index 0. -/
def sampleT : GenericTypeParamType := ⟨"T", 0, 0⟩

/-- The parameter `U` at depth 0, index 1. -/
def sampleU : GenericTypeParamType := ⟨"U", 0, 1⟩

/-- The signature `<T, U>` with the single requirement `T : Comparable`. -/
def sampleConformanceSig : GenericSignature :=
  ⟨[sampleT, sampleU], [⟨.Conformance, .genericTypeParam sampleT, .protocol "Comparable"⟩]⟩

/-- The signature `<T, U>` with the single requirement `T : Base` (superclass). -/
def sampleSuperclassSig : GenericSignature :=
  ⟨[sampleT, sampleU], [⟨.Superclass, .genericTypeParam sampleT, .classTy "Base"⟩]⟩

/-- The substitution `T -> CustomStruct`. -/
def sampleCustomStructMap : TypeSubstitutionMap := [((0, 0), .structTy "CustomStruct")]

/-- The signature `<T, U>` without requirements. -/
def sampleTUSig : GenericSignature := ⟨[sampleT, sampleU], []⟩

/-- The substitution `T -> CustomStruct, U -> Int`. -/
def sampleFullMap : TypeSubstitutionMap :=
  [((0, 0), .structTy "CustomStruct"), ((0, 1), .structTy "Int")]

/-- A sample declaration context: generic, not at module scope, neither a
type nor a protocol. -/
def sampleDeclContext : DeclContext :=
  ⟨false, false, true, none, .structTy "Owner", none, none⟩

/-- A type location holding only the written syntax. -/
def sampleLoc (repr : String) : TypeLoc := ⟨some repr, none, false⟩

/-- The declaration of `T : Comparable`. -/
def sampleParamT : GenericTypeParamDecl :=
  ⟨"T", 5, 0, [sampleLoc "Comparable"], false, sampleDeclContext, none⟩

/-- The declaration of `U`. -/
def sampleParamU : GenericTypeParamDecl := ⟨"U", 5, 1, [], false, sampleDeclContext, none⟩

/-- Sample collaborators: the names `T`, `U`, `Int`, `Comparable` and `Base`
resolve, every other name fails; the builder rejects same-type requirements
between a parameter and `Int`. -/
def sampleSema : Sema where
  checkInheritanceClause := fun _ param _ => { param with checkedInheritanceClause := true }
  validateType := fun _ loc _ _ =>
    if loc.typeRepr = some "T" then (false, .genericTypeParam sampleT)
    else if loc.typeRepr = some "U" then (false, .genericTypeParam sampleU)
    else if loc.typeRepr = some "Int" then (false, .structTy "Int")
    else if loc.typeRepr = some "Comparable" then (false, .protocol "Comparable")
    else if loc.typeRepr = some "Base" then (false, .classTy "Base")
    else (true, .error)
  addRequirement := fun _ req =>
    decide (req.kind = .SameType) && decide (req.secondLoc.typeRepr = some "Int")

/-- The where clause `T : Int, T : Comparable, Missing == T, U == Int, T : Base,`
with one more requirement `U : Comparable` that is already invalid. -/
def sampleWhereClause : List RequirementRepr :=
  [ ⟨.TypeConstraint, sampleLoc "T", sampleLoc "Int", false⟩,
    ⟨.TypeConstraint, sampleLoc "T", sampleLoc "Comparable", false⟩,
    ⟨.SameType, sampleLoc "Missing", sampleLoc "T", false⟩,
    ⟨.SameType, sampleLoc "U", sampleLoc "Int", false⟩,
    ⟨.TypeConstraint, sampleLoc "U", sampleLoc "Comparable", true⟩,
    ⟨.TypeConstraint, sampleLoc "T", sampleLoc "Base", false⟩ ]

/-- The parameter list `<T : Comparable, U>` with the sample where clause. -/
def sampleParamList : GenericParamList :=
  ⟨[sampleParamT, sampleParamU], sampleWhereClause, 0, 7, 4⟩

/-- Sample collaborators for a function signature: parameter lists check
without error, nothing is renamed, the builder answers with the signature
`<T, U> where T : Comparable`, language version 4. -/
def sampleFunctionSema : FunctionSema where
  toSema := sampleSema
  typeCheckParameterList := fun _ params _ => (false, params)
  typeSetByRecursiveValidation := fun _ => none
  diagnoseRemainingRenames := fun _ => false
  getGenericSignature := fun _ => sampleConformanceSig
  getInterfaceType := fun _ => .genericTypeParam sampleT
  computeInterfaceSelfType := fun func _ => func.declContext.selfInterfaceType
  mapTypeOutOfContext := fun t => t
  getString := sampleGetString
  genericParamLoc := fun _ => 0
  effectiveLanguageVersion := 4
  debugGenericSignatures := false

/-- The function `func f<T : Comparable, U>(x: T) -> U` with the sample where
clause, before validation. -/
def sampleFunc : AbstractFunctionDecl where
  kind := .FuncDecl
  descriptiveKind := 0
  fullName := "f"
  loc := 3
  declContext := sampleDeclContext
  isGenericContext := true
  genericParams := some sampleParamList
  parameterLists := [⟨[⟨"x", none, false, sampleLoc "T"⟩]⟩]
  bodyResultTypeLoc := sampleLoc "U"
  hasDynamicSelf := false
  dynamicSelfInterface := .error
  failability := .OTK_None
  hasThrows := false
  type := none
  interfaceType := none
  initializerInterfaceType := none
  isBeingTypeChecked := false
  invalid := false

/-- The context of a member of the protocol `Container`. -/
def sampleProtocolContext : DeclContext :=
  ⟨false, true, true, some "Container", .genericTypeParam ⟨"Self", 0, 0⟩, none, none⟩

/-- The sample function declared in the protocol `Container`. -/
def sampleProtocolFunc : AbstractFunctionDecl :=
  { sampleFunc with declContext := sampleProtocolContext }

/-- The parameter `Self` of a protocol: depth 0, index 0. -/
def sampleSelf : GenericTypeParamType := ⟨"Self", 0, 0⟩

/-- The parameter `V` of a method of a protocol: depth 1, index 0. -/
def sampleV : GenericTypeParamType := ⟨"V", 1, 0⟩

/-- The signature `<Self, V> where Self : Container, Self : Comparable,
Self.Element == Int, V : Comparable, V == Self.Element`. -/
def sampleProtocolSig : GenericSignature :=
  ⟨[sampleSelf, sampleV],
   [ ⟨.Conformance, .genericTypeParam sampleSelf, .protocol "Container"⟩,
     ⟨.Conformance, .genericTypeParam sampleSelf, .protocol "Comparable"⟩,
     ⟨.SameType, .dependentMember (.genericTypeParam sampleSelf) "Element", .structTy "Int"⟩,
     ⟨.Conformance, .genericTypeParam sampleV, .protocol "Comparable"⟩,
     ⟨.SameType, .genericTypeParam sampleV,
       .dependentMember (.genericTypeParam sampleSelf) "Element"⟩ ]⟩

/-- The parameter `W` at depth 0, index 2. -/
def sampleW : GenericTypeParamType := ⟨"W", 0, 2⟩

/-- The signature `<T, U, W> where W : Comparable`: `W` occurs only in a
conformance requirement. -/
def sampleUnreferencedSig : GenericSignature :=
  ⟨[sampleT, sampleU, sampleW],
   [⟨.Conformance, .genericTypeParam sampleW, .protocol "Comparable"⟩]⟩

/-- The sample function once its result type `U` is resolved. -/
def sampleCheckedFunc : AbstractFunctionDecl :=
  { sampleFunc with bodyResultTypeLoc := ⟨some "U", some (.genericTypeParam sampleU), true⟩ }

/-- A constructor `init(x: T)` of the struct `Owner`, with the `self` list
first. -/
def sampleCtor : AbstractFunctionDecl :=
  { sampleFunc with
    kind := .ConstructorDecl
    fullName := "init"
    declContext := ⟨false, true, true, none, .structTy "Owner", none, none⟩
    genericParams := none
    parameterLists := [⟨[⟨"self", none, false, sampleLoc "Owner"⟩]⟩,
      ⟨[⟨"x", none, false, sampleLoc "T"⟩]⟩]
    bodyResultTypeLoc := ⟨none, none, false⟩ }

/-- The destructor of the class `Base`, with its `self` list only. -/
def sampleDtor : AbstractFunctionDecl :=
  { sampleFunc with
    kind := .DestructorDecl
    fullName := "deinit"
    declContext := ⟨false, true, false, none, .classTy "Base", none, none⟩
    genericParams := none
    parameterLists := [⟨[⟨"self", none, false, sampleLoc "Base"⟩]⟩]
    bodyResultTypeLoc := ⟨none, none, false⟩ }

/-- A parameter list whose where clause holds a requirement that is already
invalid and one whose second type is a validated error type. -/
def sampleRevertList : GenericParamList :=
  ⟨[⟨"T", 0, 0, [⟨some "Missing", some .error, true⟩], true, sampleDeclContext, none⟩],
   [ ⟨.TypeConstraint, ⟨some "T", some (.genericTypeParam sampleT), true⟩,
       ⟨some "Int", some .error, true⟩, true⟩,
     ⟨.SameType, ⟨some "T", some (.genericTypeParam sampleT), true⟩,
       ⟨some "Missing", some .error, true⟩, false⟩ ],
   0, 7, 4⟩

/-- A builder in which `T.Elemnt` was renamed to `T.Element` by typo
correction, `T.Index` is an alias, and `T` has the superclass `Base`. -/
def sampleResolverSema : ResolverSema where
  resolveRepresentative := fun _ => 0
  getNestedType := fun _ _ name =>
    if name = "Elemnt" then ⟨"Element", true, none, none⟩
    else if name = "Element" then ⟨"Element", false, some "Element", none⟩
    else if name = "Index" then ⟨"Index", false, none, some "Index"⟩
    else ⟨name, false, none, none⟩
  getSuperclass := fun _ _ => some (.classTy "Base")
  substMemberTypeWithBase := fun _ _ _ _ => .structTy "Int"
  lookupMemberType := fun _ _ _ name =>
    if name = "Inner" then ⟨true, false, .structTy "Inner"⟩
    else if name = "Twice" then ⟨true, true, .structTy "Twice"⟩
    else ⟨false, false, .error⟩

/-- Collaborators of the validation of a type declaration; `Internal` has
the number 2. -/
def sampleTypeDeclSema : TypeDeclSema where
  toFunctionSema := sampleFunctionSema
  getGenericEnvironment := fun hist _ => ⟨hist.length⟩
  accessibilityInternal := 2
  NDEBUG := true

/-- The declaration `struct S<T : Comparable, U> where ...` before validation. -/
def sampleTypeDecl : GenericTypeDecl :=
  ⟨false, some sampleParamList, sampleDeclContext, none, some 3⟩

/-- A declaration without generic parameters of its own, in a generic context. -/
def sampleNestedTypeDecl : GenericTypeDecl :=
  ⟨false, none, sampleDeclContext, none, some 3⟩

/-- The sample collaborators with a builder that answers with the signature
of a method of the protocol `Container`. -/
def sampleProtocolSema : FunctionSema :=
  { sampleFunctionSema with getGenericSignature := fun _ => sampleProtocolSig }

/-- The parameter list `<V : Comparable>` of a declaration nested in a generic
context: depth 1, no where clause. -/
def sampleInnerList : GenericParamList :=
  ⟨[⟨"V", 0, 0, [sampleLoc "Comparable"], false, sampleDeclContext, none⟩], [], 1, 7, 4⟩

/-! ## Properties of `checkGenericArguments` -/

theorem checkGenericArguments.loop_true_iff (tc : TypeChecker) (loc noteLoc : SourceLoc)
    (owner : Ty) (genericSig : GenericSignature) (substitutions : TypeSubstitutionMap)
    (reqs : List Requirement) :
    (checkGenericArguments.loop tc loc noteLoc owner genericSig substitutions reqs).1 = true ↔
      ∃ req ∈ reqs, ∃ firstType secondType,
        tc.subst substitutions req.first = some firstType ∧
        tc.subst substitutions req.second = some secondType ∧
        requirementFails tc loc req.kind firstType secondType = true := by
  induction reqs with
  | nil => simp [checkGenericArguments.loop]
  | cons req rest ih =>
    rw [checkGenericArguments.loop]
    cases h1 : tc.subst substitutions req.first with
    | none => simp [ih, h1]
    | some firstType =>
      cases h2 : tc.subst substitutions req.second with
      | none => simp [ih, h1, h2]
      | some secondType =>
        cases hk : req.kind with
        | Conformance =>
          cases hc : (tc.conformsToProtocol firstType secondType loc).1 <;>
            simp [ih, h1, h2, hk, hc, requirementFails]
        | Superclass =>
          cases hc : tc.isSubtypeOf firstType secondType <;>
            simp [ih, h1, h2, hk, hc, requirementFails]
        | SameType =>
          cases hc : tc.isEqual firstType secondType <;>
            simp [ih, h1, h2, hk, hc, requirementFails]

/-- C1: `checkGenericArguments` returns `true` exactly when some requirement
whose two types both substitute to a non-null type fails the test of its kind
(conformance, subtyping, equality); with no requirements it returns `false`. -/
theorem checkGenericArguments_fails_iff (tc : TypeChecker) (loc noteLoc : SourceLoc)
    (owner : Ty) (genericSig : GenericSignature) (substitutions : TypeSubstitutionMap) :
    ((checkGenericArguments tc loc noteLoc owner genericSig substitutions).1 = true ↔
      ∃ req ∈ genericSig.requirements, ∃ firstType secondType,
        tc.subst substitutions req.first = some firstType ∧
        tc.subst substitutions req.second = some secondType ∧
        requirementFails tc loc req.kind firstType secondType = true) ∧
    ∀ genericParams : List GenericTypeParamType,
      (checkGenericArguments tc loc noteLoc owner ⟨genericParams, []⟩ substitutions).1
        = false :=
  ⟨checkGenericArguments.loop_true_iff tc loc noteLoc owner genericSig substitutions
      genericSig.requirements,
    fun _ => rfl⟩

theorem Ty.subst_eq_none_of_mentionsMissingParam (typeWitness : Ty → String → Option Ty)
    (substitutions : TypeSubstitutionMap) (t : Ty)
    (h : t.mentionsMissingParam substitutions) :
    Ty.subst typeWitness substitutions t = none := by
  obtain ⟨gp, hmem, hnone⟩ := h
  induction t with
  | genericTypeParam g =>
    simp [Ty.visit] at hmem
    subst hmem
    simpa [Ty.subst] using hnone
  | dependentMember base name ih =>
    simp [Ty.visit] at hmem
    simp [Ty.subst, ih hmem]
  | boundGenericStruct name arg ih =>
    simp [Ty.visit] at hmem
    simp [Ty.subst, ih hmem]
  | boundGenericClass name arg ih =>
    simp [Ty.visit] at hmem
    simp [Ty.subst, ih hmem]
  | optional k object ih =>
    simp [Ty.visit] at hmem
    simp [Ty.subst, ih hmem]
  | dynamicSelf selfTy ih =>
    simp [Ty.visit] at hmem
    simp [Ty.subst, ih hmem]
  | protocolComposition a b iha ihb =>
    simp [Ty.visit] at hmem
    rcases hmem with h | h
    · simp [Ty.subst, iha h]
    · simp [Ty.subst, ihb h]
  | tuple a b iha ihb =>
    simp [Ty.visit] at hmem
    rcases hmem with h | h
    · simp [Ty.subst, iha h]
    · simp [Ty.subst, ihb h]
  | function a b throws iha ihb =>
    simp [Ty.visit] at hmem
    rcases hmem with h | h
    · simp [Ty.subst, iha h]
    · simp [Ty.subst, ihb h]
  | genericFunction a b throws iha ihb =>
    simp [Ty.visit] at hmem
    rcases hmem with h | h
    · simp [Ty.subst, iha h]
    · simp [Ty.subst, ihb h]
  | _ => simp [Ty.visit] at hmem

theorem checkGenericArguments.loop_congr_sig (tc : TypeChecker) (loc noteLoc : SourceLoc)
    (owner : Ty) (sig1 sig2 : GenericSignature) (substitutions : TypeSubstitutionMap)
    (h : sig1.genericParams = sig2.genericParams) (reqs : List Requirement) :
    checkGenericArguments.loop tc loc noteLoc owner sig1 substitutions reqs =
      checkGenericArguments.loop tc loc noteLoc owner sig2 substitutions reqs := by
  induction reqs with
  | nil => rfl
  | cons req rest ih =>
    simp only [checkGenericArguments.loop, gatherGenericParamBindingsText, h, ih]

theorem checkGenericArguments.loop_skip (tc : TypeChecker) (loc noteLoc : SourceLoc)
    (owner : Ty) (genericSig : GenericSignature) (substitutions : TypeSubstitutionMap)
    (req : Requirement) (rest : List Requirement)
    (h : tc.subst substitutions req.first = none ∨ tc.subst substitutions req.second = none) :
    checkGenericArguments.loop tc loc noteLoc owner genericSig substitutions (req :: rest) =
      checkGenericArguments.loop tc loc noteLoc owner genericSig substitutions rest := by
  rw [checkGenericArguments.loop]
  rcases h with h | h
  · simp [h]
  · cases h1 : tc.subst substitutions req.first <;> simp [h]

theorem checkGenericArguments.loop_remove (tc : TypeChecker) (loc noteLoc : SourceLoc)
    (owner : Ty) (genericSig : GenericSignature) (substitutions : TypeSubstitutionMap)
    (req : Requirement) (before after : List Requirement)
    (h : tc.subst substitutions req.first = none ∨ tc.subst substitutions req.second = none) :
    checkGenericArguments.loop tc loc noteLoc owner genericSig substitutions
        (before ++ req :: after) =
      checkGenericArguments.loop tc loc noteLoc owner genericSig substitutions
        (before ++ after) := by
  induction before with
  | nil => exact checkGenericArguments.loop_skip tc loc noteLoc owner genericSig substitutions req after h
  | cons r rs ih =>
    rw [List.cons_append, List.cons_append, checkGenericArguments.loop, ih]
    conv_rhs => rw [checkGenericArguments.loop]

theorem checkGenericArguments.loop_all_skipped (tc : TypeChecker) (loc noteLoc : SourceLoc)
    (owner : Ty) (genericSig : GenericSignature) (substitutions : TypeSubstitutionMap)
    (reqs : List Requirement)
    (h : ∀ req ∈ reqs,
      tc.subst substitutions req.first = none ∨ tc.subst substitutions req.second = none) :
    checkGenericArguments.loop tc loc noteLoc owner genericSig substitutions reqs =
      (false, []) := by
  induction reqs with
  | nil => rfl
  | cons req rest ih =>
    rw [checkGenericArguments.loop_skip tc loc noteLoc owner genericSig substitutions req rest
      (h req (List.mem_cons_self _ _))]
    exact ih fun r hr => h r (List.mem_cons_of_mem _ hr)

/-- C2: a requirement one of whose types substitutes to no result is skipped:
removing it from the signature changes neither the returned boolean nor what
is reported, whatever its kind; so a signature all of whose requirements are
of that sort gives `false` and no diagnostic, and (with `Type::subst` as the
spec describes it) so does every signature in which each requirement mentions
a parameter missing from the map. -/
theorem checkGenericArguments_skips_unsubstituted (tc : TypeChecker) (loc noteLoc : SourceLoc)
    (owner : Ty) (genericParams : List GenericTypeParamType)
    (substitutions : TypeSubstitutionMap) :
    (∀ (before after : List Requirement) (req : Requirement),
      (tc.subst substitutions req.first = none ∨ tc.subst substitutions req.second = none) →
      checkGenericArguments tc loc noteLoc owner ⟨genericParams, before ++ req :: after⟩
          substitutions =
        checkGenericArguments tc loc noteLoc owner ⟨genericParams, before ++ after⟩
          substitutions) ∧
    (∀ reqs : List Requirement,
      (∀ req ∈ reqs,
        tc.subst substitutions req.first = none ∨ tc.subst substitutions req.second = none) →
      checkGenericArguments tc loc noteLoc owner ⟨genericParams, reqs⟩ substitutions =
        (false, [])) ∧
    (∀ (typeWitness : Ty → String → Option Ty) (reqs : List Requirement),
      (∀ req ∈ reqs, req.first.mentionsMissingParam substitutions ∨
        req.second.mentionsMissingParam substitutions) →
      checkGenericArguments (tc.withSubstFromMap typeWitness) loc noteLoc owner
        ⟨genericParams, reqs⟩ substitutions = (false, [])) := by
  refine ⟨?_, ?_, ?_⟩
  · intro before after req h
    unfold checkGenericArguments
    rw [checkGenericArguments.loop_remove tc loc noteLoc owner _ substitutions req before after h]
    exact checkGenericArguments.loop_congr_sig tc loc noteLoc owner
      ⟨genericParams, before ++ req :: after⟩ ⟨genericParams, before ++ after⟩ substitutions
      rfl _
  · intro reqs h
    exact checkGenericArguments.loop_all_skipped tc loc noteLoc owner _ substitutions reqs h
  · intro typeWitness reqs h
    refine checkGenericArguments.loop_all_skipped _ loc noteLoc owner _ substitutions reqs ?_
    intro req hreq
    rcases h req hreq with h1 | h1
    · exact Or.inl (Ty.subst_eq_none_of_mentionsMissingParam typeWitness substitutions _ h1)
    · exact Or.inr (Ty.subst_eq_none_of_mentionsMissingParam typeWitness substitutions _ h1)

/-- C3: when type equality is symmetric, the signatures with the single
requirement `SameType(A, B)` and `SameType(B, A)` give the same boolean for
every substitution map, a missing substitution included. -/
theorem checkGenericArguments_sameType_symm (tc : TypeChecker)
    (hsymm : ∀ a b : Ty, tc.isEqual a b = tc.isEqual b a)
    (loc noteLoc : SourceLoc) (owner : Ty) (genericParams : List GenericTypeParamType)
    (substitutions : TypeSubstitutionMap) (A B : Ty) :
    (checkGenericArguments tc loc noteLoc owner ⟨genericParams, [⟨.SameType, A, B⟩]⟩
        substitutions).1 =
      (checkGenericArguments tc loc noteLoc owner ⟨genericParams, [⟨.SameType, B, A⟩]⟩
        substitutions).1 := by
  simp only [checkGenericArguments, checkGenericArguments.loop]
  cases hA : tc.subst substitutions A <;> cases hB : tc.subst substitutions B <;>
    simp only []
  rename_i a b
  rw [hsymm a b]
  cases tc.isEqual b a <;> rfl

/-- Witness for C2: with only `T` bound, the requirement `U == T` is skipped. -/
theorem checkGenericArguments_skips_unsubstituted_witness :
    checkGenericArguments sampleTypeChecker 1 2 (.structTy "Owner")
        ⟨[sampleT, sampleU],
          [⟨.Superclass, .genericTypeParam sampleT, .classTy "Base"⟩] ++
            ⟨.SameType, .genericTypeParam sampleU, .genericTypeParam sampleT⟩ :: []⟩
        sampleCustomStructMap =
      checkGenericArguments sampleTypeChecker 1 2 (.structTy "Owner")
        ⟨[sampleT, sampleU],
          [⟨.Superclass, .genericTypeParam sampleT, .classTy "Base"⟩] ++ []⟩
        sampleCustomStructMap ∧
    checkGenericArguments sampleTypeChecker 1 2 (.structTy "Owner")
        ⟨[sampleT, sampleU], [⟨.SameType, .genericTypeParam sampleU, .genericTypeParam sampleT⟩]⟩
        sampleCustomStructMap = (false, []) ∧
    checkGenericArguments (sampleTypeChecker.withSubstFromMap fun _ _ => none) 1 2
        (.structTy "Owner")
        ⟨[sampleT, sampleU], [⟨.Conformance, .genericTypeParam sampleU, .protocol "Comparable"⟩]⟩
        sampleCustomStructMap = (false, []) :=
  ⟨(checkGenericArguments_skips_unsubstituted sampleTypeChecker 1 2 (.structTy "Owner")
      [sampleT, sampleU] sampleCustomStructMap).1
      [⟨.Superclass, .genericTypeParam sampleT, .classTy "Base"⟩] []
      ⟨.SameType, .genericTypeParam sampleU, .genericTypeParam sampleT⟩ (by decide),
   (checkGenericArguments_skips_unsubstituted sampleTypeChecker 1 2 (.structTy "Owner")
      [sampleT, sampleU] sampleCustomStructMap).2.1
      [⟨.SameType, .genericTypeParam sampleU, .genericTypeParam sampleT⟩]
      (by intro req hreq; rw [List.mem_singleton] at hreq; subst hreq; decide),
   (checkGenericArguments_skips_unsubstituted sampleTypeChecker 1 2 (.structTy "Owner")
      [sampleT, sampleU] sampleCustomStructMap).2.2 (fun _ _ => none)
      [⟨.Conformance, .genericTypeParam sampleU, .protocol "Comparable"⟩]
      (by
        intro req hreq
        rw [List.mem_singleton] at hreq
        subst hreq
        exact Or.inl ⟨sampleU, by decide, by decide⟩)⟩

/-- Witness for C3: structural equality is symmetric; `T == Int` and
`Int == T` agree under `T -> CustomStruct`. -/
theorem checkGenericArguments_sameType_symm_witness :
    (checkGenericArguments sampleTypeChecker 1 2 (.structTy "Owner")
        ⟨[sampleT], [⟨.SameType, .genericTypeParam sampleT, .structTy "Int"⟩]⟩
        sampleCustomStructMap).1 =
      (checkGenericArguments sampleTypeChecker 1 2 (.structTy "Owner")
        ⟨[sampleT], [⟨.SameType, .structTy "Int", .genericTypeParam sampleT⟩]⟩
        sampleCustomStructMap).1 :=
  checkGenericArguments_sameType_symm sampleTypeChecker
    (fun a b => by simp [sampleTypeChecker, eq_comm])
    1 2 (.structTy "Owner") [sampleT] sampleCustomStructMap
    (.genericTypeParam sampleT) (.structTy "Int")

theorem checkGenericArguments.loop_failure_report (tc : TypeChecker) (loc noteLoc : SourceLoc)
    (owner : Ty) (genericSig : GenericSignature) (substitutions : TypeSubstitutionMap)
    (reqs : List Requirement)
    (h : (checkGenericArguments.loop tc loc noteLoc owner genericSig substitutions reqs).1
      = true) :
    ∃ req ∈ reqs, ∃ firstType secondType,
      tc.subst substitutions req.first = some firstType ∧
      tc.subst substitutions req.second = some secondType ∧
      requirementFails tc loc req.kind firstType secondType = true ∧
      (req.kind = .Superclass →
        Emitted.diagnose ⟨noteLoc, .type_does_not_inherit_requirement,
          [.type req.first, .type req.second,
           .text (gatherGenericParamBindingsText tc.getString [req.first, req.second]
             genericSig substitutions)]⟩ ∈
          (checkGenericArguments.loop tc loc noteLoc owner genericSig substitutions reqs).2) ∧
      (req.kind = .SameType →
        Emitted.diagnose ⟨noteLoc, .types_not_equal_requirement,
          [.type req.first, .type req.second,
           .text (gatherGenericParamBindingsText tc.getString [req.first, req.second]
             genericSig substitutions)]⟩ ∈
          (checkGenericArguments.loop tc loc noteLoc owner genericSig substitutions reqs).2) ∧
      (req.kind = .Conformance →
        ∀ e ∈ (checkGenericArguments.loop tc loc noteLoc owner genericSig substitutions reqs).2,
          ∃ d, e = Emitted.inConformsToProtocol d) := by
  induction reqs with
  | nil => simp [checkGenericArguments.loop] at h
  | cons req rest ih =>
    rw [checkGenericArguments.loop] at h ⊢
    cases h1 : tc.subst substitutions req.first with
    | none =>
      simp only [h1] at h ⊢
      obtain ⟨r, hr, rest⟩ := ih h
      exact ⟨r, List.mem_cons_of_mem _ hr, rest⟩
    | some firstType =>
      cases h2 : tc.subst substitutions req.second with
      | none =>
        simp only [h1, h2] at h ⊢
        obtain ⟨r, hr, rest⟩ := ih h
        exact ⟨r, List.mem_cons_of_mem _ hr, rest⟩
      | some secondType =>
        cases hk : req.kind with
        | Conformance =>
          cases hc : (tc.conformsToProtocol firstType secondType loc).1 with
          | false =>
            refine ⟨req, List.mem_cons_self _ _, firstType, secondType, h1, h2, ?_, ?_, ?_, ?_⟩
            · simp [requirementFails, hk, hc]
            · simp [hk]
            · simp [hk]
            · simp [h1, h2, hk, hc]
          | true =>
            simp only [h1, h2, hk, hc] at h ⊢
            obtain ⟨r, hr, f, s, hf, hs, hfail, hsup, hsame, hconf⟩ := ih h
            refine ⟨r, List.mem_cons_of_mem _ hr, f, s, hf, hs, hfail, ?_, ?_, ?_⟩
            · intro hkr
              simpa using hsup hkr
            · intro hkr
              simpa using hsame hkr
            · intro hkr e he
              simp only [Bool.not_true, Bool.false_eq_true, if_false, List.mem_append,
                List.mem_map] at he
              rcases he with ⟨d, _, hd⟩ | he
              · exact ⟨d, hd.symm⟩
              · exact hconf hkr e he
        | Superclass =>
          cases hc : tc.isSubtypeOf firstType secondType with
          | false =>
            refine ⟨req, List.mem_cons_self _ _, firstType, secondType, h1, h2, ?_, ?_, ?_, ?_⟩
            · simp [requirementFails, hk, hc]
            · simp [h1, h2, hk, hc]
            · simp [hk]
            · simp [hk]
          | true =>
            simp only [h1, h2, hk, hc] at h ⊢
            obtain ⟨r, hr, rest⟩ := ih h
            exact ⟨r, List.mem_cons_of_mem _ hr, rest⟩
        | SameType =>
          cases hc : tc.isEqual firstType secondType with
          | false =>
            refine ⟨req, List.mem_cons_self _ _, firstType, secondType, h1, h2, ?_, ?_, ?_, ?_⟩
            · simp [requirementFails, hk, hc]
            · simp [hk]
            · simp [h1, h2, hk, hc]
            · simp [hk]
          | true =>
            simp only [h1, h2, hk, hc] at h ⊢
            obtain ⟨r, hr, rest⟩ := ih h
            exact ⟨r, List.mem_cons_of_mem _ hr, rest⟩

/-- C4, counterexample: with `T -> CustomStruct` and the requirement
`T : Comparable`, the call fails, the binding text of the requirement is
` [with T = CustomStruct]`, and the only thing reported comes from
`conformsToProtocol` and names neither `T` nor that text. -/
theorem checkGenericArguments_conformance_failure_unreported :
    checkGenericArguments sampleTypeChecker 1 2 (.structTy "Owner") sampleConformanceSig
        sampleCustomStructMap =
      (true, [.inConformsToProtocol
        ⟨1, .type_does_not_conform, [.type (.structTy "CustomStruct"),
          .type (.protocol "Comparable")]⟩]) ∧
    gatherGenericParamBindingsText sampleTypeChecker.getString
        [.genericTypeParam sampleT, .protocol "Comparable"] sampleConformanceSig
        sampleCustomStructMap = " [with T = CustomStruct]" ∧
    ¬ ∃ e ∈ (checkGenericArguments sampleTypeChecker 1 2 (.structTy "Owner")
          sampleConformanceSig sampleCustomStructMap).2,
        e.diagnostic.namesRequirement (.genericTypeParam sampleT) (.protocol "Comparable")
          (gatherGenericParamBindingsText sampleTypeChecker.getString
            [.genericTypeParam sampleT, .protocol "Comparable"] sampleConformanceSig
            sampleCustomStructMap) = true := by
  decide

/-- C4, amended: when `checkGenericArguments` returns `true`, some requirement
failed its test; if that requirement is a superclass or same-type requirement,
a note naming its original first and second types and the binding text of
`gatherGenericParamBindingsText` for those two types was emitted; if it is a
conformance requirement, everything reported came from `conformsToProtocol`. -/
theorem checkGenericArguments_failure_report (tc : TypeChecker) (loc noteLoc : SourceLoc)
    (owner : Ty) (genericSig : GenericSignature) (substitutions : TypeSubstitutionMap)
    (h : (checkGenericArguments tc loc noteLoc owner genericSig substitutions).1 = true) :
    ∃ req ∈ genericSig.requirements, ∃ firstType secondType,
      tc.subst substitutions req.first = some firstType ∧
      tc.subst substitutions req.second = some secondType ∧
      requirementFails tc loc req.kind firstType secondType = true ∧
      (req.kind = .Superclass →
        Emitted.diagnose ⟨noteLoc, .type_does_not_inherit_requirement,
          [.type req.first, .type req.second,
           .text (gatherGenericParamBindingsText tc.getString [req.first, req.second]
             genericSig substitutions)]⟩ ∈
          (checkGenericArguments tc loc noteLoc owner genericSig substitutions).2) ∧
      (req.kind = .SameType →
        Emitted.diagnose ⟨noteLoc, .types_not_equal_requirement,
          [.type req.first, .type req.second,
           .text (gatherGenericParamBindingsText tc.getString [req.first, req.second]
             genericSig substitutions)]⟩ ∈
          (checkGenericArguments tc loc noteLoc owner genericSig substitutions).2) ∧
      (req.kind = .Conformance →
        ∀ e ∈ (checkGenericArguments tc loc noteLoc owner genericSig substitutions).2,
          ∃ d, e = Emitted.inConformsToProtocol d) :=
  checkGenericArguments.loop_failure_report tc loc noteLoc owner genericSig substitutions
    genericSig.requirements h

/-- Witness for C4 (amended): the superclass requirement `T : Base` fails under
`T -> CustomStruct`, and its note is emitted. -/
theorem checkGenericArguments_failure_report_witness :
    ∃ req ∈ sampleSuperclassSig.requirements, ∃ firstType secondType,
      sampleTypeChecker.subst sampleCustomStructMap req.first = some firstType ∧
      sampleTypeChecker.subst sampleCustomStructMap req.second = some secondType ∧
      requirementFails sampleTypeChecker 1 req.kind firstType secondType = true ∧
      (req.kind = .Superclass →
        Emitted.diagnose ⟨2, .type_does_not_inherit_requirement,
          [.type req.first, .type req.second,
           .text (gatherGenericParamBindingsText sampleTypeChecker.getString
             [req.first, req.second] sampleSuperclassSig sampleCustomStructMap)]⟩ ∈
          (checkGenericArguments sampleTypeChecker 1 2 (.structTy "Owner") sampleSuperclassSig
            sampleCustomStructMap).2) ∧
      (req.kind = .SameType →
        Emitted.diagnose ⟨2, .types_not_equal_requirement,
          [.type req.first, .type req.second,
           .text (gatherGenericParamBindingsText sampleTypeChecker.getString
             [req.first, req.second] sampleSuperclassSig sampleCustomStructMap)]⟩ ∈
          (checkGenericArguments sampleTypeChecker 1 2 (.structTy "Owner") sampleSuperclassSig
            sampleCustomStructMap).2) ∧
      (req.kind = .Conformance →
        ∀ e ∈ (checkGenericArguments sampleTypeChecker 1 2 (.structTy "Owner")
            sampleSuperclassSig sampleCustomStructMap).2,
          ∃ d, e = Emitted.inConformsToProtocol d) :=
  checkGenericArguments_failure_report sampleTypeChecker 1 2 (.structTy "Owner")
    sampleSuperclassSig sampleCustomStructMap (by decide)

/-! ## Properties of `gatherGenericParamBindingsText` -/

theorem String.append_ne_empty_of_left {a : String} (b : String) (h : a ≠ "") :
    a ++ b ≠ "" := by
  intro h2
  apply h
  have h3 := congrArg String.data h2
  simp only [String.data_append, List.append_eq_nil] at h3
  exact String.ext h3.1

theorem String.intercalate_go_append (p a s : String) (as : List String) :
    String.intercalate.go (p ++ a) s as = p ++ String.intercalate.go a s as := by
  induction as generalizing a with
  | nil => simp [String.intercalate.go]
  | cons x xs ih =>
    simp only [String.intercalate.go]
    rw [← ih]
    simp only [String.append_assoc]

theorem gatherGenericParamBindingsText.loop_of_nonempty (getString : Ty → String)
    (known : List GenericParamKey) (substitutions : TypeSubstitutionMap)
    (params : List GenericTypeParamType) (result : String) (hne : result ≠ "")
    (hall : ∀ gp ∈ params, gp.getCanonicalType ∈ known →
      (substitutions.find gp.getCanonicalType).isSome = true) :
    gatherGenericParamBindingsText.loop getString known substitutions params result =
      String.intercalate.go result ", "
        ((params.filter fun gp => decide (gp.getCanonicalType ∈ known)).map
          (bindingText getString substitutions)) ++ "]" := by
  induction params generalizing result with
  | nil => simp [gatherGenericParamBindingsText.loop, String.intercalate.go]
  | cons gp rest ih =>
    have hrest : ∀ g ∈ rest, g.getCanonicalType ∈ known →
        (substitutions.find g.getCanonicalType).isSome = true :=
      fun g hg => hall g (List.mem_cons_of_mem _ hg)
    rw [gatherGenericParamBindingsText.loop]
    by_cases hk : gp.getCanonicalType ∈ known
    · have hsome := hall gp (List.mem_cons_self _ _) hk
      obtain ⟨found, hfound⟩ := Option.isSome_iff_exists.mp hsome
      simp only [hk, not_true_eq_false, if_false, hne, hfound, List.filter_cons, decide_True,
        if_true, List.map_cons, String.intercalate.go]
      rw [ih _ (String.append_ne_empty_of_left _ (String.append_ne_empty_of_left _
        (String.append_ne_empty_of_left _ (String.append_ne_empty_of_left _ hne)))) hrest]
      simp only [bindingText, hfound, String.append_assoc]
    · simp only [hk, not_false_eq_true, if_true, List.filter_cons, decide_False,
        Bool.false_eq_true, if_false]
      exact ih result hne hrest

theorem gatherGenericParamBindingsText.loop_of_empty (getString : Ty → String)
    (known : List GenericParamKey) (substitutions : TypeSubstitutionMap)
    (params : List GenericTypeParamType)
    (hall : ∀ gp ∈ params, gp.getCanonicalType ∈ known →
      (substitutions.find gp.getCanonicalType).isSome = true)
    (hex : ∃ gp ∈ params, gp.getCanonicalType ∈ known) :
    gatherGenericParamBindingsText.loop getString known substitutions params "" =
      bindingsListText getString substitutions
        (params.filter fun gp => decide (gp.getCanonicalType ∈ known)) := by
  induction params with
  | nil => obtain ⟨gp, hgp, _⟩ := hex; simp at hgp
  | cons gp rest ih =>
    have hrest : ∀ g ∈ rest, g.getCanonicalType ∈ known →
        (substitutions.find g.getCanonicalType).isSome = true :=
      fun g hg => hall g (List.mem_cons_of_mem _ hg)
    rw [gatherGenericParamBindingsText.loop]
    by_cases hk : gp.getCanonicalType ∈ known
    · have hsome := hall gp (List.mem_cons_self _ _) hk
      obtain ⟨found, hfound⟩ := Option.isSome_iff_exists.mp hsome
      simp only [hk, not_true_eq_false, if_false, if_true, hfound, List.filter_cons,
        decide_True, List.map_cons, bindingsListText, String.intercalate]
      rw [gatherGenericParamBindingsText.loop_of_nonempty getString known substitutions rest _
        (String.append_ne_empty_of_left _ (String.append_ne_empty_of_left _
          (String.append_ne_empty_of_left _ (by decide)))) hrest]
      have hacc : "" ++ " [with " ++ gp.name ++ " = " ++ getString found =
          " [with " ++ bindingText getString substitutions gp := by
        simp only [bindingText, hfound, String.append_assoc, String.empty_append]
      rw [hacc, String.intercalate_go_append]
    · have hex2 : ∃ g ∈ rest, g.getCanonicalType ∈ known := by
        obtain ⟨g, hg, hgk⟩ := hex
        rcases List.mem_cons.mp hg with h | h
        · subst h; exact absurd hgk hk
        · exact ⟨g, h, hgk⟩
      simp only [hk, not_false_eq_true, if_true, List.filter_cons, decide_False,
        Bool.false_eq_true, if_false]
      exact ih hrest hex2

theorem gatherGenericParamBindingsText.loop_of_missing (getString : Ty → String)
    (known : List GenericParamKey) (substitutions : TypeSubstitutionMap)
    (params : List GenericTypeParamType) (result : String)
    (hex : ∃ gp ∈ params, gp.getCanonicalType ∈ known ∧
      substitutions.find gp.getCanonicalType = none) :
    gatherGenericParamBindingsText.loop getString known substitutions params result = "" := by
  induction params generalizing result with
  | nil => obtain ⟨gp, hgp, _⟩ := hex; simp at hgp
  | cons gp rest ih =>
    rw [gatherGenericParamBindingsText.loop]
    by_cases hk : gp.getCanonicalType ∈ known
    · cases hf : substitutions.find gp.getCanonicalType with
      | none => simp [hk]
      | some found =>
        have hex2 : ∃ g ∈ rest, g.getCanonicalType ∈ known ∧
            substitutions.find g.getCanonicalType = none := by
          obtain ⟨g, hg, hgk, hgn⟩ := hex
          rcases List.mem_cons.mp hg with h | h
          · subst h; rw [hf] at hgn; cases hgn
          · exact ⟨g, h, hgk, hgn⟩
        simp only [hk, not_true_eq_false, if_false]
        exact ih _ hex2
    · have hex2 : ∃ g ∈ rest, g.getCanonicalType ∈ known ∧
          substitutions.find g.getCanonicalType = none := by
        obtain ⟨g, hg, hgk, hgn⟩ := hex
        rcases List.mem_cons.mp hg with h | h
        · subst h; exact absurd hgk hk
        · exact ⟨g, h, hgk, hgn⟩
      simp only [hk, not_false_eq_true, if_true]
      exact ih result hex2

theorem knownGenericParams_eq_nil_of_no_param (types : List Ty)
    (h : ∀ t ∈ types, ∀ gp : GenericTypeParamType, Ty.genericTypeParam gp ∉ t.visit) :
    knownGenericParams types = [] := by
  unfold knownGenericParams
  rw [List.flatMap_eq_nil_iff]
  intro t ht
  rw [List.filterMap_eq_nil_iff]
  intro u hu
  cases u with
  | genericTypeParam gp => exact absurd hu (h t ht gp)
  | _ => rfl

/-- C5, counterexample: `T` and `U` both occur, only `T` has an entry; the
claim asks for `T` to be printed, the function returns the empty string. -/
theorem gatherGenericParamBindingsText_missing_entry_prints_nothing :
    substitutedOccurringParams [.genericTypeParam sampleT, .genericTypeParam sampleU]
        sampleTUSig sampleCustomStructMap = [sampleT] ∧
    bindingsListText sampleGetString sampleCustomStructMap [sampleT] =
      " [with T = CustomStruct]" ∧
    gatherGenericParamBindingsText sampleGetString
        [.genericTypeParam sampleT, .genericTypeParam sampleU] sampleTUSig
        sampleCustomStructMap = "" ∧
    gatherGenericParamBindingsText sampleGetString
        [.genericTypeParam sampleT, .genericTypeParam sampleU] sampleTUSig
        sampleCustomStructMap ≠
      bindingsListText sampleGetString sampleCustomStructMap
        (substitutedOccurringParams [.genericTypeParam sampleT, .genericTypeParam sampleU]
          sampleTUSig sampleCustomStructMap) := by
  decide

/-- C5, amended: when at least one parameter of the signature occurs in the
types and every occurring parameter of the signature has an entry in the map,
the result is ` [with N1 = R1, N2 = R2]` listing, in signature order, exactly
the parameters that occur and have an entry; when some occurring parameter of
the signature has no entry, the result is the empty string. -/
theorem gatherGenericParamBindingsText_lists_substituted (getString : Ty → String)
    (types : List Ty) (genericSig : GenericSignature) (substitutions : TypeSubstitutionMap) :
    ((∃ gp ∈ genericSig.genericParams, gp.getCanonicalType ∈ knownGenericParams types) →
      (∀ gp ∈ genericSig.genericParams, gp.getCanonicalType ∈ knownGenericParams types →
        (substitutions.find gp.getCanonicalType).isSome = true) →
      gatherGenericParamBindingsText getString types genericSig substitutions =
        bindingsListText getString substitutions
          (substitutedOccurringParams types genericSig substitutions)) ∧
    ((∃ gp ∈ genericSig.genericParams, gp.getCanonicalType ∈ knownGenericParams types ∧
        substitutions.find gp.getCanonicalType = none) →
      gatherGenericParamBindingsText getString types genericSig substitutions = "") := by
  constructor
  · intro hex hall
    have hknown : knownGenericParams types ≠ [] := by
      obtain ⟨gp, _, hk⟩ := hex
      exact List.ne_nil_of_mem hk
    have hfilter : substitutedOccurringParams types genericSig substitutions =
        genericSig.genericParams.filter fun gp =>
          decide (gp.getCanonicalType ∈ knownGenericParams types) := by
      unfold substitutedOccurringParams occurringParams
      rw [List.filter_eq_self]
      intro gp hgp
      rw [List.mem_filter] at hgp
      exact hall gp hgp.1 (of_decide_eq_true hgp.2)
    rw [hfilter]
    simp only [gatherGenericParamBindingsText, hknown, if_false]
    exact gatherGenericParamBindingsText.loop_of_empty getString _ substitutions _ hall hex
  · intro hex
    unfold gatherGenericParamBindingsText
    by_cases hknown : knownGenericParams types = []
    · simp [hknown]
    · simp only [hknown, if_false]
      exact gatherGenericParamBindingsText.loop_of_missing getString _ substitutions _ _ hex

/-- Witness for C5 (amended): with `T -> CustomStruct, U -> Int` both
parameters are listed; with only `T` bound nothing is. -/
theorem gatherGenericParamBindingsText_lists_substituted_witness :
    gatherGenericParamBindingsText sampleGetString
        [.genericTypeParam sampleU, .genericTypeParam sampleT] sampleTUSig sampleFullMap =
      bindingsListText sampleGetString sampleFullMap
        (substitutedOccurringParams [.genericTypeParam sampleU, .genericTypeParam sampleT]
          sampleTUSig sampleFullMap) ∧
    gatherGenericParamBindingsText sampleGetString
        [.genericTypeParam sampleU, .genericTypeParam sampleT] sampleTUSig
        sampleCustomStructMap = "" :=
  ⟨(gatherGenericParamBindingsText_lists_substituted sampleGetString
      [.genericTypeParam sampleU, .genericTypeParam sampleT] sampleTUSig sampleFullMap).1
      ⟨sampleT, by decide, by decide⟩ (by decide),
   (gatherGenericParamBindingsText_lists_substituted sampleGetString
      [.genericTypeParam sampleU, .genericTypeParam sampleT] sampleTUSig
      sampleCustomStructMap).2 ⟨sampleU, by decide, by decide, by decide⟩⟩

/-- C6: the result is the empty string whenever no generic parameter occurs in
the types, at any depth; and when some parameter of the signature occurs and
every occurring parameter has a substitution, the result is not empty, starts
with ` [with ` and ends with `]`. -/
theorem gatherGenericParamBindingsText_empty_or_bracketed (getString : Ty → String)
    (types : List Ty) (genericSig : GenericSignature) (substitutions : TypeSubstitutionMap) :
    ((∀ t ∈ types, ∀ gp : GenericTypeParamType, Ty.genericTypeParam gp ∉ t.visit) →
      gatherGenericParamBindingsText getString types genericSig substitutions = "") ∧
    ((∃ gp ∈ genericSig.genericParams, gp.getCanonicalType ∈ knownGenericParams types) →
      (∀ key ∈ knownGenericParams types, (substitutions.find key).isSome = true) →
      gatherGenericParamBindingsText getString types genericSig substitutions ≠ "" ∧
      ∃ body : String,
        gatherGenericParamBindingsText getString types genericSig substitutions =
          " [with " ++ body ++ "]") := by
  constructor
  · intro h
    simp [gatherGenericParamBindingsText, knownGenericParams_eq_nil_of_no_param types h]
  · intro hex hall
    have hknown : knownGenericParams types ≠ [] := by
      obtain ⟨gp, _, hk⟩ := hex
      exact List.ne_nil_of_mem hk
    have heq : gatherGenericParamBindingsText getString types genericSig substitutions =
        bindingsListText getString substitutions
          (genericSig.genericParams.filter fun gp =>
            decide (gp.getCanonicalType ∈ knownGenericParams types)) := by
      simp only [gatherGenericParamBindingsText, hknown, if_false]
      exact gatherGenericParamBindingsText.loop_of_empty getString _ substitutions _
        (fun gp _ hk => hall _ hk) hex
    rw [heq]
    exact ⟨String.append_ne_empty_of_left _ (String.append_ne_empty_of_left _ (by decide)),
      _, rfl⟩

/-- Witness for C6: no text for `(Int, Comparable)`; a bracketed text for
`Optional<T>` with `T -> CustomStruct`. -/
theorem gatherGenericParamBindingsText_empty_or_bracketed_witness :
    gatherGenericParamBindingsText sampleGetString
        [.tuple (.structTy "Int") (.protocol "Comparable")] sampleTUSig sampleFullMap = "" ∧
    (gatherGenericParamBindingsText sampleGetString
        [.optional false (.genericTypeParam sampleT)] sampleTUSig sampleCustomStructMap ≠ "" ∧
      ∃ body : String,
        gatherGenericParamBindingsText sampleGetString
          [.optional false (.genericTypeParam sampleT)] sampleTUSig sampleCustomStructMap =
          " [with " ++ body ++ "]") :=
  ⟨(gatherGenericParamBindingsText_empty_or_bracketed sampleGetString
      [.tuple (.structTy "Int") (.protocol "Comparable")] sampleTUSig sampleFullMap).1
      (by
        intro t ht gp hmem
        rw [List.mem_singleton] at ht
        subst ht
        simp [Ty.visit] at hmem),
   (gatherGenericParamBindingsText_empty_or_bracketed sampleGetString
      [.optional false (.genericTypeParam sampleT)] sampleTUSig sampleCustomStructMap).2
      ⟨sampleT, by decide, by decide⟩ (by decide)⟩

/-! ## Properties of `checkGenericParamList` -/

theorem checkGenericParamList.checkRequirements_append (env : Sema) (builder : Bool)
    (whereLoc : SourceLoc) (options : TypeResolutionOptions)
    (resolver : Option GenericTypeResolver) (before after : List RequirementRepr)
    (hist : List Event) :
    checkGenericParamList.checkRequirements env builder whereLoc options resolver
        (before ++ after) hist =
      ((checkGenericParamList.checkRequirements env builder whereLoc options resolver
          before hist).1 ++
        (checkGenericParamList.checkRequirements env builder whereLoc options resolver after
          (checkGenericParamList.checkRequirements env builder whereLoc options resolver
            before hist).2).1,
       (checkGenericParamList.checkRequirements env builder whereLoc options resolver after
          (checkGenericParamList.checkRequirements env builder whereLoc options resolver
            before hist).2).2) := by
  induction before generalizing hist with
  | nil => simp [checkGenericParamList.checkRequirements]
  | cons req rest ih =>
    rw [List.cons_append]
    simp only [checkGenericParamList.checkRequirements]
    rw [ih]
    rfl

theorem checkGenericParamList.checkRequirements_length (env : Sema) (builder : Bool)
    (whereLoc : SourceLoc) (options : TypeResolutionOptions)
    (resolver : Option GenericTypeResolver) (reqs : List RequirementRepr)
    (hist : List Event) :
    (checkGenericParamList.checkRequirements env builder whereLoc options resolver
        reqs hist).1.length = reqs.length := by
  induction reqs generalizing hist with
  | nil => rfl
  | cons req rest ih => simp [checkGenericParamList.checkRequirements, ih]

/-- The call on a where clause `before ++ req :: after` is the call on
`before`, then one iteration for `req`, then the loop over `after`. -/
theorem checkGenericParamList_split (env : Sema) (builder : Bool)
    (genericParams : GenericParamList) (parentSig : Option GenericSignature)
    (parentEnv : Option GenericEnvironment) (resolver : Option GenericTypeResolver)
    (hist : List Event) (before after : List RequirementRepr) (req : RequirementRepr)
    (hreqs : genericParams.requirements = before ++ req :: after) :
    requirementsAfter (checkGenericParamList env builder (some genericParams) parentSig
        parentEnv resolver hist) =
      requirementsAfter (checkGenericParamList env builder
          (some (genericParams.withRequirements before)) parentSig parentEnv resolver hist) ++
        (checkGenericParamList.checkRequirement env builder genericParams.whereLoc
          (checkGenericParamList.options genericParams) resolver
          (checkGenericParamList env builder (some (genericParams.withRequirements before))
            parentSig parentEnv resolver hist).2 req).1 ::
        (checkGenericParamList.checkRequirements env builder genericParams.whereLoc
          (checkGenericParamList.options genericParams) resolver after
          (checkGenericParamList.checkRequirement env builder genericParams.whereLoc
            (checkGenericParamList.options genericParams) resolver
            (checkGenericParamList env builder (some (genericParams.withRequirements before))
              parentSig parentEnv resolver hist).2 req).2).1 ∧
    (checkGenericParamList env builder (some genericParams) parentSig parentEnv resolver
        hist).2 =
      (checkGenericParamList.checkRequirements env builder genericParams.whereLoc
        (checkGenericParamList.options genericParams) resolver after
        (checkGenericParamList.checkRequirement env builder genericParams.whereLoc
          (checkGenericParamList.options genericParams) resolver
          (checkGenericParamList env builder (some (genericParams.withRequirements before))
            parentSig parentEnv resolver hist).2 req).2).2 ∧
    (requirementsAfter (checkGenericParamList env builder
        (some (genericParams.withRequirements before)) parentSig parentEnv resolver
        hist)).length = before.length := by
  simp only [checkGenericParamList, requirementsAfter, GenericParamList.withRequirements,
    checkGenericParamList.options, hreqs,
    checkGenericParamList.checkRequirements_append env builder genericParams.whereLoc _ resolver
      before (req :: after),
    checkGenericParamList.checkRequirements, checkGenericParamList.checkRequirements_length,
    and_self]

theorem checkGenericParamList.checkRequirements_extends (env : Sema) (builder : Bool)
    (whereLoc : SourceLoc) (options : TypeResolutionOptions)
    (resolver : Option GenericTypeResolver) (reqs : List RequirementRepr)
    (hist : List Event) :
    ∃ later, (checkGenericParamList.checkRequirements env builder whereLoc options resolver
        reqs hist).2 = hist ++ later := by
  induction reqs generalizing hist with
  | nil => exact ⟨[], by simp [checkGenericParamList.checkRequirements]⟩
  | cons req rest ih =>
    simp only [checkGenericParamList.checkRequirements]
    have hstep : ∃ mid, (checkGenericParamList.checkRequirement env builder whereLoc options
        resolver hist req).2 = hist ++ mid := by
      unfold checkGenericParamList.checkRequirement
        checkGenericParamList.validateRequirement
      split
      · exact ⟨[], by simp⟩
      · cases req.kind <;> simp only [] <;> (repeat' split) <;>
          simp only [List.append_assoc] <;> exact ⟨_, rfl⟩
    obtain ⟨mid, hmid⟩ := hstep
    obtain ⟨later, hlater⟩ := ih (hist ++ mid)
    rw [hmid, hlater]
    exact ⟨mid ++ later, by simp⟩

/-- C7: a type-constraint requirement of the where clause that is not invalid,
whose subject and constraint both validate, and whose constraint type is
neither existential nor a class, is left invalid with an invalid constraint
type, and its iteration consists of the two `validateType` calls and the
`requires_conformance_nonprotocol` diagnostic, with no `addRequirement`
call; when the constraint is an existential or class type the iteration goes
on to `addRequirement` (if there is a builder) without that diagnostic. -/
theorem checkGenericParamList_rejects_nonprotocol_constraint (env : Sema) (builder : Bool)
    (genericParams : GenericParamList) (parentSig : Option GenericSignature)
    (parentEnv : Option GenericEnvironment) (resolver : Option GenericTypeResolver)
    (hist : List Event) (before after : List RequirementRepr) (req : RequirementRepr)
    (hreqs : genericParams.requirements = before ++ req :: after)
    (hvalid : req.invalid = false) (hkind : req.kind = .TypeConstraint)
    (reached : List Event)
    (hreached : reached = (checkGenericParamList env builder
      (some (genericParams.withRequirements before)) parentSig parentEnv resolver hist).2)
    (options : TypeResolutionOptions)
    (hoptions : options = checkGenericParamList.options genericParams)
    (subjectTy constraintTy : Ty)
    (hsubject : env.validateType reached req.firstLoc options resolver = (false, subjectTy))
    (hconstraint : env.validateType (reached ++ [Event.validateType req.firstLoc options
      resolver]) req.secondLoc options resolver = (false, constraintTy)) :
    (constraintTy.isExistentialType = false →
      constraintTy.getClassOrBoundGenericClass = none →
      (requirementsAfter (checkGenericParamList env builder (some genericParams) parentSig
          parentEnv resolver hist))[before.length]? =
        some { req.validatedWith subjectTy constraintTy with
          secondLoc := (req.validatedWith subjectTy constraintTy).secondLoc.setInvalidType,
          invalid := true } ∧
      ∃ later,
        (checkGenericParamList env builder (some genericParams) parentSig parentEnv resolver
          hist).2 =
          reached ++ validateEvents req options resolver ++
            [nonprotocolDiagnostic genericParams.whereLoc
              (req.validatedWith subjectTy constraintTy)] ++ later ∧
        (checkGenericParamList.checkRequirements env builder genericParams.whereLoc options
          resolver after
          (reached ++ validateEvents req options resolver ++
            [nonprotocolDiagnostic genericParams.whereLoc
              (req.validatedWith subjectTy constraintTy)])).2 =
          reached ++ validateEvents req options resolver ++
            [nonprotocolDiagnostic genericParams.whereLoc
              (req.validatedWith subjectTy constraintTy)] ++ later) ∧
    ((constraintTy.isExistentialType = true ∨
        constraintTy.getClassOrBoundGenericClass.isSome = true) →
      (requirementsAfter (checkGenericParamList env builder (some genericParams) parentSig
          parentEnv resolver hist))[before.length]? =
        some { req.validatedWith subjectTy constraintTy with
          invalid := builder && env.addRequirement
            (reached ++ validateEvents req options resolver)
            (req.validatedWith subjectTy constraintTy) } ∧
      ∃ later,
        (checkGenericParamList env builder (some genericParams) parentSig parentEnv resolver
          hist).2 =
          reached ++ validateEvents req options resolver ++
            (if builder then [Event.addRequirement (req.validatedWith subjectTy constraintTy)]
             else []) ++ later ∧
        (checkGenericParamList.checkRequirements env builder genericParams.whereLoc options
          resolver after
          (reached ++ validateEvents req options resolver ++
            (if builder then [Event.addRequirement (req.validatedWith subjectTy constraintTy)]
             else []))).2 =
          reached ++ validateEvents req options resolver ++
            (if builder then [Event.addRequirement (req.validatedWith subjectTy constraintTy)]
             else []) ++ later) := by
  obtain ⟨hsplit1, hsplit2, hlen⟩ := checkGenericParamList_split env builder genericParams
    parentSig parentEnv resolver hist before after req hreqs
  rw [← hreached, ← hoptions] at hsplit1 hsplit2
  rw [hsplit1, hsplit2, List.getElem?_append_right (le_of_eq hlen), hlen]
  simp only [Nat.sub_self, List.getElem?_cons_zero]
  constructor
  · intro hex hcl
    have hstep : checkGenericParamList.checkRequirement env builder genericParams.whereLoc
        options resolver reached req =
        ({ req.validatedWith subjectTy constraintTy with
            secondLoc := (req.validatedWith subjectTy constraintTy).secondLoc.setInvalidType,
            invalid := true },
          reached ++ validateEvents req options resolver ++
            [nonprotocolDiagnostic genericParams.whereLoc
              (req.validatedWith subjectTy constraintTy)]) := by
      simp [checkGenericParamList.checkRequirement, checkGenericParamList.validateRequirement,
        hvalid, hkind, hsubject, hconstraint, hex, hcl, RequirementRepr.validatedWith,
        validateEvents, nonprotocolDiagnostic]
    rw [hstep]
    refine ⟨rfl, ?_⟩
    obtain ⟨later, hlater⟩ := checkGenericParamList.checkRequirements_extends env builder
      genericParams.whereLoc options resolver after
      (reached ++ validateEvents req options resolver ++
        [nonprotocolDiagnostic genericParams.whereLoc
          (req.validatedWith subjectTy constraintTy)])
    exact ⟨later, hlater, hlater⟩
  · intro hok
    have hnot : (!constraintTy.isExistentialType &&
        constraintTy.getClassOrBoundGenericClass.isNone) = false := by
      rcases hok with h | h
      · simp [h]
      · cases hc : constraintTy.getClassOrBoundGenericClass with
        | none => simp [hc] at h
        | some c => simp
    have hstep : checkGenericParamList.checkRequirement env builder genericParams.whereLoc
        options resolver reached req =
        ({ req.validatedWith subjectTy constraintTy with
            invalid := builder && env.addRequirement
              (reached ++ validateEvents req options resolver)
              (req.validatedWith subjectTy constraintTy) },
          reached ++ validateEvents req options resolver ++
            (if builder then [Event.addRequirement (req.validatedWith subjectTy constraintTy)]
             else [])) := by
      obtain ⟨kind, firstLoc, secondLoc, invalid⟩ := req
      simp only at hvalid hkind
      subst hvalid hkind
      simp only [RequirementRepr.validatedWith, validateEvents] at hsubject hconstraint ⊢
      cases builder
      · simp [checkGenericParamList.checkRequirement,
          checkGenericParamList.validateRequirement, hsubject, hconstraint, hnot]
      · cases hadd : env.addRequirement
            (reached ++ [Event.validateType firstLoc options resolver,
              Event.validateType secondLoc options resolver])
            ⟨.TypeConstraint, firstLoc.setType (some subjectTy) true,
              secondLoc.setType (some constraintTy) true, false⟩ <;>
          simp [checkGenericParamList.checkRequirement,
            checkGenericParamList.validateRequirement, hsubject, hconstraint, hnot, hadd]
    rw [hstep]
    refine ⟨rfl, ?_⟩
    obtain ⟨later, hlater⟩ := checkGenericParamList.checkRequirements_extends env builder
      genericParams.whereLoc options resolver after
      (reached ++ validateEvents req options resolver ++
        (if builder then [Event.addRequirement (req.validatedWith subjectTy constraintTy)]
         else []))
    exact ⟨later, hlater, hlater⟩

/-- What one iteration of the requirement loop does. -/
theorem checkGenericParamList.checkRequirement_spec (env : Sema) (builder : Bool)
    (whereLoc : SourceLoc) (options : TypeResolutionOptions)
    (resolver : Option GenericTypeResolver) (hist : List Event) (req : RequirementRepr) :
    ∃ own,
      (checkGenericParamList.checkRequirement env builder whereLoc options resolver
        hist req).2 = hist ++ own ∧
      (req.invalid = true → own = [] ∧
        (checkGenericParamList.checkRequirement env builder whereLoc options resolver
          hist req).1 = req) ∧
      (req.invalid = false →
        own.head? = some (Event.validateType req.firstLoc options resolver) ∧
        ((checkGenericParamList.checkRequirement env builder whereLoc options resolver
            hist req).1.invalid = true ↔
          (passesValidation env options resolver hist req = false ∨
            (builder = true ∧
              env.addRequirement (hist ++ validateEvents req options resolver)
                (validatedRequirement env options resolver hist req) = true))) ∧
        (∀ r, Event.addRequirement r ∈ own ↔
          (builder = true ∧ passesValidation env options resolver hist req = true ∧
            r = validatedRequirement env options resolver hist req))) := by
  refine ⟨(checkGenericParamList.checkRequirement env builder whereLoc options resolver
    hist req).2.drop hist.length, ?_, ?_, ?_⟩
  · obtain ⟨later, hlater⟩ := checkGenericParamList.checkRequirements_extends env builder
      whereLoc options resolver [req] hist
    simp only [checkGenericParamList.checkRequirements] at hlater
    rw [hlater, List.drop_left]
  · intro hinv
    simp [checkGenericParamList.checkRequirement, hinv]
  · intro hinv
    obtain ⟨kind, firstLoc, secondLoc, invalid⟩ := req
    simp only at hinv
    subst hinv
    simp only [checkGenericParamList.checkRequirement,
      checkGenericParamList.validateRequirement, passesValidation, validatedRequirement,
      RequirementRepr.validatedWith, validateEvents]
    rcases h1 : env.validateType hist firstLoc options resolver with ⟨b1, t1⟩
    rcases h2 : env.validateType (hist ++ [Event.validateType firstLoc options resolver])
      secondLoc options resolver with ⟨b2, t2⟩
    cases hadd : env.addRequirement
      (hist ++ [Event.validateType firstLoc options resolver,
        Event.validateType secondLoc options resolver])
      ⟨kind, firstLoc.setType (some t1) true, secondLoc.setType (some t2) true, false⟩ <;>
    cases kind <;> cases b1 <;> cases b2 <;> cases builder <;>
      cases hex : t2.isExistentialType <;>
      cases hcl : t2.getClassOrBoundGenericClass <;>
      simp [h1, h2, hadd, hex, hcl, List.drop_left]

/-- C8: for a where clause `before ++ req :: after`, whatever happened to the
requirements of `before`, the loop reaches `req` and then goes on to
`after`: the calls of the whole run are those made up to `req`, the calls of
the iteration of `req`, and the calls of the loop over `after`.  A requirement
invalid on entry is skipped (no call, left as it is); any other is validated,
ends up invalid exactly when validation fails or the builder rejects it, and
is passed to `addRequirement` exactly when a builder is supplied and it
passes validation. -/
theorem checkGenericParamList_continues_after_invalid_requirement (env : Sema)
    (builder : Bool) (genericParams : GenericParamList) (parentSig : Option GenericSignature)
    (parentEnv : Option GenericEnvironment) (resolver : Option GenericTypeResolver)
    (hist : List Event) (before after : List RequirementRepr) (req : RequirementRepr)
    (hreqs : genericParams.requirements = before ++ req :: after)
    (reached : List Event)
    (hreached : reached = (checkGenericParamList env builder
      (some (genericParams.withRequirements before)) parentSig parentEnv resolver hist).2)
    (options : TypeResolutionOptions)
    (hoptions : options = checkGenericParamList.options genericParams) :
    ∃ own later,
      (checkGenericParamList env builder (some genericParams) parentSig parentEnv resolver
        hist).2 = reached ++ own ++ later ∧
      (checkGenericParamList.checkRequirements env builder genericParams.whereLoc options
        resolver after (reached ++ own)).2 = reached ++ own ++ later ∧
      requirementsAfter (checkGenericParamList env builder (some genericParams) parentSig
          parentEnv resolver hist) =
        requirementsAfter (checkGenericParamList env builder
            (some (genericParams.withRequirements before)) parentSig parentEnv resolver hist) ++
          (checkGenericParamList.checkRequirement env builder genericParams.whereLoc options
            resolver reached req).1 ::
          (checkGenericParamList.checkRequirements env builder genericParams.whereLoc options
            resolver after (reached ++ own)).1 ∧
      (requirementsAfter (checkGenericParamList env builder (some genericParams) parentSig
          parentEnv resolver hist)).length = genericParams.requirements.length ∧
      (req.invalid = true → own = [] ∧
        (requirementsAfter (checkGenericParamList env builder (some genericParams) parentSig
          parentEnv resolver hist))[before.length]? = some req) ∧
      (req.invalid = false →
        own.head? = some (Event.validateType req.firstLoc options resolver) ∧
        (∃ checked,
          (requirementsAfter (checkGenericParamList env builder (some genericParams) parentSig
            parentEnv resolver hist))[before.length]? = some checked ∧
          (checked.invalid = true ↔
            (passesValidation env options resolver reached req = false ∨
              (builder = true ∧
                env.addRequirement (reached ++ validateEvents req options resolver)
                  (validatedRequirement env options resolver reached req) = true)))) ∧
        (∀ r, Event.addRequirement r ∈ own ↔
          (builder = true ∧ passesValidation env options resolver reached req = true ∧
            r = validatedRequirement env options resolver reached req))) := by
  obtain ⟨hsplit1, hsplit2, hlen⟩ := checkGenericParamList_split env builder genericParams
    parentSig parentEnv resolver hist before after req hreqs
  rw [← hreached, ← hoptions] at hsplit1 hsplit2
  obtain ⟨own, hown, hinv, hval⟩ := checkGenericParamList.checkRequirement_spec env builder
    genericParams.whereLoc options resolver reached req
  obtain ⟨later, hlater⟩ := checkGenericParamList.checkRequirements_extends env builder
    genericParams.whereLoc options resolver after (reached ++ own)
  have hget : (requirementsAfter (checkGenericParamList env builder (some genericParams)
      parentSig parentEnv resolver hist))[before.length]? =
      some (checkGenericParamList.checkRequirement env builder genericParams.whereLoc options
        resolver reached req).1 := by
    rw [hsplit1, List.getElem?_append_right (le_of_eq hlen), hlen]
    simp
  refine ⟨own, later, ?_, hlater, ?_, ?_, ?_, ?_⟩
  · rw [hsplit2, hown, hlater]
  · rw [hsplit1, hown]
  · rw [hsplit1, hreqs]
    simp [hlen, checkGenericParamList.checkRequirements_length]
  · intro h
    obtain ⟨h1, h2⟩ := hinv h
    exact ⟨h1, by rw [hget, h2]⟩
  · intro h
    obtain ⟨h1, h2, h3⟩ := hval h
    exact ⟨h1, ⟨_, hget, h2⟩, h3⟩

/-- Witness for C7: in the sample where clause `T : Int` is rejected and
`T : Comparable` is not. -/
theorem checkGenericParamList_rejects_nonprotocol_constraint_witness :
    (requirementsAfter (checkGenericParamList sampleSema true (some sampleParamList) none none
        (some .Dependent) []))[0]? =
      some ⟨.TypeConstraint, ⟨some "T", some (.genericTypeParam sampleT), true⟩,
        ⟨some "Int", some .error, true⟩, true⟩ ∧
    (requirementsAfter (checkGenericParamList sampleSema true (some sampleParamList) none none
        (some .Dependent) []))[1]? =
      some ⟨.TypeConstraint, ⟨some "T", some (.genericTypeParam sampleT), true⟩,
        ⟨some "Comparable", some (.protocol "Comparable"), true⟩, false⟩ :=
  ⟨((checkGenericParamList_rejects_nonprotocol_constraint sampleSema true sampleParamList
        none none (some .Dependent) [] [] sampleWhereClause.tail
        ⟨.TypeConstraint, sampleLoc "T", sampleLoc "Int", false⟩ rfl rfl rfl _ rfl _ rfl
        (.genericTypeParam sampleT) (.structTy "Int") (by decide) (by decide)).1
      (by decide) (by decide)).1,
   ((checkGenericParamList_rejects_nonprotocol_constraint sampleSema true sampleParamList
        none none (some .Dependent) []
        [⟨.TypeConstraint, sampleLoc "T", sampleLoc "Int", false⟩]
        sampleWhereClause.tail.tail
        ⟨.TypeConstraint, sampleLoc "T", sampleLoc "Comparable", false⟩ rfl rfl rfl _ rfl _ rfl
        (.genericTypeParam sampleT) (.protocol "Comparable") (by decide) (by decide)).2
      (Or.inl (by decide))).1⟩

/-- Witness for C8: after the rejected `T : Int` and the accepted
`T : Comparable`, the unresolvable `Missing == T` is still reached, and so are
the requirements after it. -/
theorem checkGenericParamList_continues_after_invalid_requirement_witness :
    ∃ own later,
      (checkGenericParamList sampleSema true (some sampleParamList) none none
        (some .Dependent) []).2 =
        (checkGenericParamList sampleSema true
          (some (sampleParamList.withRequirements (sampleWhereClause.take 2))) none none
          (some .Dependent) []).2 ++ own ++ later ∧
      own.head? = some (Event.validateType (sampleLoc "Missing") ⟨true, false⟩
        (some .Dependent)) ∧
      (requirementsAfter (checkGenericParamList sampleSema true (some sampleParamList) none
        none (some .Dependent) [])).length = 6 :=
  let ⟨own, later, htrace, _, _, hlen, _, hvalid⟩ :=
    checkGenericParamList_continues_after_invalid_requirement sampleSema true sampleParamList
      none none (some .Dependent) [] (sampleWhereClause.take 2) (sampleWhereClause.drop 3)
      ⟨.SameType, sampleLoc "Missing", sampleLoc "T", false⟩ rfl _ rfl _ rfl
  ⟨own, later, htrace, (hvalid rfl).1, hlen⟩

theorem checkGenericParamList.addParams_eq (builder : Bool) (depth : Nat)
    (params : List GenericTypeParamDecl) (hist : List Event) :
    checkGenericParamList.addParams builder depth params hist =
      (params.map (·.setDepth depth),
        hist ++ (if builder then
          params.map (fun p => Event.addGenericParameter (p.setDepth depth)) else [])) := by
  induction params generalizing hist with
  | nil => cases builder <;> simp [checkGenericParamList.addParams]
  | cons param rest ih =>
    cases builder <;>
      simp [checkGenericParamList.addParams, ih, GenericTypeParamDecl.setDepth]

theorem checkGenericParamList.checkInheritance_trace (env : Sema) (builder : Bool)
    (resolver : Option GenericTypeResolver) (params : List GenericTypeParamDecl)
    (hist : List Event) :
    ∃ inheritance,
      (checkGenericParamList.checkInheritance env builder resolver params hist).2 =
        hist ++ inheritance ∧
      (∀ e ∈ inheritance, e.step = 2) ∧
      inheritance.filterMap Event.checkedParam = params := by
  induction params generalizing hist with
  | nil => exact ⟨[], by simp [checkGenericParamList.checkInheritance]⟩
  | cons param rest ih =>
    simp only [checkGenericParamList.checkInheritance]
    cases builder with
    | false =>
      obtain ⟨inh, h1, h2, h3⟩ := ih (hist ++ [Event.checkInheritanceClause param resolver])
      refine ⟨Event.checkInheritanceClause param resolver :: inh, ?_, ?_, ?_⟩
      · simp only [Bool.false_eq_true, if_false]
        rw [h1]; simp
      · intro e he
        rcases List.mem_cons.mp he with h | h
        · subst h; rfl
        · exact h2 e h
      · simp [Event.checkedParam, h3]
    | true =>
      obtain ⟨inh, h1, h2, h3⟩ := ih (hist ++ [Event.checkInheritanceClause param resolver] ++
        [Event.addGenericParameterRequirements
          (env.checkInheritanceClause hist param resolver)] ++
        (env.checkInheritanceClause hist param resolver).inherited.map Event.inferRequirements)
      refine ⟨Event.checkInheritanceClause param resolver ::
        Event.addGenericParameterRequirements (env.checkInheritanceClause hist param resolver) ::
        ((env.checkInheritanceClause hist param resolver).inherited.map Event.inferRequirements
          ++ inh), ?_, ?_, ?_⟩
      · simp only [if_true]
        rw [h1]; simp
      · intro e he
        simp only [List.mem_cons, List.mem_append, List.mem_map] at he
        rcases he with h | h | ⟨tl, _, h⟩ | h
        · subst h; rfl
        · subst h; rfl
        · subst h; rfl
        · exact h2 e h
      · have hnone : List.filterMap Event.checkedParam
            ((env.checkInheritanceClause hist param resolver).inherited.map
              Event.inferRequirements) = [] := by
          rw [List.filterMap_eq_nil_iff]
          intro e he
          obtain ⟨tl, _, h⟩ := List.mem_map.mp he
          subst h; rfl
        simp [Event.checkedParam, List.filterMap_append, hnone, h3]

theorem checkGenericParamList.checkRequirement_steps (env : Sema) (builder : Bool)
    (whereLoc : SourceLoc) (options : TypeResolutionOptions)
    (resolver : Option GenericTypeResolver) (hist : List Event) (req : RequirementRepr) :
    ∃ own,
      (checkGenericParamList.checkRequirement env builder whereLoc options resolver
        hist req).2 = hist ++ own ∧ ∀ e ∈ own, e.step = 3 := by
  refine ⟨(checkGenericParamList.checkRequirement env builder whereLoc options resolver
    hist req).2.drop hist.length, ?_, ?_⟩
  · obtain ⟨later, hlater⟩ := checkGenericParamList.checkRequirements_extends env builder
      whereLoc options resolver [req] hist
    simp only [checkGenericParamList.checkRequirements] at hlater
    rw [hlater, List.drop_left]
  · obtain ⟨kind, firstLoc, secondLoc, invalid⟩ := req
    cases invalid with
    | true => simp [checkGenericParamList.checkRequirement]
    | false =>
      simp only [checkGenericParamList.checkRequirement,
        checkGenericParamList.validateRequirement]
      rcases h1 : env.validateType hist firstLoc options resolver with ⟨b1, t1⟩
      rcases h2 : env.validateType (hist ++ [Event.validateType firstLoc options resolver])
        secondLoc options resolver with ⟨b2, t2⟩
      cases hadd : env.addRequirement
        (hist ++ [Event.validateType firstLoc options resolver,
          Event.validateType secondLoc options resolver])
        ⟨kind, firstLoc.setType (some t1) true, secondLoc.setType (some t2) true, false⟩ <;>
      cases kind <;> cases b1 <;> cases b2 <;> cases builder <;>
        cases hex : t2.isExistentialType <;>
        cases hcl : t2.getClassOrBoundGenericClass <;>
        simp [h1, h2, hadd, hex, hcl, List.drop_left, Event.step]

theorem checkGenericParamList.checkRequirements_steps (env : Sema) (builder : Bool)
    (whereLoc : SourceLoc) (options : TypeResolutionOptions)
    (resolver : Option GenericTypeResolver) (reqs : List RequirementRepr)
    (hist : List Event) :
    ∃ later,
      (checkGenericParamList.checkRequirements env builder whereLoc options resolver
        reqs hist).2 = hist ++ later ∧ ∀ e ∈ later, e.step = 3 := by
  induction reqs generalizing hist with
  | nil => exact ⟨[], by simp [checkGenericParamList.checkRequirements]⟩
  | cons req rest ih =>
    simp only [checkGenericParamList.checkRequirements]
    obtain ⟨own, hown, hsteps⟩ := checkGenericParamList.checkRequirement_steps env builder
      whereLoc options resolver hist req
    obtain ⟨later, hlater, hlsteps⟩ := ih (hist ++ own)
    rw [hown, hlater]
    refine ⟨own ++ later, by simp, ?_⟩
    intro e he
    rcases List.mem_append.mp he with h | h
    · exact hsteps e h
    · exact hlsteps e h

/-- C9: the calls of `checkGenericParamList` come in a fixed order.  Without a
parameter list the only call is the registration of the parent signature.
With one, the calls are: the registration of the parent signature; then the
registration of every parameter, each with its depth set to the depth of the
list; then calls that belong to inheritance clauses only, among them one
`checkInheritanceClause` per parameter, in order and with the depth already
set; then calls that belong to the where clause only.  (The builder calls are
made when a builder is passed.) -/
theorem checkGenericParamList_call_order (env : Sema) (builder : Bool)
    (parentSig : Option GenericSignature) (parentEnv : Option GenericEnvironment)
    (resolver : Option GenericTypeResolver) (hist : List Event) :
    checkGenericParamList env builder none parentSig parentEnv resolver hist =
      (none, hist ++ if builder then [Event.addGenericSignature parentSig parentEnv] else []) ∧
    ∀ genericParams : GenericParamList,
      ∃ inheritance requirements,
        (checkGenericParamList env builder (some genericParams) parentSig parentEnv resolver
          hist).2 =
          hist ++ (if builder then [Event.addGenericSignature parentSig parentEnv] else []) ++
            (if builder then
              genericParams.params.map
                (fun p => Event.addGenericParameter (p.setDepth genericParams.depth))
             else []) ++
            inheritance ++ requirements ∧
        (∀ e ∈ inheritance, e.step = 2) ∧
        inheritance.filterMap Event.checkedParam =
          genericParams.params.map (·.setDepth genericParams.depth) ∧
        (∀ e ∈ requirements, e.step = 3) := by
  constructor
  · cases builder <;> simp [checkGenericParamList]
  · intro genericParams
    simp only [checkGenericParamList, checkGenericParamList.addParams_eq]
    obtain ⟨inh, h1, h2, h3⟩ := checkGenericParamList.checkInheritance_trace env builder
      resolver (genericParams.params.map (·.setDepth genericParams.depth))
      ((if builder then hist ++ [Event.addGenericSignature parentSig parentEnv] else hist) ++
        (if builder then
          genericParams.params.map
            (fun p => Event.addGenericParameter (p.setDepth genericParams.depth))
         else []))
    obtain ⟨later, h4, h5⟩ := checkGenericParamList.checkRequirements_steps env builder
      genericParams.whereLoc (checkGenericParamList.options genericParams) resolver
      genericParams.requirements
      (checkGenericParamList.checkInheritance env builder resolver
        (genericParams.params.map (·.setDepth genericParams.depth))
        ((if builder then hist ++ [Event.addGenericSignature parentSig parentEnv] else hist) ++
          (if builder then
            genericParams.params.map
              (fun p => Event.addGenericParameter (p.setDepth genericParams.depth))
           else []))).2
    refine ⟨inh, later, ?_, h2, h3, h5⟩
    rw [h4, h1]
    cases builder <;> simp

/-! ## Properties of `validateGenericFuncSignature` -/

theorem validateGenericFuncSignature.checkSelfRequirements_invalid (env : FunctionSema)
    (func : AbstractFunctionDecl) (proto : String) (reqs : List Requirement)
    (invalid : Bool) (hist : List Event) :
    (validateGenericFuncSignature.checkSelfRequirements env func proto reqs invalid hist).1 =
      (invalid || (decide (4 ≤ env.effectiveLanguageVersion) &&
        reqs.any (restrictsSelf proto))) := by
  induction reqs generalizing invalid hist with
  | nil => simp [validateGenericFuncSignature.checkSelfRequirements]
  | cons req rest ih =>
    simp only [validateGenericFuncSignature.checkSelfRequirements, List.any_cons,
      restrictsSelf]
    split
    · simp [ih]
    · split
      · simp [ih]
      · rw [ih]
        by_cases hv : 4 ≤ env.effectiveLanguageVersion <;> simp [hv]

theorem configureInterfaceType.fold_ne_error (env : FunctionSema)
    (func : AbstractFunctionDecl) (hasSig hasSelf : Bool) (e : Nat)
    (lists : List ParameterList) (i : Nat) (funcTy : Ty) (initFuncTy : Option Ty)
    (h : lists ≠ [] ∨ funcTy ≠ .error) :
    (configureInterfaceType.fold env func hasSig hasSelf e lists i funcTy initFuncTy).1 ≠
      .error := by
  induction lists generalizing i funcTy initFuncTy with
  | nil =>
    rcases h with h | h
    · exact absurd rfl h
    · simpa [configureInterfaceType.fold] using h
  | cons paramList rest ih =>
    simp only [configureInterfaceType.fold]
    split
    · exact ih _ _ _ (Or.inr (by simp))
    · exact ih _ _ _ (Or.inr (by simp))

theorem configureInterfaceType.checkReferenced_interfaceType (env : FunctionSema)
    (referenced : List GenericTypeParamType) (depth : Nat)
    (params : List GenericTypeParamType) (func : AbstractFunctionDecl) (hist : List Event) :
    (configureInterfaceType.checkReferenced env referenced depth params func hist).1.interfaceType
      = func.interfaceType := by
  induction params generalizing func hist with
  | nil => rfl
  | cons genParam rest ih =>
    simp only [configureInterfaceType.checkReferenced]
    split
    · exact ih _ _
    · split
      · rw [ih]
      · exact ih _ _

theorem configureInterfaceType.record_interfaceType (func : AbstractFunctionDecl)
    (folded : Ty × Option Ty) :
    (configureInterfaceType.record func folded).interfaceType = some folded.1 := by
  unfold configureInterfaceType.record
  cases folded.2 <;> rfl

theorem configureInterfaceType_interfaceType_ne_error (env : FunctionSema)
    (func : AbstractFunctionDecl) (sig : Option GenericSignature) (hist : List Event)
    (h : func.parameterLists ≠ []) :
    (configureInterfaceType env func sig hist).1.interfaceType ≠ some .error := by
  have hne : (configureInterfaceType.paramLists func).reverse ≠ [] := by
    unfold configureInterfaceType.paramLists
    split <;> simp [h]
  have hfold : (configureInterfaceType.foldedTypes env func sig).1 ≠ .error :=
    configureInterfaceType.fold_ne_error env func sig.isSome _ _ _ 0 _ _ (Or.inl hne)
  have hrec : (configureInterfaceType env func sig hist).1.interfaceType =
      some (configureInterfaceType.foldedTypes env func sig).1 := by
    unfold configureInterfaceType
    simp only []
    split
    · rw [configureInterfaceType.checkReferenced_interfaceType,
        configureInterfaceType.record_interfaceType]
    · exact configureInterfaceType.record_interfaceType _ _
  rw [hrec]
  intro hcontra
  exact hfold (Option.some.inj hcontra)

theorem validateGenericFuncSignature.protocolCheck_invalid (env : FunctionSema)
    (invalid : Bool) (sig : GenericSignature) (func : AbstractFunctionDecl)
    (hist : List Event) :
    (validateGenericFuncSignature.protocolCheck env invalid sig func hist).1 = true ↔
      (invalid = true ∨
        (4 ≤ env.effectiveLanguageVersion ∧ func.genericParams.isSome = true ∧
          ∃ proto, func.declContext.protocolDecl = some proto ∧
            ∃ req ∈ sig.requirements, restrictsSelf proto req = true)) := by
  unfold validateGenericFuncSignature.protocolCheck
  split
  · rename_i gp proto hgp hproto
    cases invalid with
    | true => simp
    | false =>
      simp [validateGenericFuncSignature.checkSelfRequirements_invalid, hgp, hproto]
  · rename_i hnot
    cases invalid with
    | true => simp
    | false =>
      simp only [Bool.false_eq_true, false_or, false_iff, not_and, not_exists]
      intro _ hgp proto hproto
      cases hg : func.genericParams with
      | none => simp [hg] at hgp
      | some gp => exact absurd hproto (hnot gp proto hg)

theorem checkGenericFuncSignature.checkParameterLists_length (env : FunctionSema)
    (builder : Bool) (resolver : GenericTypeResolver) (lists : List ParameterList)
    (badType : Bool) (hist : List Event) :
    (checkGenericFuncSignature.checkParameterLists env builder resolver lists badType
      hist).2.1.length = lists.length := by
  induction lists generalizing badType hist with
  | nil => rfl
  | cons params rest ih => simp [checkGenericFuncSignature.checkParameterLists, ih]

theorem checkGenericFuncSignature_parameterLists_length (env : FunctionSema)
    (builder : Bool) (func : AbstractFunctionDecl) (resolver : GenericTypeResolver)
    (hist : List Event) :
    (checkGenericFuncSignature env builder func resolver hist).2.1.parameterLists.length =
      func.parameterLists.length := by
  unfold checkGenericFuncSignature
  simp only []
  split <;> simp [checkGenericFuncSignature.checkParameterLists_length]

theorem revertGenericFuncSignature_parameterLists_length (func : AbstractFunctionDecl) :
    (revertGenericFuncSignature func).parameterLists.length = func.parameterLists.length := by
  unfold revertGenericFuncSignature AbstractFunctionDecl.clearType
  simp only []
  split <;> split <;> split <;> simp

theorem validateGenericFuncSignature.secondPass_parameterLists_length (env : FunctionSema)
    (func : AbstractFunctionDecl) (hist : List Event) :
    (validateGenericFuncSignature.secondPass env
        (validateGenericFuncSignature.dependentPass env func hist).2.1
        (validateGenericFuncSignature.dependentPass env func hist).2.2).2.1.parameterLists.length
      = func.parameterLists.length := by
  unfold validateGenericFuncSignature.secondPass
  simp only [checkGenericFuncSignature_parameterLists_length,
    revertGenericFuncSignature_parameterLists_length]
  unfold validateGenericFuncSignature.dependentPass
  simp only []
  split <;> simp [checkGenericFuncSignature_parameterLists_length]

/-- C10: `validateGenericFuncSignature` returns null exactly when the function
has a type after the dependent pass.  Otherwise it returns the signature of
the builder, also when `invalid` is set; `invalid` is set exactly when a type
was bad in one of the two passes, a rename remained, or (language version 4 or
later) a requirement of a generic function in a protocol restricts `Self`;
when it is set the type and the interface type of the function become the
error type, when it is not `configureInterfaceType` is run, which for a
function with a parameter list never leaves the error type as interface type. -/
theorem validateGenericFuncSignature_result (env : FunctionSema)
    (func : AbstractFunctionDecl) (hist : List Event) :
    ((validateGenericFuncSignature env func hist).1 = none ↔
      (validateGenericFuncSignature.dependentPass env func hist).2.1.type.isSome = true) ∧
    ((validateGenericFuncSignature.dependentPass env func hist).2.1.type.isSome = true →
      (validateGenericFuncSignature env func hist).2 =
        (validateGenericFuncSignature.dependentPass env func hist).2) ∧
    ((validateGenericFuncSignature.dependentPass env func hist).2.1.type = none →
      ∃ (invalid : Bool) (sig : GenericSignature) (checked : AbstractFunctionDecl)
        (calls : List Event),
        checked = (validateGenericFuncSignature.secondPass env
          (validateGenericFuncSignature.dependentPass env func hist).2.1
          (validateGenericFuncSignature.dependentPass env func hist).2.2).2.1 ∧
        sig = env.getGenericSignature
          ((validateGenericFuncSignature.secondPass env
            (validateGenericFuncSignature.dependentPass env func hist).2.1
            (validateGenericFuncSignature.dependentPass env func hist).2.2).2.2 ++
            [Event.diagnoseRemainingRenames checked.loc]) ∧
        (validateGenericFuncSignature env func hist).1 = some sig ∧
        (invalid = true ↔
          ((validateGenericFuncSignature.dependentPass env func hist).1 = true ∨
            (validateGenericFuncSignature.secondPass env
              (validateGenericFuncSignature.dependentPass env func hist).2.1
              (validateGenericFuncSignature.dependentPass env func hist).2.2).1 = true ∨
            env.diagnoseRemainingRenames
              (validateGenericFuncSignature.secondPass env
                (validateGenericFuncSignature.dependentPass env func hist).2.1
                (validateGenericFuncSignature.dependentPass env func hist).2.2).2.2 = true ∨
            (4 ≤ env.effectiveLanguageVersion ∧ checked.genericParams.isSome = true ∧
              ∃ proto, checked.declContext.protocolDecl = some proto ∧
                ∃ req ∈ sig.requirements, restrictsSelf proto req = true))) ∧
        (invalid = true →
          (validateGenericFuncSignature env func hist).2 =
            ({ checked with type := some .error, interfaceType := some .error }, calls)) ∧
        (invalid = false →
          (validateGenericFuncSignature env func hist).2 =
            configureInterfaceType env checked (some sig) calls) ∧
        (func.parameterLists ≠ [] →
          ((validateGenericFuncSignature env func hist).2.1.interfaceType = some .error ↔
            invalid = true))) := by
  have hlen := validateGenericFuncSignature.secondPass_parameterLists_length env func hist
  unfold validateGenericFuncSignature
  simp only [validateGenericFuncSignature.completePass]
  generalize validateGenericFuncSignature.dependentPass env func hist = first at *
  obtain ⟨bad1, f1, h1⟩ := first
  simp only at hlen ⊢
  generalize validateGenericFuncSignature.secondPass env f1 h1 = second at *
  obtain ⟨bad2, f2, h2⟩ := second
  simp only at hlen ⊢
  have hbad : (if env.diagnoseRemainingRenames h2 = true then true
      else if bad2 = true then true else if bad1 = true then true else false) =
      (bad1 || bad2 || env.diagnoseRemainingRenames h2) := by
    cases bad1 <;> cases bad2 <;> cases env.diagnoseRemainingRenames h2 <;> rfl
  rw [hbad]
  have hchk := validateGenericFuncSignature.protocolCheck_invalid env
    (bad1 || bad2 || env.diagnoseRemainingRenames h2)
    (env.getGenericSignature (h2 ++ [Event.diagnoseRemainingRenames f2.loc])) f2
    (h2 ++ [Event.diagnoseRemainingRenames f2.loc] ++ [Event.getGenericSignature])
  generalize validateGenericFuncSignature.protocolCheck env
    (bad1 || bad2 || env.diagnoseRemainingRenames h2)
    (env.getGenericSignature (h2 ++ [Event.diagnoseRemainingRenames f2.loc])) f2
    (h2 ++ [Event.diagnoseRemainingRenames f2.loc] ++ [Event.getGenericSignature]) = chk at *
  obtain ⟨invalid, h3⟩ := chk
  simp only at hchk ⊢
  refine ⟨?_, ?_, ?_⟩
  · cases hty : f1.type with
    | none =>
      simp only [Option.isSome_none, Bool.false_eq_true, if_false, iff_false]
      cases invalid <;> simp
    | some t => simp
  · intro h
    simp [h]
  · intro hnone
    refine ⟨invalid, _, _, (if env.debugGenericSignatures then h3 ++ [Event.dump] else h3),
      rfl, rfl, ?_, ?_, ?_, ?_, ?_⟩
    · cases invalid <;> simp [hnone]
    · rw [hchk]
      simp only [Bool.or_eq_true]
      tauto
    · intro hinv
      simp [hnone, hinv]
    · intro hinv
      simp [hnone, hinv]
    · intro hne
      have hne2 : f2.parameterLists ≠ [] := by
        intro h
        rw [h] at hlen
        exact hne (List.length_eq_zero.mp hlen.symm)
      cases invalid with
      | true => simp [hnone]
      | false =>
        simp only [hnone, Option.isSome_none, Bool.false_eq_true, if_false, iff_false]
        exact configureInterfaceType_interfaceType_ne_error env f2 _ _ hne2

/-- Witness for C10: the sample function gets the signature of the builder
and a generic function type; a function that already has a type gets null. -/
theorem validateGenericFuncSignature_result_witness :
    (∃ (invalid : Bool) (sig : GenericSignature),
      (validateGenericFuncSignature sampleFunctionSema sampleFunc []).1 = some sig ∧
      ((validateGenericFuncSignature sampleFunctionSema sampleFunc []).2.1.interfaceType =
        some .error ↔ invalid = true)) ∧
    (validateGenericFuncSignature sampleFunctionSema
        { sampleFunc with type := some .emptyTuple } []).2 =
      (validateGenericFuncSignature.dependentPass sampleFunctionSema
        { sampleFunc with type := some .emptyTuple } []).2 :=
  ⟨(match (validateGenericFuncSignature_result sampleFunctionSema sampleFunc []).2.2 rfl with
    | ⟨invalid, sig, _, _, _, _, hsig, _, _, _, hiff⟩ =>
      ⟨invalid, sig, hsig, hiff (by decide)⟩),
   (validateGenericFuncSignature_result sampleFunctionSema
      { sampleFunc with type := some .emptyTuple } []).2.1 rfl⟩

/-! ## Properties of `isSelfDerivedOrConcrete` and `getResultType` -/

theorem stripDependentMembers_dependentPath (root : Ty) (path : List String) :
    stripDependentMembers (dependentPath root path) = stripDependentMembers root := by
  induction path generalizing root with
  | nil => rfl
  | cons name rest ih => rw [dependentPath, ih, stripDependentMembers]

theorem stripDependentMembers_not_dependentMember (type base : Ty) (name : String) :
    stripDependentMembers type ≠ .dependentMember base name := by
  induction type with
  | dependentMember b n ih => rw [stripDependentMembers]; exact ih
  | _ => simp [stripDependentMembers]

theorem exists_dependentPath_of_strip (type : Ty) :
    ∃ path, type = dependentPath (stripDependentMembers type) path := by
  induction type with
  | dependentMember b n ih =>
    obtain ⟨path, hpath⟩ := ih
    refine ⟨path ++ [n], ?_⟩
    rw [stripDependentMembers]
    have happ : ∀ (root : Ty) (p : List String) (m : String),
        dependentPath root (p ++ [m]) = .dependentMember (dependentPath root p) m := by
      intro root p m
      induction p generalizing root with
      | nil => rfl
      | cons x xs ihx =>
        rw [List.cons_append, dependentPath, dependentPath, ihx]
    rw [happ, ← hpath]
  | _ => exact ⟨[], rfl⟩

theorem hasTypeParameter_dependentPath (gp : GenericTypeParamType) (path : List String) :
    (dependentPath (.genericTypeParam gp) path).hasTypeParameter = true := by
  have h : ∀ (root : Ty), root.hasTypeParameter = true →
      ∀ p : List String, (dependentPath root p).hasTypeParameter = true := by
    intro root hroot p
    induction p generalizing root with
    | nil => exact hroot
    | cons name rest ih =>
      apply ih
      simp only [Ty.hasTypeParameter, Ty.visit, List.any_cons] at hroot ⊢
      rw [hroot, Bool.or_true]
  exact h _ (by simp [Ty.hasTypeParameter, Ty.visit, Ty.getAsGenericTypeParamType]) path

/-- C18: `isSelfDerivedOrConcrete` is true exactly when the type contains no
type parameter or, once every dependent-member projection is stripped, is the
generic parameter with depth 0 and index 0.  It is false for every other
generic parameter and every dependent member path rooted at one, and for a
type with a type parameter that is neither a generic parameter nor a
dependent member type.  Stripping ends: it removes a finite path of
projections and leaves a type that is not a dependent member type. -/
theorem isSelfDerivedOrConcrete_iff (type : Ty) :
    (isSelfDerivedOrConcrete type = true ↔
      (type.hasTypeParameter = false ∨
        ∃ name, stripDependentMembers type = .genericTypeParam ⟨name, 0, 0⟩)) ∧
    (∀ (gp : GenericTypeParamType) (path : List String),
      (gp.depth ≠ 0 ∨ gp.index ≠ 0) →
      isSelfDerivedOrConcrete (dependentPath (.genericTypeParam gp) path) = false) ∧
    (type.hasTypeParameter = true →
      (∀ gp, type ≠ .genericTypeParam gp) →
      (∀ base name, type ≠ .dependentMember base name) →
      isSelfDerivedOrConcrete type = false) ∧
    (∃ path, type = dependentPath (stripDependentMembers type) path) ∧
    (∀ base name, stripDependentMembers type ≠ .dependentMember base name) := by
  refine ⟨?_, ?_, ?_, exists_dependentPath_of_strip type,
    fun base name => stripDependentMembers_not_dependentMember type base name⟩
  · unfold isSelfDerivedOrConcrete
    cases htp : type.hasTypeParameter with
    | false => simp
    | true =>
      simp only [Bool.not_true, Bool.false_eq_true, if_false, false_or]
      cases hs : stripDependentMembers type with
      | genericTypeParam gp =>
        obtain ⟨name, depth, index⟩ := gp
        simp [Ty.getAsGenericTypeParamType]
      | _ => simp [Ty.getAsGenericTypeParamType]
  · intro gp path hne
    unfold isSelfDerivedOrConcrete
    rw [hasTypeParameter_dependentPath, stripDependentMembers_dependentPath]
    simp only [Bool.not_true, Bool.false_eq_true, if_false, stripDependentMembers,
      Ty.getAsGenericTypeParamType]
    rcases hne with h | h
    · simp [h]
    · simp [h]
  · intro htp hgp hdm
    unfold isSelfDerivedOrConcrete
    simp only [htp, Bool.not_true, Bool.false_eq_true, if_false]
    cases type with
    | genericTypeParam gp => exact absurd rfl (hgp gp)
    | dependentMember b n => exact absurd rfl (hdm b n)
    | _ => rfl

/-- Witness for C18: `Self.Element` is self-derived, `T.Element` (index 1) is
not, and `Optional<Self>` is not. -/
theorem isSelfDerivedOrConcrete_iff_witness :
    isSelfDerivedOrConcrete (dependentPath (.genericTypeParam ⟨"T", 0, 1⟩) ["Element"])
      = false ∧
    isSelfDerivedOrConcrete (.optional false (.genericTypeParam ⟨"Self", 0, 0⟩)) = false :=
  ⟨(isSelfDerivedOrConcrete_iff .error).2.1 ⟨"T", 0, 1⟩ ["Element"] (Or.inr (by decide)),
   (isSelfDerivedOrConcrete_iff (.optional false (.genericTypeParam ⟨"Self", 0, 0⟩))).2.2.1
      (by decide) (by intro gp h; cases h) (by intro b n h; cases h)⟩

/-- C19: `getResultType` keeps the optional wrappers of a result type: the
result for `n` wrappers around `T` is the same wrappers, of the same kinds,
around `getResultType T`, and the original type when `getResultType T` is
`T`; a dynamic `Self` becomes the dynamic-`Self` interface type of the
function.  (The function is defined by recursion on the type, so it ends.) -/
theorem getResultType_preserves_optionals (env : FunctionSema) (fn : AbstractFunctionDecl)
    (kinds : List Bool) (T : Ty) :
    getResultType env fn (wrapOptionals kinds T) =
      wrapOptionals kinds (getResultType env fn T) ∧
    (getResultType env fn T = T →
      getResultType env fn (wrapOptionals kinds T) = wrapOptionals kinds T) ∧
    (∀ selfTy : Ty, T = .dynamicSelf selfTy →
      getResultType env fn (wrapOptionals kinds T) =
        wrapOptionals kinds fn.dynamicSelfInterface) := by
  have hmain : getResultType env fn (wrapOptionals kinds T) =
      wrapOptionals kinds (getResultType env fn T) := by
    induction kinds with
    | nil => rfl
    | cons k rest ih =>
      simp only [wrapOptionals, getResultType]
      rw [ih]
      by_cases heq : wrapOptionals rest T = wrapOptionals rest (getResultType env fn T)
      · rw [if_pos heq, ← heq]
      · rw [if_neg heq]
        cases k <;> simp
  refine ⟨hmain, ?_, ?_⟩
  · intro h
    rw [hmain, h]
  · intro selfTy h
    rw [hmain, h, getResultType]

/-- Witness for C19: `Int?!` stays as it is, `Self?!` becomes the dynamic-`Self`
interface type inside the same wrappers. -/
theorem getResultType_preserves_optionals_witness :
    getResultType sampleFunctionSema sampleFunc (wrapOptionals [true, false] (.structTy "Int"))
      = wrapOptionals [true, false] (.structTy "Int") ∧
    getResultType sampleFunctionSema sampleFunc
        (wrapOptionals [true, false] (.dynamicSelf (.classTy "Base"))) =
      wrapOptionals [true, false] sampleFunc.dynamicSelfInterface :=
  ⟨(getResultType_preserves_optionals sampleFunctionSema sampleFunc [true, false]
      (.structTy "Int")).2.1 (by decide),
   (getResultType_preserves_optionals sampleFunctionSema sampleFunc [true, false]
      (.dynamicSelf (.classTy "Base"))).2.2 (.classTy "Base") rfl⟩

/-! ## `checkGenericArguments` stops at the first failure -/

theorem ownDiagnostics_inConformsToProtocol (ds : List Diagnostic) :
    ownDiagnostics (ds.map Emitted.inConformsToProtocol) = [] := by
  induction ds with
  | nil => rfl
  | cons d rest ih =>
    simp only [ownDiagnostics, List.map_cons, List.filterMap_cons] at ih ⊢
    exact ih

theorem checkGenericArguments.loop_pass (tc : TypeChecker) (loc noteLoc : SourceLoc)
    (owner : Ty) (genericSig : GenericSignature) (substitutions : TypeSubstitutionMap)
    (req : Requirement) (rest : List Requirement)
    (h : requirementFailsUnder tc loc substitutions req = false) :
    (checkGenericArguments.loop tc loc noteLoc owner genericSig substitutions
        (req :: rest)).1 =
      (checkGenericArguments.loop tc loc noteLoc owner genericSig substitutions rest).1 ∧
    ownDiagnostics (checkGenericArguments.loop tc loc noteLoc owner genericSig substitutions
        (req :: rest)).2 =
      ownDiagnostics (checkGenericArguments.loop tc loc noteLoc owner genericSig substitutions
        rest).2 := by
  rw [checkGenericArguments.loop]
  unfold requirementFailsUnder at h
  cases h1 : tc.subst substitutions req.first with
  | none => simp
  | some firstType =>
    cases h2 : tc.subst substitutions req.second with
    | none => simp
    | some secondType =>
      simp only [h1, h2] at h
      cases hk : req.kind <;> simp only [hk, requirementFails] at h <;> simp at h
      · simp only [h, Bool.not_true, Bool.false_eq_true, if_false, true_and]
        have hnil := ownDiagnostics_inConformsToProtocol
          (tc.conformsToProtocol firstType secondType loc).2
        unfold ownDiagnostics at hnil ⊢
        rw [List.filterMap_append, hnil, List.nil_append]
      · simp [h]
      · simp [h]

theorem checkGenericArguments.loop_fail (tc : TypeChecker) (loc noteLoc : SourceLoc)
    (owner : Ty) (genericSig : GenericSignature) (substitutions : TypeSubstitutionMap)
    (req : Requirement) (rest : List Requirement)
    (h : requirementFailsUnder tc loc substitutions req = true) :
    checkGenericArguments.loop tc loc noteLoc owner genericSig substitutions (req :: rest) =
      checkGenericArguments.loop tc loc noteLoc owner genericSig substitutions [req] ∧
    (checkGenericArguments.loop tc loc noteLoc owner genericSig substitutions [req]).1 = true ∧
    (ownDiagnostics (checkGenericArguments.loop tc loc noteLoc owner genericSig substitutions
        [req]).2).length ≤ 2 := by
  simp only [checkGenericArguments.loop]
  unfold requirementFailsUnder at h
  cases h1 : tc.subst substitutions req.first with
  | none => simp [h1] at h
  | some firstType =>
    cases h2 : tc.subst substitutions req.second with
    | none => simp [h1, h2] at h
    | some secondType =>
      simp only [h1, h2] at h
      cases hk : req.kind <;> simp only [hk, requirementFails] at h <;> simp at h
      · simp [h, ownDiagnostics_inConformsToProtocol]
      · simp [h, ownDiagnostics]
      · simp [h, ownDiagnostics]

theorem checkGenericArguments.loop_first_failure (tc : TypeChecker) (loc noteLoc : SourceLoc)
    (owner : Ty) (genericSig : GenericSignature) (substitutions : TypeSubstitutionMap)
    (before after : List Requirement) (req : Requirement)
    (hbefore : ∀ r ∈ before, requirementFailsUnder tc loc substitutions r = false)
    (hreq : requirementFailsUnder tc loc substitutions req = true) :
    checkGenericArguments.loop tc loc noteLoc owner genericSig substitutions
        (before ++ req :: after) =
      checkGenericArguments.loop tc loc noteLoc owner genericSig substitutions
        (before ++ [req]) := by
  induction before with
  | nil =>
    exact (checkGenericArguments.loop_fail tc loc noteLoc owner genericSig substitutions req
      after hreq).1
  | cons r rs ih =>
    have ih2 := ih fun x hx => hbefore x (List.mem_cons_of_mem _ hx)
    rw [List.cons_append, List.cons_append, checkGenericArguments.loop, ih2]
    conv_rhs => rw [checkGenericArguments.loop]

theorem checkGenericArguments.loop_ownDiagnostics_le (tc : TypeChecker)
    (loc noteLoc : SourceLoc) (owner : Ty) (genericSig : GenericSignature)
    (substitutions : TypeSubstitutionMap) (reqs : List Requirement) :
    (ownDiagnostics (checkGenericArguments.loop tc loc noteLoc owner genericSig substitutions
        reqs).2).length ≤ 2 := by
  induction reqs with
  | nil => simp [checkGenericArguments.loop, ownDiagnostics]
  | cons req rest ih =>
    cases h : requirementFailsUnder tc loc substitutions req with
    | false =>
      rw [(checkGenericArguments.loop_pass tc loc noteLoc owner genericSig substitutions req
        rest h).2]
      exact ih
    | true =>
      obtain ⟨h1, _, h3⟩ := checkGenericArguments.loop_fail tc loc noteLoc owner genericSig
        substitutions req rest h
      rw [h1]
      exact h3

/-- C20: when the requirements of `before` do not fail and `req` does, the
requirements after `req` play no part: the result, diagnostics included, is
that of the signature cut after `req`, for every `after`; the call returns
`true`; and in every call at most two diagnostics come from `diagnose` calls of
`checkGenericArguments` itself. -/
theorem checkGenericArguments_stops_at_first_failure (tc : TypeChecker)
    (loc noteLoc : SourceLoc) (owner : Ty) (genericParams : List GenericTypeParamType)
    (substitutions : TypeSubstitutionMap) (before after : List Requirement)
    (req : Requirement)
    (hbefore : ∀ r ∈ before, requirementFailsUnder tc loc substitutions r = false)
    (hreq : requirementFailsUnder tc loc substitutions req = true) :
    checkGenericArguments tc loc noteLoc owner ⟨genericParams, before ++ req :: after⟩
        substitutions =
      checkGenericArguments tc loc noteLoc owner ⟨genericParams, before ++ [req]⟩
        substitutions ∧
    (checkGenericArguments tc loc noteLoc owner ⟨genericParams, before ++ req :: after⟩
        substitutions).1 = true ∧
    ownDiagnostics (checkGenericArguments tc loc noteLoc owner
        ⟨genericParams, before ++ req :: after⟩ substitutions).2 =
      ownDiagnostics (checkGenericArguments tc loc noteLoc owner ⟨genericParams, [req]⟩
        substitutions).2 ∧
    ∀ genericSig : GenericSignature,
      (ownDiagnostics (checkGenericArguments tc loc noteLoc owner genericSig
        substitutions).2).length ≤ 2 := by
  have hcut : checkGenericArguments tc loc noteLoc owner
      ⟨genericParams, before ++ req :: after⟩ substitutions =
      checkGenericArguments tc loc noteLoc owner ⟨genericParams, before ++ [req]⟩
        substitutions := by
    unfold checkGenericArguments
    rw [checkGenericArguments.loop_first_failure tc loc noteLoc owner _ substitutions before
      after req hbefore hreq]
    exact checkGenericArguments.loop_congr_sig tc loc noteLoc owner
      ⟨genericParams, before ++ req :: after⟩ ⟨genericParams, before ++ [req]⟩ substitutions
      rfl _
  have hlead : ∀ (sig : GenericSignature) (pre : List Requirement),
      (∀ r ∈ pre, requirementFailsUnder tc loc substitutions r = false) →
      (checkGenericArguments.loop tc loc noteLoc owner sig substitutions (pre ++ [req])).1 =
        true ∧
      ownDiagnostics (checkGenericArguments.loop tc loc noteLoc owner sig substitutions
          (pre ++ [req])).2 =
        ownDiagnostics (checkGenericArguments.loop tc loc noteLoc owner sig substitutions
          [req]).2 := by
    intro sig pre hpre
    induction pre with
    | nil =>
      exact ⟨(checkGenericArguments.loop_fail tc loc noteLoc owner sig substitutions req []
        hreq).2.1, rfl⟩
    | cons r rs ih =>
      obtain ⟨h1, h2⟩ := checkGenericArguments.loop_pass tc loc noteLoc owner sig
        substitutions r (rs ++ [req]) (hpre r (List.mem_cons_self _ _))
      obtain ⟨h3, h4⟩ := ih fun x hx => hpre x (List.mem_cons_of_mem _ hx)
      rw [List.cons_append, h1, h2]
      exact ⟨h3, h4⟩
  refine ⟨hcut, ?_, ?_, ?_⟩
  · rw [hcut]
    exact (hlead _ before hbefore).1
  · rw [hcut]
    unfold checkGenericArguments
    rw [(hlead _ before hbefore).2]
    rw [checkGenericArguments.loop_congr_sig tc loc noteLoc owner
      ⟨genericParams, before ++ [req]⟩ ⟨genericParams, [req]⟩ substitutions rfl]
  · intro genericSig
    exact checkGenericArguments.loop_ownDiagnostics_le tc loc noteLoc owner genericSig
      substitutions genericSig.requirements

/-- Witness for C20: `T : Base` fails under `T -> CustomStruct`, so the
requirement `U == T` after it is never looked at. -/
theorem checkGenericArguments_stops_at_first_failure_witness :
    checkGenericArguments sampleTypeChecker 1 2 (.structTy "Owner")
        ⟨[sampleT, sampleU],
          [⟨.SameType, .genericTypeParam sampleT, .structTy "CustomStruct"⟩] ++
            ⟨.Superclass, .genericTypeParam sampleT, .classTy "Base"⟩ ::
            [⟨.SameType, .genericTypeParam sampleT, .structTy "Int"⟩]⟩
        sampleCustomStructMap =
      checkGenericArguments sampleTypeChecker 1 2 (.structTy "Owner")
        ⟨[sampleT, sampleU],
          [⟨.SameType, .genericTypeParam sampleT, .structTy "CustomStruct"⟩] ++
            [⟨.Superclass, .genericTypeParam sampleT, .classTy "Base"⟩]⟩
        sampleCustomStructMap :=
  (checkGenericArguments_stops_at_first_failure sampleTypeChecker 1 2 (.structTy "Owner")
    [sampleT, sampleU] sampleCustomStructMap
    [⟨.SameType, .genericTypeParam sampleT, .structTy "CustomStruct"⟩]
    [⟨.SameType, .genericTypeParam sampleT, .structTy "Int"⟩]
    ⟨.Superclass, .genericTypeParam sampleT, .classTy "Base"⟩
    (by decide) (by decide)).1

/-! ## Properties of the check of requirements in a protocol -/

theorem mem_visit_dependentPath (g : GenericTypeParamType) (root : Ty) (path : List String) :
    Ty.genericTypeParam g ∈ (dependentPath root path).visit ↔
      Ty.genericTypeParam g ∈ root.visit := by
  induction path generalizing root with
  | nil => rfl
  | cons name rest ih =>
    rw [dependentPath, ih]
    simp [Ty.visit]

theorem isSelfDerivedOrConcrete_of_mentionsNonSelfParam (t : Ty)
    (h : t.mentionsNonSelfParam) : isSelfDerivedOrConcrete t = false := by
  obtain ⟨gp, hmem, hne⟩ := h
  have htp : t.hasTypeParameter = true := by
    simp only [Ty.hasTypeParameter, List.any_eq_true]
    exact ⟨_, hmem, rfl⟩
  obtain ⟨path, hpath⟩ := exists_dependentPath_of_strip t
  unfold isSelfDerivedOrConcrete
  simp only [htp, Bool.not_true, Bool.false_eq_true, if_false]
  cases hs : stripDependentMembers t with
  | genericTypeParam root =>
    rw [hs] at hpath
    rw [hpath, mem_visit_dependentPath] at hmem
    simp only [Ty.visit, List.mem_singleton, Ty.genericTypeParam.injEq] at hmem
    subst hmem
    simp only [Ty.getAsGenericTypeParamType]
    rcases hne with h | h <;> simp [h]
  | _ => rfl

theorem validateGenericFuncSignature.checkSelfRequirements_trace (env : FunctionSema)
    (func : AbstractFunctionDecl) (proto : String) (reqs : List Requirement)
    (invalid : Bool) (hist : List Event) :
    (validateGenericFuncSignature.checkSelfRequirements env func proto reqs invalid hist).2 =
      hist ++ (reqs.filter (restrictsSelf proto)).map (restrictsSelfDiagnostic env func) := by
  induction reqs generalizing invalid hist with
  | nil => simp [validateGenericFuncSignature.checkSelfRequirements]
  | cons req rest ih =>
    simp only [validateGenericFuncSignature.checkSelfRequirements, List.filter_cons,
      restrictsSelf]
    split
    · simp [ih]
    · split
      · simp [ih]
      · rw [ih]
        simp [restrictsSelfDiagnostic]

theorem restrictsSelf_iff (proto : String) (req : Requirement) :
    restrictsSelf proto req = true ↔
      (isSelfDerivedOrConcrete req.first = true ∧ isSelfDerivedOrConcrete req.second = true ∧
        ¬ isSelfConformance proto req) := by
  unfold restrictsSelf isSelfConformance
  cases h1 : isSelfDerivedOrConcrete req.first with
  | false => simp
  | true =>
    cases h2 : isSelfDerivedOrConcrete req.second with
    | false => simp
    | true =>
      simp only [Bool.not_true, Bool.or_self, Bool.false_eq_true, if_false, true_and]
      have hequiv : (req.kind = .Conformance ∧ req.second.getProtocolDecl = some proto ∧
          req.first.getAsGenericTypeParamType.isSome = true) ↔
          (req.kind = .Conformance ∧ req.second = .protocol proto ∧
            ∃ name, req.first = .genericTypeParam ⟨name, 0, 0⟩) := by
        constructor
        · rintro ⟨hk, hp, hg⟩
          refine ⟨hk, ?_, ?_⟩
          · cases hs : req.second <;> simp [hs, Ty.getProtocolDecl] at hp
            rw [hp]
          · cases hf : req.first with
            | genericTypeParam gp =>
              obtain ⟨name, depth, index⟩ := gp
              rw [hf] at h1
              simp [isSelfDerivedOrConcrete, Ty.hasTypeParameter, Ty.visit,
                Ty.getAsGenericTypeParamType, stripDependentMembers] at h1
              exact ⟨name, by rw [h1.1, h1.2]⟩
            | _ => simp [hf, Ty.getAsGenericTypeParamType] at hg
        · rintro ⟨hk, hp, name, hf⟩
          exact ⟨hk, by rw [hp]; rfl, by rw [hf]; rfl⟩
      by_cases hc : req.kind = .Conformance ∧ req.second.getProtocolDecl = some proto ∧
          req.first.getAsGenericTypeParamType.isSome = true
      · rw [if_pos hc]
        simp only [Bool.false_eq_true, false_iff, not_not]
        exact hequiv.mp hc
      · rw [if_neg hc]
        simp only [true_iff]
        exact fun h => hc (hequiv.mpr h)

/-! ## Properties of `configureInterfaceType` -/

theorem mem_referencedGenericParams (gp : GenericTypeParamType) (t : Ty) :
    gp ∈ referencedGenericParams t ↔ Ty.genericTypeParam gp ∈ t.visit := by
  unfold referencedGenericParams
  rw [List.mem_filterMap]
  constructor
  · rintro ⟨u, hu, hget⟩
    cases u <;> simp [Ty.getAsGenericTypeParamType] at hget
    rw [← hget]; exact hu
  · intro h
    exact ⟨_, h, rfl⟩

theorem configureInterfaceType.checkReferenced_eq (env : FunctionSema)
    (referenced : List GenericTypeParamType) (depth : Nat)
    (params : List GenericTypeParamType) (func : AbstractFunctionDecl) (hist : List Event) :
    configureInterfaceType.checkReferenced env referenced depth params func hist =
      ((if params.any (fun gp => decide (gp.depth = depth) && decide (gp ∉ referenced)) then
          { func with invalid := true } else func),
        hist ++ (params.filter
          (fun gp => decide (gp.depth = depth) && decide (gp ∉ referenced))).map
          (unreferencedDiagnostic env)) := by
  induction params generalizing func hist with
  | nil => simp [configureInterfaceType.checkReferenced]
  | cons gp rest ih =>
    simp only [configureInterfaceType.checkReferenced, List.any_cons, List.filter_cons]
    by_cases hd : gp.depth = depth
    · by_cases hr : gp ∈ referenced
      · simp [hd, hr, ih]
      · simp only [hd, ne_eq, not_true_eq_false, if_false, hr, not_false_eq_true, if_true, ih,
          decide_True, Bool.and_self, Bool.true_or, List.map_cons, List.append_assoc,
          List.singleton_append, unreferencedDiagnostic, Prod.mk.injEq, and_true]
        split <;> rfl
    · simp [hd, ih]

theorem configureInterfaceType.record_genericParams (func : AbstractFunctionDecl)
    (folded : Ty × Option Ty) :
    (configureInterfaceType.record func folded).genericParams = func.genericParams := by
  unfold configureInterfaceType.record
  cases folded.2 <;> rfl

theorem configureInterfaceType.record_invalid (func : AbstractFunctionDecl)
    (folded : Ty × Option Ty) :
    (configureInterfaceType.record func folded).invalid = func.invalid := by
  unfold configureInterfaceType.record
  cases folded.2 <;> rfl

theorem isUnreferenced_eq (folded : Ty) (sig : GenericSignature) (depth : Nat)
    (gp : GenericTypeParamType) :
    isUnreferenced folded sig depth gp =
      (decide (gp.depth = depth) &&
        decide (gp ∉ (folded.getInput.map referencedGenericParams).getD [] ++
          (folded.getResult.map referencedGenericParams).getD [] ++
          sig.requirements.flatMap fun req =>
            if req.kind = .SameType then
              referencedGenericParams req.first ++ referencedGenericParams req.second
            else [])) := by
  have hin : ((folded.getInput.map fun input => input.mentions gp).getD false) = false ↔
      gp ∉ (folded.getInput.map referencedGenericParams).getD [] := by
    cases folded.getInput with
    | none => simp
    | some input => simp [Ty.mentions, mem_referencedGenericParams]
  have hout : ((folded.getResult.map fun result => result.mentions gp).getD false) = false ↔
      gp ∉ (folded.getResult.map referencedGenericParams).getD [] := by
    cases folded.getResult with
    | none => simp
    | some result => simp [Ty.mentions, mem_referencedGenericParams]
  have hreqs : (sig.requirements.any fun req =>
      decide (req.kind = .SameType) && (req.first.mentions gp || req.second.mentions gp))
        = false ↔
      gp ∉ sig.requirements.flatMap fun req =>
        if req.kind = .SameType then
          referencedGenericParams req.first ++ referencedGenericParams req.second
        else [] := by
    rw [List.any_eq_false, List.mem_flatMap]
    constructor
    · rintro h ⟨req, hreq, hmem⟩
      have hq := h req hreq
      by_cases hk : req.kind = .SameType
      · rw [if_pos hk, List.mem_append, mem_referencedGenericParams,
          mem_referencedGenericParams] at hmem
        simp [hk, Ty.mentions] at hq
        rcases hmem with h1 | h1
        · exact hq.1 h1
        · exact hq.2 h1
      · rw [if_neg hk] at hmem
        simp at hmem
    · intro h req hreq
      by_cases hk : req.kind = .SameType
      · have hq : gp ∉ referencedGenericParams req.first ++
            referencedGenericParams req.second := by
          intro hmem
          exact h ⟨req, hreq, by rw [if_pos hk]; exact hmem⟩
        rw [List.mem_append, mem_referencedGenericParams, mem_referencedGenericParams] at hq
        simp only [hk, decide_True, Ty.mentions, Bool.true_and, Bool.or_eq_true,
          decide_eq_true_eq]
        exact hq
      · simp [hk]
  rw [Bool.eq_iff_iff]
  simp only [isUnreferenced, Bool.and_eq_true, Bool.not_eq_true', decide_eq_true_eq,
    List.mem_append, not_or, and_assoc]
  rw [hin, hout, hreqs]

/-- C12: for a function with generic parameters of its own,
`configureInterfaceType` emits one `unreferenced_generic_parameter` diagnostic
for each parameter of the signature that has the depth of the function's own
parameters and is mentioned neither in the input nor in the result of the
folded function type nor on either side of a same-type requirement, in the
order of the signature, and nothing else; the function is marked invalid
exactly when there is such a parameter.  Conformance and superclass
requirements play no part in the test. -/
theorem configureInterfaceType_reports_unreferenced (env : FunctionSema)
    (func : AbstractFunctionDecl) (sig : GenericSignature) (hist : List Event)
    (genericParams : GenericParamList) (hparams : func.genericParams = some genericParams) :
    (configureInterfaceType env func (some sig) hist).2 =
      hist ++ (sig.genericParams.filter
        (isUnreferenced (configureInterfaceType.foldedTypes env func (some sig)).1 sig
          genericParams.depth)).map (unreferencedDiagnostic env) ∧
    ((configureInterfaceType env func (some sig) hist).1.invalid =
      (func.invalid || sig.genericParams.any
        (isUnreferenced (configureInterfaceType.foldedTypes env func (some sig)).1 sig
          genericParams.depth))) ∧
    (∀ (folded : Ty) (depth : Nat) (gp : GenericTypeParamType),
      isUnreferenced folded sig depth gp =
        isUnreferenced folded
          ⟨sig.genericParams, sig.requirements.filter fun req => req.kind = .SameType⟩
          depth gp) := by
  have hfun : (fun gp => isUnreferenced (configureInterfaceType.foldedTypes env func
      (some sig)).1 sig genericParams.depth gp) =
      (fun gp => decide (gp.depth = genericParams.depth) &&
        decide (gp ∉ ((configureInterfaceType.foldedTypes env func (some sig)).1.getInput.map
            referencedGenericParams).getD [] ++
          ((configureInterfaceType.foldedTypes env func (some sig)).1.getResult.map
            referencedGenericParams).getD [] ++
          sig.requirements.flatMap fun req =>
            if req.kind = .SameType then
              referencedGenericParams req.first ++ referencedGenericParams req.second
            else [])) := by
    funext gp
    exact isUnreferenced_eq _ sig _ gp
  have hrun : configureInterfaceType env func (some sig) hist =
      configureInterfaceType.checkReferenced env
        (((configureInterfaceType.foldedTypes env func (some sig)).1.getInput.map
            referencedGenericParams).getD [] ++
          ((configureInterfaceType.foldedTypes env func (some sig)).1.getResult.map
            referencedGenericParams).getD [] ++
          sig.requirements.flatMap fun req =>
            if req.kind = .SameType then
              referencedGenericParams req.first ++ referencedGenericParams req.second
            else [])
        genericParams.depth sig.genericParams
        (configureInterfaceType.record func
          (configureInterfaceType.foldedTypes env func (some sig))) hist := by
    unfold configureInterfaceType
    simp only [configureInterfaceType.record_genericParams, hparams]
  refine ⟨?_, ?_, ?_⟩
  · rw [hrun, configureInterfaceType.checkReferenced_eq]
    have hfil : sig.genericParams.filter (isUnreferenced (configureInterfaceType.foldedTypes
        env func (some sig)).1 sig genericParams.depth) =
        sig.genericParams.filter (fun gp => isUnreferenced
          (configureInterfaceType.foldedTypes env func (some sig)).1 sig genericParams.depth
          gp) := rfl
    rw [hfil, hfun]
  · rw [hrun, configureInterfaceType.checkReferenced_eq]
    have hany : sig.genericParams.any (isUnreferenced (configureInterfaceType.foldedTypes env
        func (some sig)).1 sig genericParams.depth) =
        sig.genericParams.any (fun gp => isUnreferenced (configureInterfaceType.foldedTypes env
          func (some sig)).1 sig genericParams.depth gp) := rfl
    rw [hany, hfun]
    simp only []
    split
    · rename_i h
      rw [h, Bool.or_true]
    · rename_i h
      rw [Bool.not_eq_true] at h
      rw [h, Bool.or_false, configureInterfaceType.record_invalid]
  · intro folded depth gp
    unfold isUnreferenced
    congr 2
    rw [Bool.eq_iff_iff]
    simp only [List.any_eq_true, List.mem_filter, decide_eq_true_eq, Bool.and_eq_true]
    constructor
    · rintro ⟨req, hreq, hk, hm⟩
      exact ⟨req, ⟨hreq, hk⟩, hk, hm⟩
    · rintro ⟨req, ⟨hreq, _⟩, hk, hm⟩
      exact ⟨req, hreq, hk, hm⟩

/-- Witness for C12: in `<T, U, W> where W : Comparable` for
`f(x: T) -> U`, exactly `W` is reported. -/
theorem configureInterfaceType_reports_unreferenced_witness :
    (configureInterfaceType sampleFunctionSema sampleCheckedFunc (some sampleUnreferencedSig)
      []).2 = [unreferencedDiagnostic sampleFunctionSema sampleW] ∧
    (configureInterfaceType sampleFunctionSema sampleCheckedFunc (some sampleUnreferencedSig)
      []).1.invalid = true :=
  ⟨(configureInterfaceType_reports_unreferenced sampleFunctionSema sampleCheckedFunc
      sampleUnreferencedSig [] sampleParamList rfl).1.trans (by decide),
   (configureInterfaceType_reports_unreferenced sampleFunctionSema sampleCheckedFunc
      sampleUnreferencedSig [] sampleParamList rfl).2.1.trans (by decide)⟩

theorem Ty.resultAfter_succ (n : Nat) (t : Ty) :
    Ty.resultAfter (n + 1) t = (Ty.resultAfter n t).bind Ty.getResult := by
  induction n generalizing t with
  | zero =>
    simp only [Ty.resultAfter, Option.some_bind]
    cases t.getResult <;> rfl
  | succ k ih =>
    rw [Ty.resultAfter]
    cases hr : t.getResult with
    | none => simp [Ty.resultAfter, hr]
    | some r =>
      simp only []
      rw [ih r]
      conv_rhs => rw [Ty.resultAfter, hr]

theorem configureInterfaceType.fold_resultAfter (env : FunctionSema)
    (func : AbstractFunctionDecl) (hasSig hasSelf : Bool) (e : Nat)
    (lists : List ParameterList) (i : Nat) (funcTy : Ty) (initFuncTy : Option Ty) :
    Ty.resultAfter lists.length
      (configureInterfaceType.fold env func hasSig hasSelf e lists i funcTy initFuncTy).1 =
      some funcTy := by
  induction lists generalizing i funcTy initFuncTy with
  | nil => rfl
  | cons paramList rest ih =>
    rw [List.length_cons, Ty.resultAfter_succ]
    simp only [configureInterfaceType.fold]
    split
    · rw [ih]; rfl
    · rw [ih]; rfl

/-- C13, counterexample: for the constructor `init(x: T)` of the struct
`Owner` the folded interface type is `(Owner) -> (T) -> Owner`; its
innermost result is `Owner`, not the empty tuple. -/
theorem configureInterfaceType_constructor_result_not_unit :
    sampleCtor.kind = .ConstructorDecl ∧
    (configureInterfaceType sampleFunctionSema sampleCtor none []).1.interfaceType =
      some (.function (.structTy "Owner")
        (.function (.genericTypeParam sampleT) (.structTy "Owner") false) false) ∧
    ((configureInterfaceType sampleFunctionSema sampleCtor none []).1.interfaceType.bind
      (Ty.resultAfter 2)) = some (.structTy "Owner") ∧
    ((configureInterfaceType sampleFunctionSema sampleCtor none []).1.interfaceType.bind
      (Ty.resultAfter 2)) ≠ some .emptyTuple := by
  decide

/-- C13, amended: the interface type recorded by `configureInterfaceType` is
the result type it starts from under one function arrow per folded
parameter list.  For every destructor that innermost result is the empty
tuple; for a constructor it is the `Self` interface type of the context,
inside the optional of its failability when it is failable; for a `FuncDecl`
it is the empty tuple when the location of its result type holds no type,
and `getResultType` of that type when it holds one. -/
theorem configureInterfaceType_innermost_result (env : FunctionSema)
    (func : AbstractFunctionDecl) (sig : Option GenericSignature) (hist : List Event) :
    ((configureInterfaceType env func sig hist).1.interfaceType.bind
      (Ty.resultAfter (configureInterfaceType.paramLists func).length)) =
      some (configureInterfaceType.resultType env func).1 ∧
    (func.kind = .DestructorDecl →
      (configureInterfaceType.resultType env func).1 = .emptyTuple) ∧
    (func.kind = .ConstructorDecl →
      (configureInterfaceType.resultType env func).1 =
        match func.failability with
        | .OTK_None => func.declContext.selfInterfaceType
        | .OTK_Optional => .optional false func.declContext.selfInterfaceType
        | .OTK_ImplicitlyUnwrappedOptional =>
          .optional true func.declContext.selfInterfaceType) ∧
    (func.kind = .FuncDecl → func.bodyResultTypeLoc.type = none →
      (configureInterfaceType.resultType env func).1 = .emptyTuple) ∧
    (func.kind = .FuncDecl → ∀ funcTy : Ty, func.bodyResultTypeLoc.type = some funcTy →
      (configureInterfaceType.resultType env func).1 = getResultType env func funcTy) := by
  refine ⟨?_, ?_, ?_, ?_, ?_⟩
  · have hrec : (configureInterfaceType env func sig hist).1.interfaceType =
        some (configureInterfaceType.foldedTypes env func sig).1 := by
      unfold configureInterfaceType
      simp only []
      split
      · rw [configureInterfaceType.checkReferenced_interfaceType,
          configureInterfaceType.record_interfaceType]
      · exact configureInterfaceType.record_interfaceType _ _
    rw [hrec, Option.some_bind]
    unfold configureInterfaceType.foldedTypes
    simp only []
    rw [← List.length_reverse]
    exact configureInterfaceType.fold_resultAfter env func _ _ _ _ 0 _ _
  · intro hk
    simp [configureInterfaceType.resultType, hk]
  · intro hk
    simp only [configureInterfaceType.resultType, hk]
  · intro hk hty
    simp only [configureInterfaceType.resultType, hk, hty]
  · intro hk funcTy hty
    simp only [configureInterfaceType.resultType, hk, hty]

/-- Witness for C13 (amended): the sample destructor has the empty tuple as
innermost result, the sample constructor has `Owner`, the sample function
has the empty tuple while its result type is not computed and `U` once it
is. -/
theorem configureInterfaceType_innermost_result_witness :
    (configureInterfaceType.resultType sampleFunctionSema sampleDtor).1 = .emptyTuple ∧
    (configureInterfaceType.resultType sampleFunctionSema sampleCtor).1 = .structTy "Owner" ∧
    (configureInterfaceType.resultType sampleFunctionSema sampleFunc).1 = .emptyTuple ∧
    (configureInterfaceType.resultType sampleFunctionSema sampleCheckedFunc).1 =
      getResultType sampleFunctionSema sampleCheckedFunc (.genericTypeParam sampleU) :=
  ⟨(configureInterfaceType_innermost_result sampleFunctionSema sampleDtor none []).2.1 rfl,
   (configureInterfaceType_innermost_result sampleFunctionSema sampleCtor none []).2.2.1 rfl,
   (configureInterfaceType_innermost_result sampleFunctionSema sampleFunc none []).2.2.2.1
     rfl rfl,
   (configureInterfaceType_innermost_result sampleFunctionSema sampleCheckedFunc none
     []).2.2.2.2 rfl (.genericTypeParam sampleU) rfl⟩

/-! ## Properties of `revertGenericParamList` -/

theorem revertDependentTypeLoc_spec (tl : TypeLoc) :
    (revertDependentTypeLoc tl).typeRepr = tl.typeRepr ∧
    (tl.isReverted = true →
      (revertDependentTypeLoc tl).type = none ∧ (revertDependentTypeLoc tl).validated = false) ∧
    (tl.isReverted = false → revertDependentTypeLoc tl = tl) := by
  unfold revertDependentTypeLoc TypeLoc.isReverted
  cases hr : tl.typeRepr with
  | none => simp [hr]
  | some r =>
    cases hv : (tl.validated && tl.isError) with
    | true => simp [hr]
    | false => simp [hr, TypeLoc.setType]

/-- C15, counterexample: after `revertGenericParamList` the inherited type of
`T`, both types of the invalid requirement and the second type of the other
requirement still have their computed type and are still validated. -/
theorem revertGenericParamList_keeps_some_types :
    (revertGenericParamList sampleRevertList).params.map (·.inherited) =
      [[⟨some "Missing", some .error, true⟩]] ∧
    (revertGenericParamList sampleRevertList).requirements =
      [ ⟨.TypeConstraint, ⟨some "T", some (.genericTypeParam sampleT), true⟩,
          ⟨some "Int", some .error, true⟩, true⟩,
        ⟨.SameType, ⟨some "T", none, false⟩, ⟨some "Missing", some .error, true⟩, false⟩ ] ∧
    ¬ (∀ req ∈ (revertGenericParamList sampleRevertList).requirements,
        req.firstLoc.type = none ∧ req.firstLoc.validated = false ∧
        req.secondLoc.type = none ∧ req.secondLoc.validated = false) := by
  decide

/-- C15, amended: after `revertGenericParamList` every parameter has its
inheritance-clause-checked flag cleared and each of its inherited type
locations reverted; every requirement that is not invalid has both operand
type locations reverted, and an invalid requirement is left as it is.
Reverting a type location that has a type representation and does not hold a
validated error type leaves it without computed type and not validated; any
other location is left as it is; the type representation never changes. -/
theorem revertGenericParamList_clears_types (genericParams : GenericParamList) :
    (∀ param ∈ (revertGenericParamList genericParams).params,
      param.checkedInheritanceClause = false) ∧
    (revertGenericParamList genericParams).params.map (·.inherited) =
      genericParams.params.map (fun param => param.inherited.map revertDependentTypeLoc) ∧
    (revertGenericParamList genericParams).requirements =
      genericParams.requirements.map (fun req =>
        if req.invalid then req
        else { req with
          firstLoc := revertDependentTypeLoc req.firstLoc,
          secondLoc := revertDependentTypeLoc req.secondLoc }) ∧
    (∀ tl : TypeLoc,
      (revertDependentTypeLoc tl).typeRepr = tl.typeRepr ∧
      (tl.isReverted = true →
        (revertDependentTypeLoc tl).type = none ∧
        (revertDependentTypeLoc tl).validated = false) ∧
      (tl.isReverted = false → revertDependentTypeLoc tl = tl)) ∧
    (revertGenericParamList genericParams).requirements.map
        (fun req => (req.kind, req.firstLoc.typeRepr, req.secondLoc.typeRepr, req.invalid)) =
      genericParams.requirements.map
        (fun req => (req.kind, req.firstLoc.typeRepr, req.secondLoc.typeRepr, req.invalid)) ∧
    (revertGenericParamList genericParams).params.map
        (fun param => param.inherited.map (·.typeRepr)) =
      genericParams.params.map (fun param => param.inherited.map (·.typeRepr)) := by
  refine ⟨?_, ?_, ?_, revertDependentTypeLoc_spec, ?_, ?_⟩
  · intro param hparam
    simp only [revertGenericParamList, List.mem_map] at hparam
    obtain ⟨p, _, hp⟩ := hparam
    rw [← hp]
  · simp [revertGenericParamList]
  · simp only [revertGenericParamList]
    apply List.map_congr_left
    intro req _
    split
    · rfl
    · cases req.kind <;> rfl
  · simp only [revertGenericParamList, List.map_map]
    apply List.map_congr_left
    intro req _
    simp only [Function.comp]
    split
    · rfl
    · cases req.kind <;> simp [(revertDependentTypeLoc_spec _).1]
  · simp only [revertGenericParamList, List.map_map]
    apply List.map_congr_left
    intro param _
    simp only [Function.comp, List.map_map]
    apply List.map_congr_left
    intro tl _
    exact (revertDependentTypeLoc_spec tl).1

/-- Witness for C15 (amended): a validated `T` is reverted, a validated error
type is not. -/
theorem revertGenericParamList_clears_types_witness :
    ((revertDependentTypeLoc ⟨some "T", some (.genericTypeParam sampleT), true⟩).type = none ∧
      (revertDependentTypeLoc ⟨some "T", some (.genericTypeParam sampleT), true⟩).validated
        = false) ∧
    revertDependentTypeLoc ⟨some "Missing", some .error, true⟩ =
      ⟨some "Missing", some .error, true⟩ :=
  ⟨((revertGenericParamList_clears_types sampleRevertList).2.2.2.1
      ⟨some "T", some (.genericTypeParam sampleT), true⟩).2.1 (by decide),
   ((revertGenericParamList_clears_types sampleRevertList).2.2.2.1
      ⟨some "Missing", some .error, true⟩).2.2 (by decide)⟩

/-! ## `checkGenericParamList` without a where clause -/

theorem checkGenericParamList.checkInheritance_requirements (env : Sema) (builder : Bool)
    (resolver : Option GenericTypeResolver) (params : List GenericTypeParamDecl)
    (hist : List Event) :
    ∃ inheritance,
      (checkGenericParamList.checkInheritance env builder resolver params hist).2 =
        hist ++ inheritance ∧
      (∀ r, Event.addRequirement r ∉ inheritance) ∧
      inheritance.filter Event.producesRequirements =
        (if builder then
          (checkGenericParamList.checkInheritance env builder resolver params hist).1.flatMap
            (fun param => Event.addGenericParameterRequirements param ::
              param.inherited.map Event.inferRequirements)
         else []) := by
  induction params generalizing hist with
  | nil => exact ⟨[], by cases builder <;> simp [checkGenericParamList.checkInheritance]⟩
  | cons param rest ih =>
    simp only [checkGenericParamList.checkInheritance]
    have hinfer : ∀ tls : List TypeLoc,
        (tls.map Event.inferRequirements).filter Event.producesRequirements =
          tls.map Event.inferRequirements := by
      intro tls
      rw [List.filter_eq_self]
      intro e he
      obtain ⟨tl, _, h⟩ := List.mem_map.mp he
      subst h; rfl
    cases builder with
    | false =>
      obtain ⟨inh, h1, h2, h3⟩ := ih (hist ++ [Event.checkInheritanceClause param resolver])
      refine ⟨Event.checkInheritanceClause param resolver :: inh, ?_, ?_, ?_⟩
      · simp only [Bool.false_eq_true, if_false]
        rw [h1]; simp
      · intro r hr
        rcases List.mem_cons.mp hr with h | h
        · cases h
        · exact h2 r h
      · simp only [Bool.false_eq_true, if_false] at h3 ⊢
        simp [List.filter_cons, Event.producesRequirements, h3]
    | true =>
      obtain ⟨inh, h1, h2, h3⟩ := ih (hist ++ [Event.checkInheritanceClause param resolver] ++
        [Event.addGenericParameterRequirements
          (env.checkInheritanceClause hist param resolver)] ++
        (env.checkInheritanceClause hist param resolver).inherited.map Event.inferRequirements)
      refine ⟨Event.checkInheritanceClause param resolver ::
        Event.addGenericParameterRequirements (env.checkInheritanceClause hist param resolver) ::
        ((env.checkInheritanceClause hist param resolver).inherited.map Event.inferRequirements
          ++ inh), ?_, ?_, ?_⟩
      · simp only [if_true]
        rw [h1]; simp
      · intro r hr
        simp only [List.mem_cons, List.mem_append, List.mem_map] at hr
        rcases hr with h | h | ⟨tl, _, h⟩ | h
        · cases h
        · cases h
        · cases h
        · exact h2 r h
      · simp only [if_true] at h3 ⊢
        simp only [List.filter_cons, Event.producesRequirements, Bool.false_eq_true, if_false,
          if_true, List.filter_append, hinfer, h3, List.flatMap_cons, List.cons_append]

/-- C17, counterexample: for the list `<V : Comparable>` without where clause,
checked inside the context `<T, U> where T : Comparable`, the calls that hand
requirements to the builder start with `addGenericSignature`, which hands
over the requirement `T : Comparable` of the parent signature; they are not
only the calls for the inheritance clause of `V`. -/
theorem checkGenericParamList_parent_requirements :
    sampleInnerList.requirements = [] ∧
    (checkGenericParamList sampleSema true (some sampleInnerList)
        (some sampleConformanceSig) none (some .Dependent) []).2.filter
        Event.producesRequirements =
      [Event.addGenericSignature (some sampleConformanceSig) none,
       Event.addGenericParameterRequirements
         ⟨"V", 1, 0, [sampleLoc "Comparable"], true, sampleDeclContext, none⟩,
       Event.inferRequirements (sampleLoc "Comparable")] ∧
    (checkGenericParamList sampleSema true (some sampleInnerList)
        (some sampleConformanceSig) none (some .Dependent) []).2.filter
        Event.producesRequirements ≠
      (paramsAfter (checkGenericParamList sampleSema true (some sampleInnerList)
        (some sampleConformanceSig) none (some .Dependent) [])).flatMap
        (fun param => Event.addGenericParameterRequirements param ::
          param.inherited.map Event.inferRequirements) := by
  decide

/-- C17, amended: for a parameter list without where-clause requirements the
calls of `checkGenericParamList` contain no `addRequirement`, and the calls
that hand requirements to the builder are: first the one `addGenericSignature`
call with the parent signature, then, parameter by parameter in the order of
the list, one `addGenericParameterRequirements` followed by one
`inferRequirements` per inherited type of that parameter.  (These calls are
made when a builder is passed.) -/
theorem checkGenericParamList_requirement_calls (env : Sema) (builder : Bool)
    (genericParams : GenericParamList) (parentSig : Option GenericSignature)
    (parentEnv : Option GenericEnvironment) (resolver : Option GenericTypeResolver)
    (hist : List Event) (hwhere : genericParams.requirements = []) :
    ∃ calls,
      (checkGenericParamList env builder (some genericParams) parentSig parentEnv resolver
        hist).2 = hist ++ calls ∧
      (∀ r, Event.addRequirement r ∉ calls) ∧
      calls.filter Event.producesRequirements =
        (if builder then
          Event.addGenericSignature parentSig parentEnv ::
          (paramsAfter (checkGenericParamList env builder (some genericParams) parentSig
            parentEnv resolver hist)).flatMap
            (fun param => Event.addGenericParameterRequirements param ::
              param.inherited.map Event.inferRequirements)
         else []) ∧
      (paramsAfter (checkGenericParamList env builder (some genericParams) parentSig
        parentEnv resolver hist)).length = genericParams.params.length := by
  simp only [checkGenericParamList, paramsAfter, hwhere,
    checkGenericParamList.checkRequirements, checkGenericParamList.addParams_eq]
  obtain ⟨inh, h1, h2, h3⟩ := checkGenericParamList.checkInheritance_requirements env builder
    resolver (genericParams.params.map (·.setDepth genericParams.depth))
    ((if builder then hist ++ [Event.addGenericSignature parentSig parentEnv] else hist) ++
      (if builder then
        genericParams.params.map
          (fun p => Event.addGenericParameter (p.setDepth genericParams.depth))
       else []))
  have hlen : ∀ (ps : List GenericTypeParamDecl) (h : List Event),
      (checkGenericParamList.checkInheritance env builder resolver ps h).1.length =
        ps.length := by
    intro ps
    induction ps with
    | nil => intro h; rfl
    | cons p rest ih => intro h; simp [checkGenericParamList.checkInheritance, ih]
  have hadd : ∀ ps : List GenericTypeParamDecl,
      (ps.map (fun p => Event.addGenericParameter (p.setDepth genericParams.depth))).filter
        Event.producesRequirements = [] := by
    intro ps
    rw [List.filter_eq_nil_iff]
    intro e he
    obtain ⟨p, _, h⟩ := List.mem_map.mp he
    subst h; simp [Event.producesRequirements]
  refine ⟨(if builder then [Event.addGenericSignature parentSig parentEnv] else []) ++
    (if builder then
      genericParams.params.map
        (fun p => Event.addGenericParameter (p.setDepth genericParams.depth))
     else []) ++ inh, ?_, ?_, ?_, ?_⟩
  · rw [h1]
    cases builder <;> simp
  · intro r hr
    simp only [List.mem_append] at hr
    rcases hr with (hr | hr) | hr
    · cases builder <;> simp at hr
    · cases builder <;> simp at hr
    · exact h2 r hr
  · rw [List.filter_append, List.filter_append, h3]
    cases builder
    · simp
    · simp [hadd, Event.producesRequirements]
  · rw [hlen, List.length_map]

/-- Witness for C17 (amended): `<V : Comparable>` without where clause inside
the context `<T, U> where T : Comparable`. -/
theorem checkGenericParamList_requirement_calls_witness :
    sampleInnerList.requirements = [] ∧
    ∃ calls,
      (checkGenericParamList sampleSema true (some sampleInnerList)
        (some sampleConformanceSig) none (some .Dependent) []).2 = [] ++ calls ∧
      (∀ r, Event.addRequirement r ∉ calls) ∧
      calls.filter Event.producesRequirements =
        (if true then
          Event.addGenericSignature (some sampleConformanceSig) none ::
          (paramsAfter (checkGenericParamList sampleSema true (some sampleInnerList)
            (some sampleConformanceSig) none (some .Dependent) [])).flatMap
            (fun param => Event.addGenericParameterRequirements param ::
              param.inherited.map Event.inferRequirements)
         else []) ∧
      (paramsAfter (checkGenericParamList sampleSema true (some sampleInnerList)
        (some sampleConformanceSig) none (some .Dependent) [])).length =
        sampleInnerList.params.length :=
  ⟨rfl, checkGenericParamList_requirement_calls sampleSema true sampleInnerList
    (some sampleConformanceSig) none (some .Dependent) [] rfl⟩

/-! ## Properties of `resolveDependentMemberType` -/

theorem resolveDependentMemberType.nestedType_calls (env : ResolverSema) (baseTy : Ty)
    (ref : ComponentIdentTypeRepr) (hist : List ResolverEvent) :
    (resolveDependentMemberType.nestedType env baseTy ref hist).2.2 =
      hist ++
        (if (env.getNestedType hist (env.resolveRepresentative baseTy) ref.identifier).wasRenamed
         then
          [ResolverEvent.getNestedType ref.identifier,
           ResolverEvent.diagnose ⟨ref.idLoc, .invalid_member_type_suggest,
             [.type baseTy, .text ref.identifier,
              .text (env.getNestedType hist (env.resolveRepresentative baseTy)
                ref.identifier).name]⟩,
           ResolverEvent.fixItReplace ref.idLoc
             (env.getNestedType hist (env.resolveRepresentative baseTy) ref.identifier).name,
           ResolverEvent.overwriteIdentifier
             (env.getNestedType hist (env.resolveRepresentative baseTy) ref.identifier).name,
           ResolverEvent.setAlreadyDiagnosedRename
             (env.getNestedType hist (env.resolveRepresentative baseTy) ref.identifier),
           ResolverEvent.getNestedType
             (env.getNestedType hist (env.resolveRepresentative baseTy) ref.identifier).name]
         else [ResolverEvent.getNestedType ref.identifier]) := by
  simp only [resolveDependentMemberType.nestedType]
  split <;> simp

theorem resolveDependentMemberTypeSpec_calls (env : ResolverSema) (baseTy : Ty)
    (DC : DeclContext) (baseRange : SourceRange) (ref : ComponentIdentTypeRepr)
    (hist : List ResolverEvent) :
    ∃ outcome,
      (resolveDependentMemberTypeSpec env baseTy DC baseRange ref hist).2.2 =
        (resolveDependentMemberType.nestedType env baseTy ref hist).2.2 ++ outcome ∧
      outcome.filter ResolverEvent.isRenameDiagnostic = [] ∧
      outcome.filterMap ResolverEvent.nestedName = [] ∧
      ¬ (outcome.any ResolverEvent.isAmbiguity = true ∧
          outcome.any ResolverEvent.isNoSuchMember = true) := by
  refine ⟨_, rfl, ?_⟩
  simp only [associatedTypeFallback, typeAliasFallback, superclassFallback, noSuchMember]
  cases (resolveDependentMemberType.nestedType env baseTy ref hist).1.resolvedAssociatedType
    with
  | some a => simp [firstYield]
  | none =>
    cases (resolveDependentMemberType.nestedType env baseTy ref hist).1.typeAliasDecl with
    | some al =>
      simp [firstYield, ResolverEvent.isRenameDiagnostic, ResolverEvent.nestedName,
        ResolverEvent.isAmbiguity, ResolverEvent.isNoSuchMember]
    | none =>
      cases env.getSuperclass (resolveDependentMemberType.nestedType env baseTy ref hist).2.2
        (env.resolveRepresentative baseTy) with
      | none =>
        simp [firstYield, ResolverEvent.isRenameDiagnostic, ResolverEvent.nestedName,
          ResolverEvent.isAmbiguity, ResolverEvent.isNoSuchMember]
      | some sc =>
        by_cases hf : (env.lookupMemberType
            (resolveDependentMemberType.nestedType env baseTy ref hist).2.2 DC sc
            (resolveDependentMemberType.nestedType env baseTy ref hist).2.1.identifier).found
        · by_cases ha : (env.lookupMemberType
              (resolveDependentMemberType.nestedType env baseTy ref hist).2.2 DC sc
              (resolveDependentMemberType.nestedType env baseTy ref hist).2.1.identifier
              ).isAmbiguous
          · simp [firstYield, hf, ha, ResolverEvent.isRenameDiagnostic,
              ResolverEvent.nestedName, ResolverEvent.isAmbiguity,
              ResolverEvent.isNoSuchMember]
          · simp [firstYield, hf, ha, ResolverEvent.isRenameDiagnostic,
              ResolverEvent.nestedName, ResolverEvent.isAmbiguity,
              ResolverEvent.isNoSuchMember]
        · simp [firstYield, hf, ResolverEvent.isRenameDiagnostic,
            ResolverEvent.nestedName, ResolverEvent.isAmbiguity,
            ResolverEvent.isNoSuchMember]

theorem resolveDependentMemberType_eq_spec (env : ResolverSema) (baseTy : Ty)
    (DC : DeclContext) (baseRange : SourceRange) (ref : ComponentIdentTypeRepr)
    (hist : List ResolverEvent) :
    resolveDependentMemberType env baseTy DC baseRange ref hist =
      resolveDependentMemberTypeSpec env baseTy DC baseRange ref hist := by
  simp only [resolveDependentMemberType, resolveDependentMemberTypeSpec,
    associatedTypeFallback, typeAliasFallback, superclassFallback, noSuchMember]
  cases (resolveDependentMemberType.nestedType env baseTy ref hist).1.resolvedAssociatedType
    with
  | some a => simp [firstYield]
  | none =>
    cases (resolveDependentMemberType.nestedType env baseTy ref hist).1.typeAliasDecl with
    | some al => simp [firstYield]
    | none =>
      cases env.getSuperclass (resolveDependentMemberType.nestedType env baseTy ref hist).2.2
        (env.resolveRepresentative baseTy) with
      | none => simp [firstYield]
      | some sc =>
        by_cases hf : (env.lookupMemberType
            (resolveDependentMemberType.nestedType env baseTy ref hist).2.2 DC sc
            (resolveDependentMemberType.nestedType env baseTy ref hist).2.1.identifier).found
        · by_cases ha : (env.lookupMemberType
              (resolveDependentMemberType.nestedType env baseTy ref hist).2.2 DC sc
              (resolveDependentMemberType.nestedType env baseTy ref hist).2.1.identifier
              ).isAmbiguous
          · simp [firstYield, hf, ha]
          · simp [firstYield, hf, ha]
        · simp [firstYield, hf]

theorem resolveDependentMemberType.nestedType_result (env : ResolverSema) (baseTy : Ty)
    (ref : ComponentIdentTypeRepr) (hist : List ResolverEvent) :
    (resolveDependentMemberType.nestedType env baseTy ref hist).1 =
      (if (env.getNestedType hist (env.resolveRepresentative baseTy) ref.identifier).wasRenamed
       then
        env.getNestedType
          (hist ++
            [ResolverEvent.getNestedType ref.identifier,
             ResolverEvent.diagnose ⟨ref.idLoc, .invalid_member_type_suggest,
               [.type baseTy, .text ref.identifier,
                .text (env.getNestedType hist (env.resolveRepresentative baseTy)
                  ref.identifier).name]⟩,
             ResolverEvent.fixItReplace ref.idLoc
               (env.getNestedType hist (env.resolveRepresentative baseTy) ref.identifier).name,
             ResolverEvent.overwriteIdentifier
               (env.getNestedType hist (env.resolveRepresentative baseTy) ref.identifier).name,
             ResolverEvent.setAlreadyDiagnosedRename
               (env.getNestedType hist (env.resolveRepresentative baseTy) ref.identifier)])
          (env.resolveRepresentative baseTy)
          (env.getNestedType hist (env.resolveRepresentative baseTy) ref.identifier).name
       else env.getNestedType hist (env.resolveRepresentative baseTy) ref.identifier) ∧
    (resolveDependentMemberType.nestedType env baseTy ref hist).2.1 =
      (if (env.getNestedType hist (env.resolveRepresentative baseTy) ref.identifier).wasRenamed
       then
        ⟨(env.getNestedType hist (env.resolveRepresentative baseTy) ref.identifier).name,
          ref.idLoc⟩
       else ref) := by
  simp only [resolveDependentMemberType.nestedType]
  split <;> simp

/-- C14: `resolveDependentMemberType` is the resolution the specification
describes.  The nested archetype is looked up under the written name and, when
typo correction renamed it, diagnosed once and looked up once more under the
new name, which also replaces the identifier.  Then the fallbacks are tried in
order and the first that yields something decides: a resolved associated type
gives the dependent member type of the base; else a type alias gives the alias
substituted with the base; else a lookup in the superclass bound that finds
something gives its first result, or the error type with the ambiguity report;
else the no-such-member diagnostic is emitted and the error type returned.
The ambiguity report and the no-such-member diagnostic never occur together
among the calls of one run. -/
theorem resolveDependentMemberType_fallback_order (env : ResolverSema) (baseTy : Ty)
    (DC : DeclContext) (baseRange : SourceRange) (ref : ComponentIdentTypeRepr)
    (hist : List ResolverEvent) :
    resolveDependentMemberType env baseTy DC baseRange ref hist =
      resolveDependentMemberTypeSpec env baseTy DC baseRange ref hist ∧
    (resolveDependentMemberType.nestedType env baseTy ref hist).1 =
      (if (env.getNestedType hist (env.resolveRepresentative baseTy) ref.identifier).wasRenamed
       then
        env.getNestedType
          (hist ++
            [ResolverEvent.getNestedType ref.identifier,
             ResolverEvent.diagnose ⟨ref.idLoc, .invalid_member_type_suggest,
               [.type baseTy, .text ref.identifier,
                .text (env.getNestedType hist (env.resolveRepresentative baseTy)
                  ref.identifier).name]⟩,
             ResolverEvent.fixItReplace ref.idLoc
               (env.getNestedType hist (env.resolveRepresentative baseTy) ref.identifier).name,
             ResolverEvent.overwriteIdentifier
               (env.getNestedType hist (env.resolveRepresentative baseTy) ref.identifier).name,
             ResolverEvent.setAlreadyDiagnosedRename
               (env.getNestedType hist (env.resolveRepresentative baseTy) ref.identifier)])
          (env.resolveRepresentative baseTy)
          (env.getNestedType hist (env.resolveRepresentative baseTy) ref.identifier).name
       else env.getNestedType hist (env.resolveRepresentative baseTy) ref.identifier) ∧
    (resolveDependentMemberType env baseTy DC baseRange ref hist).2.1 =
      (if (env.getNestedType hist (env.resolveRepresentative baseTy) ref.identifier).wasRenamed
       then
        ⟨(env.getNestedType hist (env.resolveRepresentative baseTy) ref.identifier).name,
          ref.idLoc⟩
       else ref) ∧
    ∃ calls,
      (resolveDependentMemberType env baseTy DC baseRange ref hist).2.2 = hist ++ calls ∧
      (calls.filter ResolverEvent.isRenameDiagnostic).length =
        (if (env.getNestedType hist (env.resolveRepresentative baseTy)
            ref.identifier).wasRenamed then 1 else 0) ∧
      calls.filterMap ResolverEvent.nestedName =
        (if (env.getNestedType hist (env.resolveRepresentative baseTy)
            ref.identifier).wasRenamed
         then [ref.identifier,
           (env.getNestedType hist (env.resolveRepresentative baseTy) ref.identifier).name]
         else [ref.identifier]) ∧
      ¬ (calls.any ResolverEvent.isAmbiguity = true ∧
          calls.any ResolverEvent.isNoSuchMember = true) := by
  have hres := resolveDependentMemberType.nestedType_result env baseTy ref hist
  refine ⟨resolveDependentMemberType_eq_spec env baseTy DC baseRange ref hist, hres.1, ?_, ?_⟩
  · rw [resolveDependentMemberType_eq_spec]
    exact hres.2
  · obtain ⟨outcome, h1, h2, h3, h4⟩ :=
      resolveDependentMemberTypeSpec_calls env baseTy DC baseRange ref hist
    rw [resolveDependentMemberType_eq_spec, h1,
      resolveDependentMemberType.nestedType_calls, List.append_assoc]
    refine ⟨_, rfl, ?_, ?_, ?_⟩
    · rw [List.filter_append, h2]
      split <;> simp [ResolverEvent.isRenameDiagnostic]
    · rw [List.filterMap_append, h3]
      split <;> simp [ResolverEvent.nestedName]
    · intro h
      apply h4
      rw [List.any_append, List.any_append] at h
      have hamb : ∀ l, l = (if (env.getNestedType hist (env.resolveRepresentative baseTy)
            ref.identifier).wasRenamed = true then
          [ResolverEvent.getNestedType ref.identifier,
           ResolverEvent.diagnose ⟨ref.idLoc, .invalid_member_type_suggest,
             [.type baseTy, .text ref.identifier,
              .text (env.getNestedType hist (env.resolveRepresentative baseTy)
                ref.identifier).name]⟩,
           ResolverEvent.fixItReplace ref.idLoc
             (env.getNestedType hist (env.resolveRepresentative baseTy) ref.identifier).name,
           ResolverEvent.overwriteIdentifier
             (env.getNestedType hist (env.resolveRepresentative baseTy) ref.identifier).name,
           ResolverEvent.setAlreadyDiagnosedRename
             (env.getNestedType hist (env.resolveRepresentative baseTy) ref.identifier),
           ResolverEvent.getNestedType
             (env.getNestedType hist (env.resolveRepresentative baseTy) ref.identifier).name]
         else [ResolverEvent.getNestedType ref.identifier]) →
          l.any ResolverEvent.isAmbiguity = false ∧
          l.any ResolverEvent.isNoSuchMember = false := by
        intro l hl
        subst hl
        split <;> simp [ResolverEvent.isAmbiguity, ResolverEvent.isNoSuchMember]
      obtain ⟨ha, hn⟩ := hamb _ rfl
      rw [ha, hn, Bool.false_or, Bool.false_or] at h
      exact h

/-- The typo `T.Elemnt` is diagnosed once, the identifier becomes `Element`
and the result is the dependent member type `T.Element`. -/
theorem resolveDependentMemberType_sample_rename :
    resolveDependentMemberType sampleResolverSema (.genericTypeParam sampleT)
        sampleDeclContext (1, 2) ⟨"Elemnt", 3⟩ [] =
      (.dependentMember (.genericTypeParam sampleT) "Element", ⟨"Element", 3⟩,
        [ResolverEvent.getNestedType "Elemnt",
         ResolverEvent.diagnose ⟨3, .invalid_member_type_suggest,
           [.type (.genericTypeParam sampleT), .text "Elemnt", .text "Element"]⟩,
         ResolverEvent.fixItReplace 3 "Element",
         ResolverEvent.overwriteIdentifier "Element",
         ResolverEvent.setAlreadyDiagnosedRename ⟨"Element", true, none, none⟩,
         ResolverEvent.getNestedType "Element"]) := by
  decide

/-- An ambiguous lookup in the superclass bound gives the error type and the
ambiguity report; a lookup that finds nothing gives the no-such-member
diagnostic. -/
theorem resolveDependentMemberType_sample_superclass :
    (resolveDependentMemberType sampleResolverSema (.genericTypeParam sampleT)
        sampleDeclContext (1, 2) ⟨"Twice", 3⟩ []).2.2 =
      [ResolverEvent.getNestedType "Twice",
       ResolverEvent.lookupMemberType (.classTy "Base") "Twice",
       ResolverEvent.diagnoseAmbiguousMemberType (.genericTypeParam sampleT) (1, 2) "Twice" 3
         ⟨true, true, .structTy "Twice"⟩] ∧
    (resolveDependentMemberType sampleResolverSema (.genericTypeParam sampleT)
        sampleDeclContext (1, 2) ⟨"Nothing", 3⟩ []).2.2 =
      [ResolverEvent.getNestedType "Nothing",
       ResolverEvent.lookupMemberType (.classTy "Base") "Nothing",
       ResolverEvent.diagnose ⟨3, .invalid_member_type,
         [.text "Nothing", .type (.genericTypeParam sampleT)]⟩,
       ResolverEvent.highlight (1, 2)] ∧
    (resolveDependentMemberType sampleResolverSema (.genericTypeParam sampleT)
        sampleDeclContext (1, 2) ⟨"Inner", 3⟩ []).1 = .structTy "Inner" := by
  decide

/-! ## Properties of `validateGenericTypeSignature` -/

theorem validateGenericTypeSignature.validate_flag (env : TypeDeclSema)
    (typeDecl : GenericTypeDecl) (hist : List Event) :
    (validateGenericTypeSignature.validate env typeDecl hist).1.isValidatingGenericSignature =
      typeDecl.isValidatingGenericSignature := by
  simp only [validateGenericTypeSignature.validate]
  split <;> rfl

/-- C16: the re-entrancy guard of `validateGenericTypeSignature`.  Called on
a declaration whose flag is set, it returns the declaration as it is and
makes no call: no environment is attached and the flag stays set.  Called
with the flag clear, the flag is clear again on return: on the early return
for a declaration without generic parameters, which attaches the generic
environment of the parent context and makes no call, and on the full
validation path, which attaches the environment the builder gives for the
validated signature. -/
theorem validateGenericTypeSignature_reentrancy_guard (env : TypeDeclSema)
    (typeDecl : GenericTypeDecl) (hist : List Event) :
    validateGenericTypeSignature env
        { typeDecl with isValidatingGenericSignature := true } hist =
      ({ typeDecl with isValidatingGenericSignature := true }, hist) ∧
    (validateGenericTypeSignature env typeDecl hist).1.isValidatingGenericSignature =
      typeDecl.isValidatingGenericSignature ∧
    validateGenericTypeSignature env
        { typeDecl with isValidatingGenericSignature := false, genericParams := none } hist =
      ({ typeDecl with
          isValidatingGenericSignature := false,
          genericParams := none,
          genericEnvironment := typeDecl.declContext.genericEnvironmentOfContext }, hist) ∧
    ∀ gp : GenericParamList,
      (validateGenericTypeSignature env
        { typeDecl with isValidatingGenericSignature := false, genericParams := some gp }
        hist).1.isValidatingGenericSignature = false ∧
      ∃ reached,
        (validateGenericTypeSignature env
          { typeDecl with isValidatingGenericSignature := false, genericParams := some gp }
          hist).1.genericEnvironment =
          some (env.getGenericEnvironment reached
            (validateGenericSignature env gp typeDecl.declContext.genericSignatureOfContext
              false none hist).1) := by
  refine ⟨?_, ?_, ?_, ?_⟩
  · simp [validateGenericTypeSignature]
  · cases hflag : typeDecl.isValidatingGenericSignature with
    | true => simp [validateGenericTypeSignature, hflag]
    | false => simp [validateGenericTypeSignature, hflag]
  · simp [validateGenericTypeSignature, validateGenericTypeSignature.validate]
  · intro gp
    refine ⟨by simp [validateGenericTypeSignature], ?_⟩
    simp only [validateGenericTypeSignature, validateGenericTypeSignature.validate,
      Bool.false_eq_true, if_false]
    exact ⟨_, rfl⟩

/-- A declaration that is being validated is returned as it is. -/
theorem validateGenericTypeSignature_sample_reentrant :
    validateGenericTypeSignature sampleTypeDeclSema
        { sampleTypeDecl with isValidatingGenericSignature := true } [] =
      ({ sampleTypeDecl with isValidatingGenericSignature := true }, []) ∧
    (validateGenericTypeSignature sampleTypeDeclSema sampleNestedTypeDecl []) =
      ({ sampleNestedTypeDecl with
          genericEnvironment := sampleDeclContext.genericEnvironmentOfContext }, []) ∧
    (validateGenericTypeSignature sampleTypeDeclSema sampleTypeDecl
      []).1.isValidatingGenericSignature = false ∧
    (validateGenericTypeSignature sampleTypeDeclSema sampleTypeDecl
      []).1.genericEnvironment.isSome = true := by
  decide

/-! ## The calls of `validateGenericFuncSignature` -/

theorem addsNoSelfDiagnostic.refl (hist : List Event) : addsNoSelfDiagnostic hist hist :=
  ⟨[], by simp, by simp⟩

theorem addsNoSelfDiagnostic.trans (a b c : List Event) (hab : addsNoSelfDiagnostic a b)
    (hbc : addsNoSelfDiagnostic b c) : addsNoSelfDiagnostic a c := by
  obtain ⟨x, hx, hqx⟩ := hab
  obtain ⟨y, hy, hqy⟩ := hbc
  refine ⟨x ++ y, by rw [hy, hx, List.append_assoc], ?_⟩
  intro e he
  rcases List.mem_append.mp he with h | h
  · exact hqx e h
  · exact hqy e h

theorem addsNoSelfDiagnostic.append (hist calls : List Event)
    (h : ∀ e ∈ calls, e.isRestrictsSelf = false) :
    addsNoSelfDiagnostic hist (hist ++ calls) :=
  ⟨calls, rfl, h⟩

theorem checkGenericParamList.checkInheritance_quiet (env : Sema) (builder : Bool)
    (resolver : Option GenericTypeResolver) (params : List GenericTypeParamDecl)
    (hist : List Event) :
    addsNoSelfDiagnostic hist
      (checkGenericParamList.checkInheritance env builder resolver params hist).2 := by
  obtain ⟨inh, h1, h2, _⟩ := checkGenericParamList.checkInheritance_trace env builder
    resolver params hist
  refine ⟨inh, h1, ?_⟩
  intro e he
  have hstep := h2 e he
  cases e <;> simp_all [Event.step, Event.isRestrictsSelf]

theorem checkGenericParamList.checkRequirement_quiet (env : Sema) (builder : Bool)
    (whereLoc : SourceLoc) (options : TypeResolutionOptions)
    (resolver : Option GenericTypeResolver) (hist : List Event) (req : RequirementRepr) :
    addsNoSelfDiagnostic hist
      (checkGenericParamList.checkRequirement env builder whereLoc options resolver
        hist req).2 := by
  refine ⟨(checkGenericParamList.checkRequirement env builder whereLoc options resolver
    hist req).2.drop hist.length, ?_, ?_⟩
  · obtain ⟨later, hlater⟩ := checkGenericParamList.checkRequirements_extends env builder
      whereLoc options resolver [req] hist
    simp only [checkGenericParamList.checkRequirements] at hlater
    rw [hlater, List.drop_left]
  · obtain ⟨kind, firstLoc, secondLoc, invalid⟩ := req
    cases invalid with
    | true => simp [checkGenericParamList.checkRequirement]
    | false =>
      simp only [checkGenericParamList.checkRequirement,
        checkGenericParamList.validateRequirement]
      rcases h1 : env.validateType hist firstLoc options resolver with ⟨b1, t1⟩
      rcases h2 : env.validateType (hist ++ [Event.validateType firstLoc options resolver])
        secondLoc options resolver with ⟨b2, t2⟩
      cases hadd : env.addRequirement
        (hist ++ [Event.validateType firstLoc options resolver,
          Event.validateType secondLoc options resolver])
        ⟨kind, firstLoc.setType (some t1) true, secondLoc.setType (some t2) true, false⟩ <;>
      cases kind <;> cases b1 <;> cases b2 <;> cases builder <;>
        cases hex : t2.isExistentialType <;>
        cases hcl : t2.getClassOrBoundGenericClass <;>
        simp [h1, h2, hadd, hex, hcl, List.drop_left, Event.isRestrictsSelf]

theorem checkGenericParamList.checkRequirements_quiet (env : Sema) (builder : Bool)
    (whereLoc : SourceLoc) (options : TypeResolutionOptions)
    (resolver : Option GenericTypeResolver) (reqs : List RequirementRepr)
    (hist : List Event) :
    addsNoSelfDiagnostic hist
      (checkGenericParamList.checkRequirements env builder whereLoc options resolver
        reqs hist).2 := by
  induction reqs generalizing hist with
  | nil => exact addsNoSelfDiagnostic.refl hist
  | cons req rest ih =>
    simp only [checkGenericParamList.checkRequirements]
    exact addsNoSelfDiagnostic.trans _ _ _
      (checkGenericParamList.checkRequirement_quiet env builder whereLoc options resolver
        hist req) (ih _)

theorem checkGenericParamList_quiet (env : Sema) (builder : Bool)
    (genericParams : Option GenericParamList) (parentSig : Option GenericSignature)
    (parentEnv : Option GenericEnvironment) (resolver : Option GenericTypeResolver)
    (hist : List Event) :
    addsNoSelfDiagnostic hist
      (checkGenericParamList env builder genericParams parentSig parentEnv resolver
        hist).2 := by
  have hparent : addsNoSelfDiagnostic hist
      (if builder then hist ++ [Event.addGenericSignature parentSig parentEnv] else hist) := by
    cases builder
    · exact addsNoSelfDiagnostic.refl hist
    · exact addsNoSelfDiagnostic.append hist _ (by simp [Event.isRestrictsSelf])
  cases genericParams with
  | none => exact hparent
  | some gp =>
    simp only [checkGenericParamList, checkGenericParamList.addParams_eq]
    have hadd : addsNoSelfDiagnostic
        (if builder then hist ++ [Event.addGenericSignature parentSig parentEnv] else hist)
        ((if builder then hist ++ [Event.addGenericSignature parentSig parentEnv] else hist) ++
          (if builder then
            gp.params.map (fun p => Event.addGenericParameter (p.setDepth gp.depth))
           else [])) := by
      apply addsNoSelfDiagnostic.append
      intro e he
      cases builder
      · simp at he
      · simp only [if_true, List.mem_map] at he
        obtain ⟨p, _, hp⟩ := he
        subst hp; rfl
    exact addsNoSelfDiagnostic.trans _ _ _ hparent
      (addsNoSelfDiagnostic.trans _ _ _ hadd
        (addsNoSelfDiagnostic.trans _ _ _
          (checkGenericParamList.checkInheritance_quiet env builder resolver _ _)
          (checkGenericParamList.checkRequirements_quiet env builder _ _ resolver _ _)))

theorem checkGenericFuncSignature.checkParameterLists_quiet (env : FunctionSema)
    (builder : Bool) (resolver : GenericTypeResolver) (lists : List ParameterList)
    (badType : Bool) (hist : List Event) :
    addsNoSelfDiagnostic hist
      (checkGenericFuncSignature.checkParameterLists env builder resolver lists badType
        hist).2.2 := by
  induction lists generalizing badType hist with
  | nil => exact addsNoSelfDiagnostic.refl hist
  | cons params rest ih =>
    simp only [checkGenericFuncSignature.checkParameterLists]
    refine addsNoSelfDiagnostic.trans _ _ _ ?_ (ih _ _)
    cases builder
    · exact addsNoSelfDiagnostic.append hist _ (by simp [Event.isRestrictsSelf])
    · simp only [if_true, List.append_assoc]
      exact addsNoSelfDiagnostic.append hist _ (by simp [Event.isRestrictsSelf])

theorem checkGenericFuncSignature_quiet (env : FunctionSema) (builder : Bool)
    (func : AbstractFunctionDecl) (resolver : GenericTypeResolver) (hist : List Event) :
    addsNoSelfDiagnostic hist
      (checkGenericFuncSignature env builder func resolver hist).2.2 := by
  have hlist := checkGenericParamList_quiet env.toSema builder func.genericParams
    func.declContext.genericSignatureOfContext none (some resolver) hist
  have hparams := checkGenericFuncSignature.checkParameterLists_quiet env builder resolver
    func.parameterLists false
    (checkGenericParamList env.toSema builder func.genericParams
      func.declContext.genericSignatureOfContext none (some resolver) hist).2
  unfold checkGenericFuncSignature
  simp only []
  by_cases hc : func.kind = .FuncDecl ∧ (!func.bodyResultTypeLoc.isNull) = true
  · rw [if_pos hc]
    simp only []
    refine addsNoSelfDiagnostic.trans _ _ _ hlist (addsNoSelfDiagnostic.trans _ _ _ hparams ?_)
    split
    · rw [List.append_assoc]
      exact addsNoSelfDiagnostic.append _ _ (by simp [Event.isRestrictsSelf])
    · exact addsNoSelfDiagnostic.append _ _ (by simp [Event.isRestrictsSelf])
  · rw [if_neg hc]
    exact addsNoSelfDiagnostic.trans _ _ _ hlist hparams

theorem checkGenericFuncSignature_decl (env : FunctionSema) (builder : Bool)
    (func : AbstractFunctionDecl) (resolver : GenericTypeResolver) (hist : List Event) :
    (checkGenericFuncSignature env builder func resolver hist).2.1.loc = func.loc ∧
    (checkGenericFuncSignature env builder func resolver hist).2.1.descriptiveKind =
      func.descriptiveKind ∧
    (checkGenericFuncSignature env builder func resolver hist).2.1.fullName = func.fullName ∧
    (checkGenericFuncSignature env builder func resolver hist).2.1.declContext =
      func.declContext ∧
    (checkGenericFuncSignature env builder func resolver hist).2.1.type = func.type ∧
    (checkGenericFuncSignature env builder func resolver hist).2.1.genericParams.isSome =
      func.genericParams.isSome := by
  have hsome : (checkGenericParamList env.toSema builder func.genericParams
      func.declContext.genericSignatureOfContext none (some resolver) hist).1.isSome =
      func.genericParams.isSome := by
    cases func.genericParams <;> rfl
  unfold checkGenericFuncSignature
  simp only []
  by_cases hc : func.kind = .FuncDecl ∧ (!func.bodyResultTypeLoc.isNull) = true
  · rw [if_pos hc]
    exact ⟨rfl, rfl, rfl, rfl, rfl, hsome⟩
  · rw [if_neg hc]
    exact ⟨rfl, rfl, rfl, rfl, rfl, hsome⟩

theorem revertGenericFuncSignature_decl (func : AbstractFunctionDecl) :
    (revertGenericFuncSignature func).loc = func.loc ∧
    (revertGenericFuncSignature func).descriptiveKind = func.descriptiveKind ∧
    (revertGenericFuncSignature func).fullName = func.fullName ∧
    (revertGenericFuncSignature func).declContext = func.declContext ∧
    (revertGenericFuncSignature func).type = none ∧
    (revertGenericFuncSignature func).genericParams.isSome = func.genericParams.isSome := by
  unfold revertGenericFuncSignature AbstractFunctionDecl.clearType
  simp only []
  cases hgp : func.genericParams <;> split <;> split <;> simp [hgp]

theorem validateGenericFuncSignature.dependentPass_decl (env : FunctionSema)
    (func : AbstractFunctionDecl) (hist : List Event) :
    addsNoSelfDiagnostic hist (validateGenericFuncSignature.dependentPass env func hist).2.2 ∧
    (validateGenericFuncSignature.dependentPass env func hist).2.1.loc = func.loc ∧
    (validateGenericFuncSignature.dependentPass env func hist).2.1.descriptiveKind =
      func.descriptiveKind ∧
    (validateGenericFuncSignature.dependentPass env func hist).2.1.fullName =
      func.fullName ∧
    (validateGenericFuncSignature.dependentPass env func hist).2.1.declContext =
      func.declContext ∧
    (validateGenericFuncSignature.dependentPass env func hist).2.1.genericParams.isSome =
      func.genericParams.isSome := by
  obtain ⟨h1, h2, h3, h4, _, h6⟩ := checkGenericFuncSignature_decl env true func .Dependent hist
  have hq := checkGenericFuncSignature_quiet env true func .Dependent hist
  unfold validateGenericFuncSignature.dependentPass
  simp only []
  split
  · exact ⟨hq, h1, h2, h3, h4, h6⟩
  · exact ⟨hq, h1, h2, h3, h4, h6⟩

theorem validateGenericFuncSignature.completePass_decl (env : FunctionSema) (invalid : Bool)
    (func : AbstractFunctionDecl) (hist : List Event) :
    addsNoSelfDiagnostic hist
      (validateGenericFuncSignature.completePass env invalid func hist).2.2.2 ∧
    (validateGenericFuncSignature.completePass env invalid func hist).2.2.1.loc = func.loc ∧
    (validateGenericFuncSignature.completePass env invalid func hist).2.2.1.descriptiveKind =
      func.descriptiveKind ∧
    (validateGenericFuncSignature.completePass env invalid func hist).2.2.1.fullName =
      func.fullName ∧
    (validateGenericFuncSignature.completePass env invalid func hist).2.2.1.declContext =
      func.declContext ∧
    (validateGenericFuncSignature.completePass env invalid func hist).2.2.1.type = none ∧
    (validateGenericFuncSignature.completePass env invalid func hist).2.2.1.genericParams.isSome
      = func.genericParams.isSome := by
  obtain ⟨r1, r2, r3, r4, r5, r6⟩ := revertGenericFuncSignature_decl func
  obtain ⟨h1, h2, h3, h4, h5, h6⟩ := checkGenericFuncSignature_decl env false
    (revertGenericFuncSignature func) .Complete (hist ++ [Event.finalize func.loc])
  have hq := checkGenericFuncSignature_quiet env false (revertGenericFuncSignature func)
    .Complete (hist ++ [Event.finalize func.loc])
  unfold validateGenericFuncSignature.completePass validateGenericFuncSignature.secondPass
  simp only []
  refine ⟨?_, h1.trans r1, h2.trans r2, h3.trans r3, h4.trans r4, h5.trans r5, h6.trans r6⟩
  refine addsNoSelfDiagnostic.trans _ _ _
    (addsNoSelfDiagnostic.append hist [Event.finalize func.loc]
      (by simp [Event.isRestrictsSelf]))
    (addsNoSelfDiagnostic.trans _ _ _ hq ?_)
  rw [List.append_assoc]
  exact addsNoSelfDiagnostic.append _ _ (by simp [Event.isRestrictsSelf])

theorem configureInterfaceType_quiet (env : FunctionSema) (func : AbstractFunctionDecl)
    (sig : Option GenericSignature) (hist : List Event) :
    addsNoSelfDiagnostic hist (configureInterfaceType env func sig hist).2 ∧
    (configureInterfaceType env func sig hist).1.type = func.type := by
  unfold configureInterfaceType
  simp only []
  have hrec : ∀ folded, (configureInterfaceType.record func folded).type = func.type := by
    intro folded
    unfold configureInterfaceType.record
    simp only []
    split <;> rfl
  split
  · rw [configureInterfaceType.checkReferenced_eq]
    refine ⟨addsNoSelfDiagnostic.append _ _ ?_, ?_⟩
    · intro e he
      obtain ⟨gp, _, hgp⟩ := List.mem_map.mp he
      subst hgp
      simp [unreferencedDiagnostic, Event.isRestrictsSelf]
    · simp only []
      split
      · exact hrec _
      · exact hrec _
  · exact ⟨addsNoSelfDiagnostic.refl hist, hrec _⟩

theorem validateGenericFuncSignature.protocolCheck_trace (env : FunctionSema)
    (invalid : Bool) (sig : GenericSignature) (func : AbstractFunctionDecl)
    (hist : List Event) (proto : String) (hparams : func.genericParams.isSome = true)
    (hproto : func.declContext.protocolDecl = some proto) :
    (validateGenericFuncSignature.protocolCheck env invalid sig func hist).2 =
      hist ++ (if invalid then []
        else (sig.requirements.filter (restrictsSelf proto)).map
          (restrictsSelfDiagnostic env func)) := by
  obtain ⟨gp, hgp⟩ := Option.isSome_iff_exists.mp hparams
  cases invalid <;>
    simp [validateGenericFuncSignature.protocolCheck, hgp, hproto,
      validateGenericFuncSignature.checkSelfRequirements_trace]

/-- C11: for a function that has generic parameters of its own and is declared
in the protocol `proto`, `validateGenericFuncSignature` behaves as follows.
When the dependent pass leaves the function with a type (a recursive
validation), it returns null and none of its calls is a self-restricting
diagnostic; when `invalid` is set before the check, none is either.
Otherwise the result is the signature of the builder and the calls are: calls
without such a diagnostic; then, in the order of the signature, one
self-restricting diagnostic for each requirement both of whose types are
`Self`, an associated type of `Self` or concrete, other than the conformance
of `Self` to `proto`; then calls without such a diagnostic.  A requirement
that mentions another generic parameter on either side is never diagnosed.
The function gets the error type exactly when the language version is 4 or
later and some requirement was diagnosed. -/
theorem validateGenericFuncSignature_diagnoses_self_restricting (env : FunctionSema)
    (func : AbstractFunctionDecl) (hist : List Event) (proto : String)
    (hparams : func.genericParams.isSome = true)
    (hproto : func.declContext.protocolDecl = some proto) :
    ((validateGenericFuncSignature.dependentPass env func hist).2.1.type.isSome = true →
      (validateGenericFuncSignature env func hist).1 = none ∧
      addsNoSelfDiagnostic hist (validateGenericFuncSignature env func hist).2.2) ∧
    ((validateGenericFuncSignature.dependentPass env func hist).2.1.type = none →
      (validateGenericFuncSignature.completePass env
        (validateGenericFuncSignature.dependentPass env func hist).1
        (validateGenericFuncSignature.dependentPass env func hist).2.1
        (validateGenericFuncSignature.dependentPass env func hist).2.2).1 = true →
      addsNoSelfDiagnostic hist (validateGenericFuncSignature env func hist).2.2) ∧
    ((validateGenericFuncSignature.dependentPass env func hist).2.1.type = none →
      (validateGenericFuncSignature.completePass env
        (validateGenericFuncSignature.dependentPass env func hist).1
        (validateGenericFuncSignature.dependentPass env func hist).2.1
        (validateGenericFuncSignature.dependentPass env func hist).2.2).1 = false →
      ∃ (sig : GenericSignature) (before after : List Event),
        (validateGenericFuncSignature env func hist).1 = some sig ∧
        (validateGenericFuncSignature env func hist).2.2 =
          hist ++ before ++
            (sig.requirements.filter (restrictsSelf proto)).map
              (restrictsSelfDiagnostic env func) ++ after ∧
        (∀ e ∈ before, e.isRestrictsSelf = false) ∧
        (∀ e ∈ after, e.isRestrictsSelf = false) ∧
        ((validateGenericFuncSignature env func hist).2.1.type = some .error ↔
          (4 ≤ env.effectiveLanguageVersion ∧
            ∃ req ∈ sig.requirements, restrictsSelf proto req = true)) ∧
        ((4 ≤ env.effectiveLanguageVersion ∧
            ∃ req ∈ sig.requirements, restrictsSelf proto req = true) →
          (validateGenericFuncSignature env func hist).2.1.interfaceType = some .error)) ∧
    (∀ req : Requirement, restrictsSelf proto req = true ↔
      (isSelfDerivedOrConcrete req.first = true ∧ isSelfDerivedOrConcrete req.second = true ∧
        ¬ isSelfConformance proto req)) ∧
    (∀ req : Requirement,
      (req.first.mentionsNonSelfParam ∨ req.second.mentionsNonSelfParam) →
      restrictsSelf proto req = false) := by
  obtain ⟨hq1, d1, d2, d3, d4, d6⟩ :=
    validateGenericFuncSignature.dependentPass_decl env func hist
  have hc := validateGenericFuncSignature.completePass_decl env
    (validateGenericFuncSignature.dependentPass env func hist).1
    (validateGenericFuncSignature.dependentPass env func hist).2.1
    (validateGenericFuncSignature.dependentPass env func hist).2.2
  have hite : ∀ b : Bool, (if b = true then true else false) = b := by
    intro b; cases b <;> rfl
  unfold validateGenericFuncSignature
  simp only [hite]
  generalize validateGenericFuncSignature.dependentPass env func hist = first at *
  obtain ⟨bad1, f1, h1⟩ := first
  simp only at hq1 d1 d2 d3 d4 d6 hc ⊢
  generalize validateGenericFuncSignature.completePass env bad1 f1 h1 = second at *
  obtain ⟨inv2, sig, f2, h2⟩ := second
  simp only at hc ⊢
  obtain ⟨hq2, c1, c2, c3, c4, c5, c6⟩ := hc
  have hparams2 : f2.genericParams.isSome = true := by rw [c6, d6]; exact hparams
  have hproto2 : f2.declContext.protocolDecl = some proto := by rw [c4, d4]; exact hproto
  have hdiag : restrictsSelfDiagnostic env f2 = restrictsSelfDiagnostic env func := by
    funext req
    unfold restrictsSelfDiagnostic
    rw [c1, c2, c3, d1, d2, d3]
  have htrace := validateGenericFuncSignature.protocolCheck_trace env inv2 sig f2 h2 proto
    hparams2 hproto2
  have hinv := validateGenericFuncSignature.protocolCheck_invalid env inv2 sig f2 h2
  generalize validateGenericFuncSignature.protocolCheck env inv2 sig f2 h2 = chk at *
  obtain ⟨invalid, h3⟩ := chk
  simp only at htrace hinv ⊢
  have hq12 := addsNoSelfDiagnostic.trans _ _ _ hq1 hq2
  have hdump : ∀ h : List Event,
      addsNoSelfDiagnostic h (if env.debugGenericSignatures then h ++ [Event.dump] else h) := by
    intro h
    split
    · exact addsNoSelfDiagnostic.append _ _ (by simp [Event.isRestrictsSelf])
    · exact addsNoSelfDiagnostic.refl h
  refine ⟨?_, ?_, ?_, restrictsSelf_iff proto, ?_⟩
  · intro hty
    simp only [hty, if_true]
    exact ⟨trivial, hq1⟩
  · intro hty hinv2
    subst hinv2
    simp only [if_true, List.append_nil] at htrace
    subst htrace
    have hinvalid : invalid = true := hinv.mpr (Or.inl rfl)
    subst hinvalid
    simp only [hty, Option.isSome_none, Bool.false_eq_true, if_false, if_true]
    exact addsNoSelfDiagnostic.trans _ _ _ hq12 (hdump _)
  · intro hty hinv2
    subst hinv2
    simp only [Bool.false_eq_true, if_false] at htrace
    rw [hdiag] at htrace
    subst htrace
    obtain ⟨before, hbefore, hqb⟩ := hq12
    subst hbefore
    have hcond : invalid = true ↔ (4 ≤ env.effectiveLanguageVersion ∧
        ∃ req ∈ sig.requirements, restrictsSelf proto req = true) := by
      rw [hinv]
      constructor
      · rintro (h | ⟨hv, _, p, hp, hreq⟩)
        · cases h
        · rw [hproto2] at hp
          cases hp
          exact ⟨hv, hreq⟩
      · rintro ⟨hv, hreq⟩
        exact Or.inr ⟨hv, hparams2, proto, hproto2, hreq⟩
    simp only [hty, Option.isSome_none, Bool.false_eq_true, if_false]
    cases invalid with
    | true =>
      simp only [if_true]
      obtain ⟨dump, hd, hqd⟩ := hdump (hist ++ before ++
        (sig.requirements.filter (restrictsSelf proto)).map (restrictsSelfDiagnostic env func))
      refine ⟨sig, before, dump, rfl, hd, hqb, hqd, ?_, fun _ => trivial⟩
      exact ⟨fun _ => hcond.mp rfl, fun _ => trivial⟩
    | false =>
      simp only [Bool.false_eq_true, if_false]
      obtain ⟨dump, hd, hqd⟩ := hdump (hist ++ before ++
        (sig.requirements.filter (restrictsSelf proto)).map (restrictsSelfDiagnostic env func))
      obtain ⟨⟨conf, hcf, hqc⟩, htype⟩ := configureInterfaceType_quiet env f2 (some sig)
        (if env.debugGenericSignatures then
          hist ++ before ++ (sig.requirements.filter (restrictsSelf proto)).map
            (restrictsSelfDiagnostic env func) ++ [Event.dump]
         else hist ++ before ++ (sig.requirements.filter (restrictsSelf proto)).map
            (restrictsSelfDiagnostic env func))
      have hno : ¬ (4 ≤ env.effectiveLanguageVersion ∧
          ∃ req ∈ sig.requirements, restrictsSelf proto req = true) := by
        intro h
        exact Bool.noConfusion (hcond.mpr h)
      refine ⟨sig, before, dump ++ conf, rfl, ?_, hqb, ?_, ?_, fun h => absurd h hno⟩
      · rw [hcf, hd, List.append_assoc]
      · intro e he
        rcases List.mem_append.mp he with h | h
        · exact hqd e h
        · exact hqc e h
      · rw [htype, c5]
        exact ⟨fun h => (by cases h), fun h => absurd h hno⟩
  · intro req h
    unfold restrictsSelf
    rcases h with h | h
    · simp [isSelfDerivedOrConcrete_of_mentionsNonSelfParam _ h]
    · simp [isSelfDerivedOrConcrete_of_mentionsNonSelfParam _ h]

/-- Witness for C11: for the sample method of the protocol `Container` the
builder answers with `<Self, V> where Self : Container, Self : Comparable,
Self.Element == Int, V : Comparable, V == Self.Element`; the requirements
`Self : Comparable` and `Self.Element == Int` are diagnosed, in this order,
and under language version 4 the function gets the error type. -/
theorem validateGenericFuncSignature_diagnoses_self_restricting_witness :
    (∃ (sig : GenericSignature) (before after : List Event),
      (validateGenericFuncSignature sampleProtocolSema sampleProtocolFunc []).1 = some sig ∧
      (validateGenericFuncSignature sampleProtocolSema sampleProtocolFunc []).2.2 =
        [] ++ before ++
          (sig.requirements.filter (restrictsSelf "Container")).map
            (restrictsSelfDiagnostic sampleProtocolSema sampleProtocolFunc) ++ after ∧
      (∀ e ∈ before, e.isRestrictsSelf = false) ∧
      (∀ e ∈ after, e.isRestrictsSelf = false) ∧
      ((validateGenericFuncSignature sampleProtocolSema sampleProtocolFunc []).2.1.type =
          some .error ↔
        (4 ≤ sampleProtocolSema.effectiveLanguageVersion ∧
          ∃ req ∈ sig.requirements, restrictsSelf "Container" req = true)) ∧
      ((4 ≤ sampleProtocolSema.effectiveLanguageVersion ∧
          ∃ req ∈ sig.requirements, restrictsSelf "Container" req = true) →
        (validateGenericFuncSignature sampleProtocolSema sampleProtocolFunc
          []).2.1.interfaceType = some .error)) ∧
    (validateGenericFuncSignature sampleProtocolSema sampleProtocolFunc []).2.2.filter
        Event.isRestrictsSelf =
      [restrictsSelfDiagnostic sampleProtocolSema sampleProtocolFunc
        ⟨.Conformance, .genericTypeParam sampleSelf, .protocol "Comparable"⟩,
       restrictsSelfDiagnostic sampleProtocolSema sampleProtocolFunc
        ⟨.SameType, .dependentMember (.genericTypeParam sampleSelf) "Element",
          .structTy "Int"⟩] ∧
    (validateGenericFuncSignature sampleProtocolSema sampleProtocolFunc []).2.1.type =
      some .error :=
  ⟨(validateGenericFuncSignature_diagnoses_self_restricting sampleProtocolSema
      sampleProtocolFunc [] "Container" rfl rfl).2.2.1 (by decide) (by decide),
   by decide, by decide⟩

end Swift
